import Mathlib

/-!
# Galaxy: procedural star field and interstellar gas

A shallow embedding of `Source/Stars.cpp` and `Source/GalacticGas.cpp`.

Conventions of the embedding.

* `float` and `double` values are elements of a linearly ordered field `F`
  with a floor function (`ℚ` when a definition is evaluated, `ℝ` for the
  analytic reading).  Arithmetic is exact: rounding, infinities and NaN are
  not represented.
* The functions of `<cmath>` whose values are not rational expressions of
  their arguments (`cos`, `sin`, `sqrt`, `log`, `exp`, `acos`, `atan2`,
  `pow`) are the fields of a `Libm F` passed to every function that calls
  them.  `fmodf`, `fabs`, `fmin` and the conversion `(int)` are exact and are
  defined here.
* `<random>` is a `Random F G`: `G` is the state of the engine together with
  the state of the distribution objects built next to it, and every draw
  returns the value drawn and the next state.
* `int` is `Int`; a loop `for (int i = 0; i < n; i++)` whose body does not
  touch `i` runs `n.toNat` times, and a loop over the indices of a vector `v`
  that reads `v[i]` is a fold over `v.enum`, the pairs `(i, v[i])`.
  `std::vector<T>` is `List T`, `push_back` appends at the end, `reserve`
  does not change the contents.
* Division by zero has the value `0` of the field, and a loop on a
  floating value ends because the field is archimedean.
-/

namespace Galaxy

/-! ## `<cmath>` and `<random>` -/

/-- The transcendental part of `<cmath>` used by the sources. -/
structure Libm (F : Type) where
  cos : F → F
  sin : F → F
  sqrt : F → F
  log : F → F
  exp : F → F
  acos : F → F
  atan2 : F → F → F
  pow : F → F → F

/-- The part of `<random>` used by the sources: `mt19937 seed` is
`std::mt19937 rng(seed)` followed by the construction of the distribution
objects, `next` is `rng()`, `dist` is a draw of
`std::uniform_real_distribution<float>(0.0f, 1.0f)` and `normalDist` a draw of
`std::normal_distribution<float>(0.0f, 1.0f)`. -/
structure Random (F G : Type) where
  mt19937 : Nat → G
  next : G → Nat × G
  dist : G → F × G
  normalDist : G → F × G

/-- The conversions to the floating types of the sources: `f32 x` is the
`float` and `f64 x` the `double` with the value nearest to `x`.  A floating
operation of C++ is the exact operation followed by the conversion to the type
of its result; a conversion from `float` to `double` is exact. -/
structure Rounding (F : Type) where
  f32 : F → F
  f64 : F → F

section Numeric

variable {F : Type} [LinearOrderedField F] [FloorRing F]

/-- The macro `M_PI` of both sources: `#define M_PI 3.14159265358979323846`. -/
def M_PI : F := 314159265358979323846 / 100000000000000000000

/-- The conversion `(int) v` of a floating value: truncation toward zero. -/
def truncToInt (v : F) : Int := if 0 ≤ v then ⌊v⌋ else ⌈v⌉

/-- The C function `fmodf x y`: `x - n * y` where `n` is `x / y` with its
fractional part truncated. -/
def fmodf (x y : F) : F := x - (truncToInt (x / y) : F) * y

/-- The nearest integer, ties to the even one. -/
def roundHalfEven (q : ℚ) : Int :=
  if q - ⌊q⌋ < 1 / 2 then ⌊q⌋
  else if 1 / 2 < q - ⌊q⌋ then ⌊q⌋ + 1
  else if ⌊q⌋ % 2 = 0 then ⌊q⌋ else ⌊q⌋ + 1

/-- The nearest value of the binary floating format with `p` significant bits
and least normal exponent `emin` (IEEE 754, round to nearest, ties to even):
the spacing of the format at `x` is `2 ^ (e - (p - 1))` for the exponent
`e = max ⌊log₂ |x|⌋ emin`.  Overflow to infinity is not represented. -/
def roundNearestEven (p : Nat) (emin : Int) (x : ℚ) : ℚ :=
  (roundHalfEven (x / 2 ^ (max (Int.log 2 |x|) emin - (p - 1))) : ℚ)
    * 2 ^ (max (Int.log 2 |x|) emin - (p - 1))

end Numeric

/-! ## Data model (`Stars.h`, `GalacticGas.h`) -/

/-- The `struct Star` of `Stars.h`. -/
structure Star (F : Type) where
  x : F
  y : F
  z : F
  r : F
  g : F
  b : F
  brightness : F
  radius : F
  angle : F
  angularVelocity : F

/-- The `struct GalaxyConfig` of `Stars.h`. -/
structure GalaxyConfig (F : Type) where
  numStars : Int
  numSpiralArms : Int
  spiralTightness : F
  armWidth : F
  diskRadius : F
  bulgeRadius : F
  diskHeight : F
  bulgeHeight : F
  armDensityBoost : F
  seed : Nat
  rotationSpeed : F

/-- The `enum class GasType` of `GalacticGas.h`. -/
inductive GasType where
  | MOLECULAR
  | COLD_NEUTRAL
  | WARM_NEUTRAL
  | WARM_IONIZED
  | HOT_IONIZED
  | CORONAL
  deriving DecidableEq, Repr

/-- The `struct GasCloud` of `GalacticGas.h`. -/
structure GasCloud (F : Type) where
  x : F
  y : F
  z : F
  type : GasType
  mass : F
  smoothingLength : F
  temperature : F
  density : F
  r : F
  g : F
  b : F
  alpha : F
  orbitalRadius : F
  angle : F
  angularVelocity : F
  turbulencePhase : F
  turbulenceSpeed : F
  isDarkLane : Bool
  elongation : F
  rotationAngle : F

/-- The `struct GasConfig` of `GalacticGas.h`. -/
structure GasConfig (F : Type) where
  numMolecularClouds : Int
  numColdNeutralClouds : Int
  numWarmNeutralClouds : Int
  numWarmIonizedClouds : Int
  numHotIonizedClouds : Int
  numCoronalClouds : Int
  molecularScaleHeight : F
  neutralScaleHeight : F
  ionizedScaleHeight : F
  coronalScaleHeight : F
  enableTurbulence : Bool
  enableDensityWaves : Bool

/-! ## Kinematics (`updateStarPositions`, `updateGalacticGas`) -/

section Kinematics

variable {F : Type} [LinearOrderedField F] [FloorRing F]

/-- The loop `while (x > hi) x -= 2.0f * M_PI;`, used with `hi = 2π` by
`updateStarPositions` and with `hi = π` by the arm-distance loops.  It
terminates because the field is archimedean. -/
def subWhileAbove {F : Type} [LinearOrderedField F] [FloorRing F] (hi x : F) : F :=
  if hi < x then subWhileAbove hi (x - 2 * M_PI) else x
termination_by Int.toNat ⌈(x - hi) / (2 * M_PI)⌉
decreasing_by
  rename_i h
  have hp : (0 : F) < 2 * M_PI := by unfold M_PI; positivity
  have e : (x - 2 * M_PI - hi) / (2 * M_PI) = (x - hi) / (2 * M_PI) - 1 := by
    field_simp
    ring
  rw [e, Int.ceil_sub_one]
  have h1 : (0 : F) < (x - hi) / (2 * M_PI) := div_pos (sub_pos.mpr h) hp
  have h2 : (0 : Int) < ⌈(x - hi) / (2 * M_PI)⌉ := Int.ceil_pos.mpr h1
  omega

/-- The loop `while (x < lo) x += 2.0f * M_PI;`, used with `lo = 0` by
`updateStarPositions` and with `lo = -π` by the arm-distance loops. -/
def addWhileBelow {F : Type} [LinearOrderedField F] [FloorRing F] (lo x : F) : F :=
  if x < lo then addWhileBelow lo (x + 2 * M_PI) else x
termination_by Int.toNat (-⌊(x - lo) / (2 * M_PI)⌋)
decreasing_by
  rename_i h
  have hp : (0 : F) < 2 * M_PI := by unfold M_PI; positivity
  have e : (x + 2 * M_PI - lo) / (2 * M_PI) = (x - lo) / (2 * M_PI) + 1 := by
    field_simp
    ring
  rw [e, Int.floor_add_one]
  have h1 : (x - lo) / (2 * M_PI) < 0 := div_neg_of_neg_of_pos (sub_neg.mpr h) hp
  have h2 : ⌊(x - lo) / (2 * M_PI)⌋ < 0 := by
    rw [Int.floor_lt]; exact_mod_cast h1
  omega

/-- The body of the loop of `updateStarPositions` for one star, in exact
arithmetic: no operation rounds.  With every conversion of the floating types
written out the body is `updateStarRounded`. -/
def updateStar (m : Libm F) (star : Star F) (deltaTime : F) : Star F :=
  let star := { star with angle := star.angle + star.angularVelocity * deltaTime }
  let star := { star with angle := subWhileAbove (2 * M_PI) star.angle }
  let star := { star with angle := addWhileBelow 0 star.angle }
  let oldY := star.y
  let star := { star with x := star.radius * m.cos star.angle }
  let star := { star with z := star.radius * m.sin star.angle }
  { star with y := oldY }

/-- The function `updateStarPositions(stars, deltaTime)`: the stars are
updated in place, in order. -/
def updateStarPositions (m : Libm F) (stars : List (Star F)) (deltaTime : F) :
    List (Star F) :=
  stars.map fun star => updateStar m star deltaTime

/-- The statement `if (cloud.angle < 0.0f) cloud.angle += TWO_PI;`. -/
def wrapNegativeAngle (cloud : GasCloud F) (TWO_PI : F) : GasCloud F :=
  if cloud.angle < 0 then { cloud with angle := cloud.angle + TWO_PI } else cloud

/-- The statement `if (cloud.type != GasType::CORONAL) { cloud.y = oldY; }`. -/
def restoreHeight (cloud : GasCloud F) (oldY : F) : GasCloud F :=
  if cloud.type ≠ GasType.CORONAL then { cloud with y := oldY } else cloud

/-- The statement
`if (cloud.turbulencePhase < 0.0f) cloud.turbulencePhase += TWO_PI;`. -/
def wrapNegativePhase (cloud : GasCloud F) (TWO_PI : F) : GasCloud F :=
  if cloud.turbulencePhase < 0 then
    { cloud with turbulencePhase := cloud.turbulencePhase + TWO_PI }
  else cloud

/-- The body of the loop of `updateGalacticGas` for one cloud, in exact
arithmetic: no operation rounds; each of its three conditional statements is
the function above it.  With every conversion of the floating types written out
the body is `updateCloudRounded`. -/
def updateCloud (m : Libm F) (cloud : GasCloud F) (deltaTime : F) : GasCloud F :=
  let TWO_PI : F := 2 * M_PI
  let cloud := { cloud with angle := cloud.angle + cloud.angularVelocity * deltaTime }
  let cloud := { cloud with angle := fmodf cloud.angle TWO_PI }
  let cloud := wrapNegativeAngle cloud TWO_PI
  let oldY := cloud.y
  let cloud := { cloud with x := cloud.orbitalRadius * m.cos cloud.angle }
  let cloud := { cloud with z := cloud.orbitalRadius * m.sin cloud.angle }
  let cloud := restoreHeight cloud oldY
  let cloud := { cloud with
    turbulencePhase := cloud.turbulencePhase + cloud.turbulenceSpeed * deltaTime }
  let cloud := { cloud with turbulencePhase := fmodf cloud.turbulencePhase TWO_PI }
  wrapNegativePhase cloud TWO_PI

/-- The function `updateGalacticGas(gasClouds, deltaTime)`. -/
def updateGalacticGas (m : Libm F) (gasClouds : List (GasCloud F)) (deltaTime : F) :
    List (GasCloud F) :=
  gasClouds.map fun cloud => updateCloud m cloud deltaTime

/-- The value of `2.0f * M_PI`: the macro is a `double` constant and the
product is a `double`. -/
def twoPiDouble (fp : Rounding F) : F := fp.f64 (2 * fp.f64 M_PI)

/-- The loop `while (star.angle > 2.0f * M_PI) star.angle -= 2.0f * M_PI;` on the
`float` field: the comparison and the difference are in `double`, the
assignment converts to `float`.  The loop has no bound of its own, so `fuel`
bounds the number of tests; `none` means that the fuel ran out. -/
def subtractLoop (fp : Rounding F) : Nat → F → Option F
  | 0, angle => if angle > twoPiDouble fp then none else some angle
  | fuel + 1, angle =>
      if angle > twoPiDouble fp then
        subtractLoop fp fuel (fp.f32 (fp.f64 (angle - twoPiDouble fp)))
      else some angle

/-- The loop `while (star.angle < 0.0f) star.angle += 2.0f * M_PI;` on the
`float` field, with `fuel` as in `subtractLoop`. -/
def addLoop (fp : Rounding F) : Nat → F → Option F
  | 0, angle => if angle < 0 then none else some angle
  | fuel + 1, angle =>
      if angle < 0 then addLoop fp fuel (fp.f32 (fp.f64 (angle + twoPiDouble fp)))
      else some angle

/-- The statements of the body of `updateStarPositions` after its two loops,
for the angle that the loops leave; `cos` and `sin` are the `double` functions
and the products are converted to `float` by the assignments. -/
def placeStar (fp : Rounding F) (m : Libm F) (star : Star F) (angle : F) : Star F :=
  let star := { star with angle := angle }
  let oldY := star.y
  let star := { star with x := fp.f32 (fp.f64 (star.radius * m.cos star.angle)) }
  let star := { star with z := fp.f32 (fp.f64 (star.radius * m.sin star.angle)) }
  { star with y := oldY }

/-- The body of the loop of `updateStarPositions` for one star with the
conversions of the C++ types written out: the fields are `float`, `deltaTime`
and `M_PI` are `double`.  The result is `none` when one of the two loops does
not end within `fuel` tests. -/
def updateStarRounded (fp : Rounding F) (m : Libm F) (fuel : Nat) (star : Star F)
    (deltaTime : F) : Option (Star F) :=
  (subtractLoop fp fuel
      (fp.f32 (fp.f64 (star.angle + fp.f64 (star.angularVelocity * deltaTime))))).bind
    fun angle => (addLoop fp fuel angle).bind
      fun angle => some (placeStar fp m star angle)

/-- The function `updateStarPositions(stars, deltaTime)` with the conversions
written out: the stars are updated in order, and the call returns when every
star is done. -/
def updateStarPositionsRounded (fp : Rounding F) (m : Libm F) (fuel : Nat) :
    List (Star F) → F → Option (List (Star F))
  | [], _ => some []
  | star :: stars, deltaTime =>
      (updateStarRounded fp m fuel star deltaTime).bind fun star =>
        (updateStarPositionsRounded fp m fuel stars deltaTime).bind fun stars =>
          some (star :: stars)

/-- The statement `if (x < 0.0f) x += TWO_PI;` on a `float` field: the sum of
two `float` values is a `float`. -/
def wrapNegativeRounded (fp : Rounding F) (x TWO_PI : F) : F :=
  if x < 0 then fp.f32 (x + TWO_PI) else x

/-- The body of the loop of `updateGalacticGas` for one cloud with the
conversions of the C++ types written out: the fields and `TWO_PI` are `float`,
`deltaTime` is `double`; `fmodf` is exact. -/
def updateCloudRounded (fp : Rounding F) (m : Libm F) (cloud : GasCloud F)
    (deltaTime : F) : GasCloud F :=
  let TWO_PI : F := fp.f32 (twoPiDouble fp)
  let cloud := { cloud with
    angle := fp.f32 (fp.f64 (cloud.angle + fp.f64 (cloud.angularVelocity * deltaTime))) }
  let cloud := { cloud with angle := fmodf cloud.angle TWO_PI }
  let cloud := { cloud with angle := wrapNegativeRounded fp cloud.angle TWO_PI }
  let oldY := cloud.y
  let cloud := { cloud with x := fp.f32 (fp.f64 (cloud.orbitalRadius * m.cos cloud.angle)) }
  let cloud := { cloud with z := fp.f32 (fp.f64 (cloud.orbitalRadius * m.sin cloud.angle)) }
  let cloud := restoreHeight cloud oldY
  let cloud := { cloud with
    turbulencePhase :=
      fp.f32 (fp.f64 (cloud.turbulencePhase + fp.f64 (cloud.turbulenceSpeed * deltaTime))) }
  let cloud := { cloud with turbulencePhase := fmodf cloud.turbulencePhase TWO_PI }
  { cloud with turbulencePhase := wrapNegativeRounded fp cloud.turbulencePhase TWO_PI }

/-- The function `updateGalacticGas(gasClouds, deltaTime)` with the conversions
written out. -/
def updateGalacticGasRounded (fp : Rounding F) (m : Libm F) (gasClouds : List (GasCloud F))
    (deltaTime : F) : List (GasCloud F) :=
  gasClouds.map fun cloud => updateCloudRounded fp m cloud deltaTime

/-- The arithmetic without rounding: every conversion is the identity. -/
def exactRounding : Rounding F where
  f32 := id
  f64 := id

end Kinematics

/-! ## Gas population generator (`GalacticGas.cpp`) -/

section GasGenerator

variable {F : Type} [LinearOrderedField F] [FloorRing F] {G : Type}

/-- The constants `MOLECULAR_TEMP` to `CORONAL_TEMP` of `GalacticGas.h`. -/
def MOLECULAR_TEMP : F := 20
def COLD_NEUTRAL_TEMP : F := 80
def WARM_NEUTRAL_TEMP : F := 8000
def WARM_IONIZED_TEMP : F := 8000
def HOT_IONIZED_TEMP : F := 1000000
def CORONAL_TEMP : F := 5000000

/-- The `struct Color4` of `GalacticGas.cpp`. -/
structure Color4 (F : Type) where
  r : F
  g : F
  b : F
  a : F

/-- The function `getGasColor(type, temperature, density, isDarkLane)`: the
colour returned and the value left in the reference parameter `isDarkLane`. -/
def getGasColor (type : GasType) (_temperature : F) (density : F) : Color4 F × Bool :=
  let isDarkLane := false
  match type with
  | GasType.MOLECULAR =>
      let isDarkLane := true
      ({ r := 0, g := 0, b := 0, a := density * 0.5 }, isDarkLane)
  | GasType.COLD_NEUTRAL =>
      ({ r := 0.35, g := 0.28, b := 0.22, a := density * 0.03 }, isDarkLane)
  | GasType.WARM_NEUTRAL =>
      ({ r := 0.5, g := 0.38, b := 0.22, a := density * 0.025 }, isDarkLane)
  | GasType.WARM_IONIZED =>
      ({ r := 0.9, g := 0.25, b := 0.35, a := density * 0.03 }, isDarkLane)
  | GasType.HOT_IONIZED =>
      ({ r := 0.45, g := 0.6, b := 1.0, a := density * 0.05 }, isDarkLane)
  | GasType.CORONAL =>
      ({ r := 0.55, g := 0.4, b := 0.7, a := density * 0.015 }, isDarkLane)

/-- A declared and not yet assigned `GasCloud cloud;`.  Every field is
assigned before the cloud is pushed, so the values chosen here are never
read. -/
def GasCloud.declared : GasCloud F :=
  { x := 0, y := 0, z := 0, type := GasType.MOLECULAR, mass := 0, smoothingLength := 0,
    temperature := 0, density := 0, r := 0, g := 0, b := 0, alpha := 0, orbitalRadius := 0,
    angle := 0, angularVelocity := 0, turbulencePhase := 0, turbulenceSpeed := 0,
    isDarkLane := false, elongation := 0, rotationAngle := 0 }

/-- The function `generateSpiralArmCloud(cloud, rng, numArms, spiralTightness,
armWidth, diskRadius)`; `rng() % numArms` is taken for the positive `numArms`
of the two call sites. -/
def generateSpiralArmCloud (m : Libm F) (rnd : Random F G) (cloud : GasCloud F) (rng : G)
    (numArms : Int) (spiralTightness armWidth diskRadius : F) : GasCloud F × G :=
  let raw := rnd.next rng
  let rng := raw.2
  let armIndex : Int := (raw.1 : Int) % numArms
  let armAngle : F := ((armIndex : F) * 2 * M_PI) / (numArms : F)
  let u := rnd.dist rng
  let rng := u.2
  let radius : F := 100 + u.1 * (diskRadius * 0.8)
  let spiralAngle : F := armAngle + spiralTightness * m.log (radius / 100)
  let u := rnd.dist rng
  let rng := u.2
  let armOffset : F := (u.1 - 0.5) * armWidth
  let perpAngle : F := spiralAngle + M_PI / 2
  let cloud := { cloud with
    x := radius * m.cos spiralAngle + armOffset * m.cos perpAngle }
  let cloud := { cloud with
    z := radius * m.sin spiralAngle + armOffset * m.sin perpAngle }
  let cloud := { cloud with orbitalRadius := m.sqrt (cloud.x * cloud.x + cloud.z * cloud.z) }
  let cloud := { cloud with angle := m.atan2 cloud.z cloud.x }
  (cloud, rng)

/-- The statements that end the body of each of the six loops, after the
turbulence ones: the colour from `getGasColor`, then
`elongation = eBase + dist(rng) * eSpan` and the rotation angle. -/
def colourAndShape (rnd : Random F G) (cloud : GasCloud F) (rng : G) (eBase eSpan : F) :
    GasCloud F × G :=
  let col := getGasColor cloud.type cloud.temperature cloud.density
  let isDark := col.2
  let cloud := { cloud with r := col.1.r }
  let cloud := { cloud with g := col.1.g }
  let cloud := { cloud with b := col.1.b }
  let cloud := { cloud with alpha := col.1.a }
  let cloud := { cloud with isDarkLane := isDark }
  let u := rnd.dist rng
  let rng := u.2
  let cloud := { cloud with elongation := eBase + u.1 * eSpan }
  let u := rnd.dist rng
  let rng := u.2
  let cloud := { cloud with rotationAngle := u.1 * 2 * M_PI }
  (cloud, rng)

/-- The statements `cloud.mass = ...; cloud.smoothingLength = ...;
cloud.density = ...;` of a loop body, each `base + dist(rng) * span`. -/
def massLengthDensity (rnd : Random F G) (cloud : GasCloud F) (rng : G)
    (mBase mSpan hBase hSpan dBase dSpan : F) : GasCloud F × G :=
  let u := rnd.dist rng
  let rng := u.2
  let cloud := { cloud with mass := mBase + u.1 * mSpan }
  let u := rnd.dist rng
  let rng := u.2
  let cloud := { cloud with smoothingLength := hBase + u.1 * hSpan }
  let u := rnd.dist rng
  let rng := u.2
  let cloud := { cloud with density := dBase + u.1 * dSpan }
  (cloud, rng)

/-- The statements `cloud.turbulencePhase = dist(rng) * 2.0f * M_PI;
cloud.turbulenceSpeed = tBase + dist(rng) * tSpan;` of a loop body. -/
def turbulence (rnd : Random F G) (cloud : GasCloud F) (rng : G) (tBase tSpan : F) :
    GasCloud F × G :=
  let u := rnd.dist rng
  let rng := u.2
  let cloud := { cloud with turbulencePhase := u.1 * 2 * M_PI }
  let u := rnd.dist rng
  let rng := u.2
  let cloud := { cloud with turbulenceSpeed := tBase + u.1 * tSpan }
  (cloud, rng)

/-- The body of the `MOLECULAR CLOUDS` loop, up to `push_back` excluded. -/
def molecularCloud (m : Libm F) (rnd : Random F G) (config : GasConfig F)
    (numArms : Int) (spiralTightness armWidth diskRadius bulgeRadius : F) (rng : G) :
    GasCloud F × G :=
  let cloud : GasCloud F := GasCloud.declared
  let cloud := { cloud with type := GasType.MOLECULAR }
  let cloud := { cloud with temperature := MOLECULAR_TEMP }
  let p := generateSpiralArmCloud m rnd cloud rng numArms spiralTightness armWidth diskRadius
  let cloud := p.1
  let rng := p.2
  let n := rnd.normalDist rng
  let rng := n.2
  let cloud := { cloud with y := n.1 * config.molecularScaleHeight }
  let p := massLengthDensity rnd cloud rng 1000 100000 10 25 0.7 0.3
  let cloud := p.1
  let rng := p.2
  let cloud := { cloud with angularVelocity :=
    0.3 / (m.sqrt (cloud.orbitalRadius / bulgeRadius) * (cloud.orbitalRadius + 1)) }
  let p := turbulence rnd cloud rng 0.1 0.2
  colourAndShape rnd p.1 p.2 5 5

/-- The common body of the `COLD NEUTRAL`, `WARM NEUTRAL` and `HOT IONIZED`
loops (exponential disk), with the constants in which they differ;
`scaleHeight` is the factor of the normal draw in `cloud.y`, which for the
warm neutral loop includes its `1.5f`. -/
def diskCloud (m : Libm F) (rnd : Random F G) (type : GasType) (temperature : F)
    (scaleFactor uFactor clampFactor scaleHeight : F)
    (mBase mSpan hBase hSpan dBase dSpan tBase tSpan eBase eSpan : F)
    (diskRadius bulgeRadius : F) (rng : G) : GasCloud F × G :=
  let cloud : GasCloud F := GasCloud.declared
  let cloud := { cloud with type := type }
  let cloud := { cloud with temperature := temperature }
  let diskScale : F := diskRadius * scaleFactor
  let u := rnd.dist rng
  let rng := u.2
  let radius : F := -diskScale * m.log (1 - u.1 * uFactor + 1e-8)
  let radius := if radius > diskRadius * clampFactor then diskRadius * clampFactor else radius
  let t := rnd.dist rng
  let rng := t.2
  let theta : F := t.1 * 2 * M_PI
  let cloud := { cloud with x := radius * m.cos theta }
  let cloud := { cloud with z := radius * m.sin theta }
  let n := rnd.normalDist rng
  let rng := n.2
  let cloud := { cloud with y := n.1 * scaleHeight }
  let cloud := { cloud with orbitalRadius := radius }
  let cloud := { cloud with angle := theta }
  let cloud := { cloud with angularVelocity :=
    0.4 / (m.sqrt (radius / bulgeRadius) * (radius + 1)) }
  let p := massLengthDensity rnd cloud rng mBase mSpan hBase hSpan dBase dSpan
  let p := turbulence rnd p.1 p.2 tBase tSpan
  colourAndShape rnd p.1 p.2 eBase eSpan

/-- The body of the `COLD NEUTRAL` loop. -/
def coldNeutralCloud (m : Libm F) (rnd : Random F G) (config : GasConfig F)
    (diskRadius bulgeRadius : F) (rng : G) : GasCloud F × G :=
  diskCloud m rnd GasType.COLD_NEUTRAL COLD_NEUTRAL_TEMP 0.3 0.95 1.2
    config.neutralScaleHeight 100 1000 8 20 0.3 0.4 0.2 0.3 2 2 diskRadius bulgeRadius rng

/-- The body of the `WARM NEUTRAL` loop. -/
def warmNeutralCloud (m : Libm F) (rnd : Random F G) (config : GasConfig F)
    (diskRadius bulgeRadius : F) (rng : G) : GasCloud F × G :=
  diskCloud m rnd GasType.WARM_NEUTRAL WARM_NEUTRAL_TEMP 0.35 0.95 1.5
    (config.neutralScaleHeight * 1.5) 50 500 10 30 0.2 0.3 0.3 0.4 2 1
    diskRadius bulgeRadius rng

/-- The body of the `WARM IONIZED` loop. -/
def warmIonizedCloud (m : Libm F) (rnd : Random F G) (config : GasConfig F)
    (numArms : Int) (spiralTightness armWidth diskRadius bulgeRadius : F) (rng : G) :
    GasCloud F × G :=
  let cloud : GasCloud F := GasCloud.declared
  let cloud := { cloud with type := GasType.WARM_IONIZED }
  let cloud := { cloud with temperature := WARM_IONIZED_TEMP }
  let p := generateSpiralArmCloud m rnd cloud rng numArms spiralTightness (armWidth * 0.8)
    diskRadius
  let cloud := p.1
  let rng := p.2
  let n := rnd.normalDist rng
  let rng := n.2
  let cloud := { cloud with y := n.1 * config.molecularScaleHeight * 2 }
  let p := massLengthDensity rnd cloud rng 10 100 6 20 0.6 0.4
  let cloud := p.1
  let rng := p.2
  let cloud := { cloud with angularVelocity :=
    0.35 / (m.sqrt (cloud.orbitalRadius / bulgeRadius) * (cloud.orbitalRadius + 1)) }
  let p := turbulence rnd cloud rng 0.4 0.5
  colourAndShape rnd p.1 p.2 1.2 0.8

/-- The body of the `HOT IONIZED` loop. -/
def hotIonizedCloud (m : Libm F) (rnd : Random F G) (config : GasConfig F)
    (diskRadius bulgeRadius : F) (rng : G) : GasCloud F × G :=
  diskCloud m rnd GasType.HOT_IONIZED HOT_IONIZED_TEMP 0.4 0.9 1.3
    config.ionizedScaleHeight 1 50 12 40 0.15 0.25 0.6 0.8 1 1 diskRadius bulgeRadius rng

/-- The body of the `CORONAL GAS` loop. -/
def coronalCloud (m : Libm F) (rnd : Random F G) (diskRadius : F) (rng : G) :
    GasCloud F × G :=
  let cloud : GasCloud F := GasCloud.declared
  let cloud := { cloud with type := GasType.CORONAL }
  let cloud := { cloud with temperature := CORONAL_TEMP }
  let t := rnd.dist rng
  let rng := t.2
  let theta : F := t.1 * 2 * M_PI
  let u := rnd.dist rng
  let rng := u.2
  let phi : F := m.acos (2 * u.1 - 1)
  let u := rnd.dist rng
  let rng := u.2
  let radius : F := m.pow u.1 0.5 * diskRadius * 2.5
  let cloud := { cloud with x := radius * m.sin phi * m.cos theta }
  let cloud := { cloud with y := radius * m.sin phi * m.sin theta }
  let cloud := { cloud with z := radius * m.cos phi }
  let cloud := { cloud with orbitalRadius := m.sqrt (cloud.x * cloud.x + cloud.z * cloud.z) }
  let cloud := { cloud with angle := m.atan2 cloud.z cloud.x }
  let cloud := { cloud with angularVelocity := 0.1 / (cloud.orbitalRadius + 1) }
  let p := massLengthDensity rnd cloud rng 0.1 10 40 120 0.05 0.1
  let p := turbulence rnd p.1 p.2 0.05 0.1
  colourAndShape rnd p.1 p.2 1 0.5

/-- The member function `std::vector::clear`: the vector is left empty. -/
def clear {α : Type} (_v : List α) : List α := []

/-- The loop `for (int i = 0; i < n; i++) { cloud = body; v.push_back(cloud); }`
run for `k` iterations on the buffer and the generator state. -/
def pushLoop {α : Type} (body : G → α × G) : Nat → List α × G → List α × G
  | 0, st => st
  | k + 1, st =>
      let p := body st.2
      pushLoop body k (st.1 ++ [p.1], p.2)

/-- The function `generateGalacticGas(gasClouds, config, seed, diskRadius,
bulgeRadius)`: `gasClouds` is the buffer on entry, the result is the buffer
on return.  `seed` is an `unsigned int`, so `seed + 12345` wraps at `2^32`. -/
def generateGalacticGas (m : Libm F) (rnd : Random F G) (gasClouds : List (GasCloud F))
    (config : GasConfig F) (seed : Nat) (diskRadius bulgeRadius : F) : List (GasCloud F) :=
  let rng := rnd.mt19937 ((seed + 12345) % 2 ^ 32)
  let gasClouds := clear gasClouds
  let numArms : Int := 2
  let spiralTightness : F := 0.3
  let armWidth : F := 60
  let st := (gasClouds, rng)
  let st := pushLoop
    (molecularCloud m rnd config numArms spiralTightness armWidth diskRadius bulgeRadius)
    config.numMolecularClouds.toNat st
  let st := pushLoop (coldNeutralCloud m rnd config diskRadius bulgeRadius)
    config.numColdNeutralClouds.toNat st
  let st := pushLoop (warmNeutralCloud m rnd config diskRadius bulgeRadius)
    config.numWarmNeutralClouds.toNat st
  let st := pushLoop
    (warmIonizedCloud m rnd config numArms spiralTightness armWidth diskRadius bulgeRadius)
    config.numWarmIonizedClouds.toNat st
  let st := pushLoop (hotIonizedCloud m rnd config diskRadius bulgeRadius)
    config.numHotIonizedClouds.toNat st
  let st := pushLoop (coronalCloud m rnd diskRadius) config.numCoronalClouds.toNat st
  st.1

end GasGenerator

/-! ## Star field generator (`Stars.cpp`) -/

section StarGenerator

variable {F : Type} [LinearOrderedField F] [FloorRing F] {G : Type}

/-- The `struct StarType` of `Stars.cpp`. -/
structure StarType (F : Type) where
  r : F
  g : F
  b : F
  probability : F

/-- The table `starTypes` of `Stars.cpp` (classes O, B, A, F, G, K, M). -/
def starTypes : List (StarType F) :=
  [ { r := 0.6, g := 0.7, b := 1.0, probability := 0.05 },
    { r := 0.7, g := 0.8, b := 1.0, probability := 0.10 },
    { r := 0.9, g := 0.9, b := 1.0, probability := 0.15 },
    { r := 1.0, g := 1.0, b := 0.9, probability := 0.20 },
    { r := 1.0, g := 1.0, b := 0.7, probability := 0.25 },
    { r := 1.0, g := 0.8, b := 0.6, probability := 0.15 },
    { r := 1.0, g := 0.6, b := 0.5, probability := 0.10 } ]

/-- A declared and not yet assigned `Star star;`. -/
def Star.declared : Star F :=
  { x := 0, y := 0, z := 0, r := 0, g := 0, b := 0, brightness := 0, radius := 0,
    angle := 0, angularVelocity := 0 }

/-- The Newton loop of the lambda `sampleExponentialDiskRadius`:
`for (int it = 0; it < 10; ++it)` with its three `break`s, for the `k`
iterations that remain. -/
def newtonLoop (m : Libm F) (diskScale u : F) : Nat → F → F
  | 0, r => r
  | k + 1, r =>
      let t := r / diskScale
      let expNegT := m.exp (-t)
      let Fr := 1 - (1 + t) * expNegT
      let Gr := Fr - u
      if |Gr| < 1e-6 then r
      else
        let dFdr := if r = 0 then (1 / diskScale) * 0 else (r / (diskScale * diskScale)) * expNegT
        if dFdr ≤ 1e-12 then r
        else
          let delta := Gr / dFdr
          let r := r - delta
          if r < 0 then 0 else newtonLoop m diskScale u k r

/-- The lambda `sampleExponentialDiskRadius(diskScale)` of `generateStarField`. -/
def sampleExponentialDiskRadius (m : Libm F) (rnd : Random F G) (diskScale : F) (rng : G) :
    F × G :=
  let u := rnd.dist rng
  let rng := u.2
  let r : F := -diskScale * m.log (1 - u.1 + 1e-8)
  (newtonLoop m diskScale u.1 10 r, rng)

/-- The two loops `for (int arm = 0; arm < config.numSpiralArms; arm++)` of
`generateStarField`, which compute the least distance from the point
`(radius, theta)` to a spiral arm; the second one reads `star.radius` and
`star.angle`. -/
def minArmDistance (m : Libm F) (config : GalaxyConfig F) (radius theta : F) : F :=
  (List.range config.numSpiralArms.toNat).foldl
    (fun (minArmDistance : F) (arm : Nat) =>
      let armOffset : F := ((arm : F) * 2 * M_PI) / (config.numSpiralArms : F)
      let spiralTheta : F :=
        m.log (radius / config.bulgeRadius) / config.spiralTightness + armOffset
      let angleDiff := theta - spiralTheta
      let angleDiff := subWhileAbove M_PI angleDiff
      let angleDiff := addWhileBelow (-M_PI) angleDiff
      let armDistance := |angleDiff * radius|
      min minArmDistance armDistance)
    10000000000

/-- The computation of `acceptProbability` in the disk branch of
`generateStarField`. -/
def acceptProbability (m : Libm F) (config : GalaxyConfig F)
    (radius radiusNorm armProximity : F) : F :=
  if radius > config.diskRadius then
    let excessRadius := radius - config.diskRadius
    let fadeScale := config.diskRadius * 0.15
    let outlierFactor := m.exp (-excessRadius / fadeScale)
    let outlierFactor :=
      if radiusNorm > 1.3 then
        let extremeFactor := 1.3 / radiusNorm
        outlierFactor * (extremeFactor * extremeFactor)
      else outlierFactor
    outlierFactor * 0.08
  else if radius > config.diskRadius * 0.85 then
    let transitionFactor := (config.diskRadius - radius) / (config.diskRadius * 0.15)
    let transitionFactor := 0.5 + 0.5 * transitionFactor
    let densityWeight := armProximity * config.armDensityBoost
    let acceptProbability := (1 + densityWeight) / (1 + config.armDensityBoost)
    let acceptProbability :=
      if armProximity < 0.3 then acceptProbability * 0.2 else acceptProbability
    acceptProbability * transitionFactor
  else
    let densityWeight := armProximity * config.armDensityBoost
    let acceptProbability := (1 + densityWeight) / (1 + config.armDensityBoost)
    if armProximity < 0.3 then acceptProbability * 0.2 else acceptProbability

/-- The bulge branch (`if (inBulge)`) of the body of `generateStarField`. -/
def bulgeStar (m : Libm F) (rnd : Random F G) (config : GalaxyConfig F) (star : Star F)
    (rng : G) : Star F × G :=
  let t := rnd.dist rng
  let rng := t.2
  let theta : F := t.1 * 2 * M_PI
  let u := rnd.dist rng
  let rng := u.2
  let phi : F := m.acos (2 * u.1 - 1)
  let u := rnd.dist rng
  let rng := u.2
  let radius : F := m.pow u.1 (1 / 3) * config.bulgeRadius
  let star := { star with x := radius * m.sin phi * m.cos theta }
  let star := { star with y := radius * m.sin phi * m.sin theta }
  let star := { star with z := radius * m.cos phi }
  let star := { star with radius := m.sqrt (star.x * star.x + star.z * star.z) }
  let star := { star with angle := m.atan2 star.z star.x }
  let star := { star with
    angularVelocity := config.rotationSpeed * 0.5 / (config.bulgeRadius + 1) }
  (star, rng)

/-- The disk branch (`else`) of the body of `generateStarField`: `none` is
the rejection `i--; continue;`. -/
def diskStar (m : Libm F) (rnd : Random F G) (config : GalaxyConfig F) (star : Star F)
    (rng : G) : Option (Star F) × G :=
  let diskScale : F := config.diskRadius * 0.25
  let p := sampleExponentialDiskRadius m rnd diskScale rng
  let radius := p.1
  let rng := p.2
  let maxRadius : F := config.diskRadius * 2
  let radius := if radius > maxRadius then maxRadius else radius
  let t := rnd.dist rng
  let rng := t.2
  let theta : F := t.1 * 2 * M_PI
  let minArmDistance := minArmDistance m config radius theta
  let radiusNorm := radius / config.diskRadius
  let edgeFactor := if radiusNorm > 1 then 1 else radiusNorm
  let effectiveArmWidth := config.armWidth * (1 + edgeFactor * 1.5)
  let armProximity :=
    m.exp (-minArmDistance * minArmDistance / (effectiveArmWidth * effectiveArmWidth))
  let acceptProbability := acceptProbability m config radius radiusNorm armProximity
  let a := rnd.dist rng
  let rng := a.2
  if a.1 > acceptProbability then (none, rng)
  else
    let noiseScale : F := 15 * (1 + radiusNorm * 0.8)
    let n := rnd.normalDist rng
    let rng := n.2
    let noise := n.1 * noiseScale
    let n := rnd.normalDist rng
    let rng := n.2
    let radialScatter := n.1 * 20 * radiusNorm * radiusNorm
    let star := { star with x := (radius + noise * 0.3 + radialScatter) * m.cos theta }
    let star := { star with z := (radius + noise * 0.3 + radialScatter) * m.sin theta }
    let heightScale := config.diskHeight * (1 - edgeFactor * 0.5)
    let n := rnd.normalDist rng
    let rng := n.2
    let star := { star with y := n.1 * heightScale }
    let star := { star with radius := radius }
    let star := { star with angle := theta }
    let star := { star with angularVelocity :=
      config.rotationSpeed * 1 / (m.sqrt (radius / config.bulgeRadius) * (radius + 1)) }
    (some star, rng)

/-- The loop `for (int t = 0; t < 7; t++)` that selects the star type, on the
entries of the table that remain; `6` is the initial `selectedType`. -/
def selectTypeLoop (typeRoll : F) : List (StarType F) → Nat → F → Nat
  | [], _, _ => 6
  | ty :: rest, t, cumulative =>
      let cumulative := cumulative + ty.probability
      if typeRoll ≤ cumulative then t else selectTypeLoop typeRoll rest (t + 1) cumulative

/-- The statement `if (star.brightness > 1.0f) star.brightness = 1.0f;`. -/
def clampBrightness (star : Star F) : Star F :=
  if star.brightness > 1 then { star with brightness := 1 } else star

/-- The end of the body of `generateStarField`, from `// select star type` to
`stars.push_back(star)` excluded. -/
def typeAndBrightness (m : Libm F) (rnd : Random F G) (config : GalaxyConfig F)
    (star : Star F) (rng : G) : Star F × G :=
  let u := rnd.dist rng
  let rng := u.2
  let typeRoll := u.1
  let selectedType := selectTypeLoop typeRoll starTypes 0 0
  let entry : StarType F := starTypes.getD selectedType { r := 0, g := 0, b := 0, probability := 0 }
  let star := { star with r := entry.r }
  let star := { star with g := entry.g }
  let star := { star with b := entry.b }
  let distFromCenter := m.sqrt (star.x * star.x + star.y * star.y + star.z * star.z)
  if distFromCenter < config.bulgeRadius then
    let u := rnd.dist rng
    let rng := u.2
    ({ star with brightness := 0.4 + u.1 * 0.4 }, rng)
  else
    let u := rnd.dist rng
    let rng := u.2
    let star := { star with brightness := 0.3 + u.1 * 0.7 }
    let minArmDist := minArmDistance m config star.radius star.angle
    let armBrightness :=
      m.exp (-minArmDist * minArmDist / (config.armWidth * config.armWidth * 4))
    let star := { star with brightness := star.brightness + armBrightness * 0.3 }
    let star := clampBrightness star
    (star, rng)

/-- The body of the loop of `generateStarField` for one candidate: `none` when
the candidate is rejected, the star to push otherwise. -/
def starCandidate (m : Libm F) (rnd : Random F G) (config : GalaxyConfig F) (rng : G) :
    Option (Star F) × G :=
  let star : Star F := Star.declared
  let u := rnd.dist rng
  let rng := u.2
  let inBulge : Bool := decide (u.1 < 0.15)
  if inBulge then
    let p := bulgeStar m rnd config star rng
    let q := typeAndBrightness m rnd config p.1 p.2
    (some q.1, q.2)
  else
    match diskStar m rnd config star rng with
    | (none, rng) => (none, rng)
    | (some star, rng) =>
        let q := typeAndBrightness m rnd config star rng
        (some q.1, q.2)

/-- The loop `for (int i = 0; i < config.numStars; i++)` of
`generateStarField`, from the index `i`.  A rejected candidate executes
`i--; continue;` and the increment, which leaves `i` as it was.  The loop has
no bound on the number of candidates, so `fuel` bounds the number of bodies
executed; `none` means that the fuel ran out. -/
def starLoop (m : Libm F) (rnd : Random F G) (config : GalaxyConfig F) :
    Nat → Int → List (Star F) → G → Option (List (Star F))
  | 0, i, stars, _ => if i < config.numStars then none else some stars
  | fuel + 1, i, stars, rng =>
      if i < config.numStars then
        match starCandidate m rnd config rng with
        | (none, rng) => starLoop m rnd config fuel (i - 1 + 1) stars rng
        | (some star, rng) => starLoop m rnd config fuel (i + 1) (stars ++ [star]) rng
      else some stars

/-- The function `generateStarField(stars, config)`: `stars` is the buffer on
entry, the result is the buffer on return when the loop ends within `fuel`
candidates. -/
def generateStarField (m : Libm F) (rnd : Random F G) (fuel : Nat) (stars : List (Star F))
    (config : GalaxyConfig F) : Option (List (Star F)) :=
  let rng := rnd.mt19937 config.seed
  let stars := clear stars
  starLoop m rnd config fuel 0 stars rng

/-- The entry `starTypes[selectedType]` that the end of the body reads after
the selection loop, for the roll `typeRoll`. -/
def selectedEntry (typeRoll : F) : StarType F :=
  starTypes.getD (selectTypeLoop typeRoll starTypes 0 0) { r := 0, g := 0, b := 0, probability := 0 }

/-- The value of `armBrightness` that the end of the body computes for a star
outside the bulge radius. -/
def armBrightness (m : Libm F) (config : GalaxyConfig F) (star : Star F) : F :=
  let minArmDist := minArmDistance m config star.radius star.angle
  m.exp (-minArmDist * minArmDist / (config.armWidth * config.armWidth * 4))

/-- The value of `spiralTheta` in the iteration `arm` of the arm loops. -/
def spiralTheta (m : Libm F) (config : GalaxyConfig F) (radius : F) (arm : Nat) : F :=
  let armOffset : F := ((arm : F) * 2 * M_PI) / (config.numSpiralArms : F)
  m.log (radius / config.bulgeRadius) / config.spiralTightness + armOffset

/-- The statements of the disk branch from `float minArmDistance = 1e10f;` to
`float armProximity = ...`: the arm proximity of the point `(radius, theta)`. -/
def armProximity (m : Libm F) (config : GalaxyConfig F) (radius theta : F) : F :=
  let minArmDistance := minArmDistance m config radius theta
  let radiusNorm := radius / config.diskRadius
  let edgeFactor := if radiusNorm > 1 then 1 else radiusNorm
  let effectiveArmWidth := config.armWidth * (1 + edgeFactor * 1.5)
  m.exp (-minArmDistance * minArmDistance / (effectiveArmWidth * effectiveArmWidth))

/-- The statements of the disk branch that give `radius` its value: the call
of the sampler with `diskScale` and the clamp to `maxRadius`. -/
def diskCandidateRadius (m : Libm F) (rnd : Random F G) (config : GalaxyConfig F) (rng : G) :
    F × G :=
  let diskScale : F := config.diskRadius * 0.25
  let p := sampleExponentialDiskRadius m rnd diskScale rng
  let radius := p.1
  let rng := p.2
  let maxRadius : F := config.diskRadius * 2
  let radius := if radius > maxRadius then maxRadius else radius
  (radius, rng)

/-- The displacement `noise * 0.3f + radialScatter` that the disk branch adds
to the radius in the position of an accepted star, from the generator state
after the acceptance draw. -/
def diskScatter (rnd : Random F G) (config : GalaxyConfig F) (radius : F) (rng : G) : F :=
  let radiusNorm := radius / config.diskRadius
  let noiseScale : F := 15 * (1 + radiusNorm * 0.8)
  let n := rnd.normalDist rng
  let rng := n.2
  let noise := n.1 * noiseScale
  let n := rnd.normalDist rng
  let radialScatter := n.1 * 20 * radiusNorm * radiusNorm
  noise * 0.3 + radialScatter

end StarGenerator

/-! ## LOD batcher and renderer (`renderGalacticGas`) -/

section Renderer

variable {F : Type} [LinearOrderedField F] [FloorRing F]

/-- The `struct RenderZone` of `SolarSystem.h`. -/
structure RenderZone (F : Type) where
  distanceFromSystem : F
  zoomLevel : F
  solarSystemScaleMultiplier : F
  starBrightnessFade : F
  renderOrbits : Bool

/-- The function `cubicSplineKernel2D(r, h)`. -/
def cubicSplineKernel2D (r h : F) : F :=
  let q := r / h
  let sigma := 10 / (7 * M_PI * h * h)
  if q ≥ 0 ∧ q < 1 then sigma * (1 - 1.5 * q * q + 0.75 * q * q * q)
  else if q ≥ 1 ∧ q < 2 then
    let term := 2 - q
    sigma * 0.25 * term * term * term
  else 0

/-- The constant `MAX_SIZE_BINS` of `renderGalacticGas`. -/
def MAX_SIZE_BINS : Int := 40

/-- The constant `SIZE_BIN` of `renderGalacticGas`. -/
def SIZE_BIN : F := 5

/-- The arrays `verticesBySize[MAX_SIZE_BINS]` and `colorsBySize[MAX_SIZE_BINS]`
of `renderGalacticGas`, each bin a vector of floats; the bins are the indices
`0` to `39`. -/
structure SizeBins (F : Type) where
  verticesBySize : Nat → List F
  colorsBySize : Nat → List F

/-- The loop `for (i < MAX_SIZE_BINS) { verticesBySize[i].clear();
colorsBySize[i].clear(); }`. -/
def SizeBins.cleared : SizeBins F :=
  { verticesBySize := fun _ => [], colorsBySize := fun _ => [] }

/-- The statements `int sizeBin = (int)(size / SIZE_BIN); if (sizeBin < 0)
sizeBin = 0; if (sizeBin >= MAX_SIZE_BINS) sizeBin = MAX_SIZE_BINS - 1;`. -/
def sizeBinOf (size : F) : Int :=
  let sizeBin : Int := truncToInt (size / SIZE_BIN)
  let sizeBin := if sizeBin < 0 then 0 else sizeBin
  if sizeBin ≥ MAX_SIZE_BINS then MAX_SIZE_BINS - 1 else sizeBin

/-- The seven `push_back` of one splat: three floats on
`verticesBySize[sizeBin]`, four on `colorsBySize[sizeBin]`. -/
def pushSplat (bins : SizeBins F) (sizeBin : Int) (x y z r g b a : F) : SizeBins F :=
  { verticesBySize := fun i =>
      if i = sizeBin.toNat then bins.verticesBySize i ++ [x, y, z] else bins.verticesBySize i
    colorsBySize := fun i =>
      if i = sizeBin.toNat then bins.colorsBySize i ++ [r, g, b, a] else bins.colorsBySize i }

/-- One draw of a batch: `glPointSize(pointSize)`, the two array pointers and
`glDrawArrays(GL_POINTS, 0, count)`. -/
structure DrawBatch (F : Type) where
  pointSize : F
  vertices : List F
  colors : List F
  count : Nat

/-- The loop `for (int sizeBin = 0; sizeBin < MAX_SIZE_BINS; sizeBin++)` that
ends each pass: the draws issued, in order; an empty bin is skipped. -/
def drawBins (bins : SizeBins F) : List (DrawBatch F) :=
  (List.range MAX_SIZE_BINS.toNat).filterMap fun sizeBin =>
    let vertices := bins.verticesBySize sizeBin
    let colors := bins.colorsBySize sizeBin
    if vertices.isEmpty then none
    else some
      { pointSize := (sizeBin : F) * SIZE_BIN, vertices := vertices, colors := colors,
        count := vertices.length / 3 }

/-- The LOD value `numFilaments` of `renderGalacticGas`. -/
def numFilaments (zone : RenderZone F) : Int := if zone.zoomLevel < 0.5 then 2 else 3

/-- The LOD value `numLayersPerFilament` of `renderGalacticGas`. -/
def numLayersPerFilament (zone : RenderZone F) : Int := if zone.zoomLevel < 0.5 then 3 else 4

/-- The LOD value `skipFactor` of `renderGalacticGas`. -/
def skipFactor (zone : RenderZone F) : Int :=
  if zone.zoomLevel > 100 then 4
  else if zone.zoomLevel > 50 then 3
  else if zone.zoomLevel > 20 then 2
  else 1

/-- The LOD value `numLayers` of the dark-lane pass. -/
def numLayers (zone : RenderZone F) : Int := if zone.zoomLevel < 2 then 3 else 4

/-- The loop `for (size_t i = 0; i < gasClouds.size(); i++)` that fills
`darkLaneIndices` and `emissiveIndices`, on the pairs `(i, gasClouds[i])`. -/
def partitionIndices (gasClouds : List (GasCloud F)) : List Nat × List Nat :=
  gasClouds.enum.foldl
    (fun (idxs : List Nat × List Nat) (p : Nat × GasCloud F) =>
      if p.2.isDarkLane then (idxs.1 ++ [p.1], idxs.2) else (idxs.1, idxs.2 ++ [p.1]))
    ([], [])

/-- The loop `for (int i = 0; i < numLayers; i++)` of the dark-lane pass for
one cloud. -/
def darkLaneSplats (cloud : GasCloud F) (numLayers : Int) (bins : SizeBins F) : SizeBins F :=
  let smoothingLength2x := cloud.smoothingLength * 2
  let alphaW06 := cloud.alpha * 0.6
  (List.range numLayers.toNat).foldl
    (fun (bins : SizeBins F) (i : Nat) =>
      let t : F := (i : F) / ((numLayers - 1 : Int) : F)
      let r := t * smoothingLength2x
      let w := cubicSplineKernel2D r cloud.smoothingLength
      let extinction := alphaW06 * w
      let darken := 1 - extinction
      let size := smoothingLength2x * (1 + t * 0.3)
      let sizeBin := sizeBinOf size
      pushSplat bins sizeBin cloud.x cloud.y cloud.z darken darken darken 1)
    bins

/-- The loop `for (size_t idx = 0; idx < darkLaneIndices.size(); idx++)` of the
dark-lane pass, on the pairs `(idx, darkLaneIndices[idx])`. -/
def darkLaneLoop (gasClouds : List (GasCloud F)) (darkLaneIndices : List Nat)
    (skipFactor numLayers : Int) (bins : SizeBins F) : SizeBins F :=
  darkLaneIndices.enum.foldl
    (fun (bins : SizeBins F) (p : Nat × Nat) =>
      if skipFactor > 1 ∧ (p.1 : Int) % skipFactor ≠ 0 then bins
      else
        match gasClouds[p.2]? with
        | none => bins
        | some cloud => darkLaneSplats cloud numLayers bins)
    bins

/-- The loops `for (int f = 0; f < numFilaments; f++)` and
`for (int i = 0; i < numLayersPerFilament; i++)` of the emissive pass for one
cloud. -/
def emissiveSplats (m : Libm F) (cloud : GasCloud F) (numFilaments numLayersPerFilament : Int)
    (bins : SizeBins F) : SizeBins F :=
  let smoothingLength04 := cloud.smoothingLength * 0.4
  let cosRotation := m.cos cloud.rotationAngle
  let sinRotation := m.sin cloud.rotationAngle
  let baseSize := cloud.smoothingLength * 1.2
  let baseSizeElongated := baseSize * (1 + cloud.elongation * 0.5)
  let alpha08 := cloud.alpha * 0.8
  let numFilamentsHalf : Int := numFilaments / 2
  (List.range numFilaments.toNat).foldl
    (fun (bins : SizeBins F) (f : Nat) =>
      let filamentOffset : F := (((f : Int) - numFilamentsHalf : Int) : F) * smoothingLength04
      let offsetX := filamentOffset * cosRotation
      let offsetZ := filamentOffset * sinRotation
      let filamentFalloff := m.exp (((-(f : Int) * (f : Int) : Int) : F) * 0.8)
      (List.range numLayersPerFilament.toNat).foldl
        (fun (bins : SizeBins F) (i : Nat) =>
          let t : F := (i : F) / ((numLayersPerFilament - 1 : Int) : F)
          let gaussian := m.exp (-t * t * 2.5)
          let alpha := alpha08 * gaussian * filamentFalloff
          let size := baseSizeElongated * (1 + t * 0.2)
          let sizeBin := sizeBinOf size
          pushSplat bins sizeBin (cloud.x + offsetX) cloud.y (cloud.z + offsetZ)
            cloud.r cloud.g cloud.b alpha)
        bins)
    bins

/-- The loop `for (size_t idx = 0; idx < emissiveIndices.size(); idx++)` of the
emissive pass, on the pairs `(idx, emissiveIndices[idx])`. -/
def emissiveLoop (m : Libm F) (gasClouds : List (GasCloud F)) (emissiveIndices : List Nat)
    (zone : RenderZone F) (skipFactor numFilaments numLayersPerFilament : Int)
    (bins : SizeBins F) : SizeBins F :=
  emissiveIndices.enum.foldl
    (fun (bins : SizeBins F) (p : Nat × Nat) =>
      if skipFactor > 1 ∧ (p.1 : Int) % skipFactor ≠ 0 then bins
      else
        match gasClouds[p.2]? with
        | none => bins
        | some cloud =>
            if zone.zoomLevel < 0.001 ∧ cloud.type = GasType.CORONAL then bins
            else emissiveSplats m cloud numFilaments numLayersPerFilament bins)
    bins

/-- The function `renderGalacticGas(gasClouds, zone)`: the draws issued by the
dark-lane pass and the draws issued by the emissive pass.  The static scratch
vectors are cleared before they are read, so they are local here; the calls
that set the OpenGL blend and client state are not recorded. -/
def renderGalacticGas (m : Libm F) (gasClouds : List (GasCloud F)) (zone : RenderZone F) :
    List (DrawBatch F) × List (DrawBatch F) :=
  let numFilaments := numFilaments zone
  let numLayersPerFilament := numLayersPerFilament zone
  let skipFactor := skipFactor zone
  let idxs := partitionIndices gasClouds
  let darkLaneIndices := idxs.1
  let emissiveIndices := idxs.2
  let bins : SizeBins F := SizeBins.cleared
  let darkDraws :=
    if zone.zoomLevel ≥ 0.1 then
      let numLayers := numLayers zone
      let bins := darkLaneLoop gasClouds darkLaneIndices skipFactor numLayers bins
      drawBins bins
    else []
  let bins : SizeBins F := SizeBins.cleared
  let bins := emissiveLoop m gasClouds emissiveIndices zone skipFactor numFilaments
    numLayersPerFilament bins
  let emissiveDraws := drawBins bins
  (darkDraws, emissiveDraws)

/-- The value `float t = i / (float)(layers - 1)` of the layer `i`, in both
passes. -/
def layerParam (layers : Int) (i : Nat) : F := (i : F) / ((layers - 1 : Int) : F)

/-- The value of `size` for the layer `i` of a dark-lane cloud. -/
def darkLaneSize (cloud : GasCloud F) (numLayers : Int) (i : Nat) : F :=
  let smoothingLength2x := cloud.smoothingLength * 2
  let t : F := layerParam numLayers i
  smoothingLength2x * (1 + t * 0.3)

/-- The value of `darken` for the layer `i` of a dark-lane cloud. -/
def darkLaneDarken (cloud : GasCloud F) (numLayers : Int) (i : Nat) : F :=
  let smoothingLength2x := cloud.smoothingLength * 2
  let alphaW06 := cloud.alpha * 0.6
  let t : F := layerParam numLayers i
  let r := t * smoothingLength2x
  let w := cubicSplineKernel2D r cloud.smoothingLength
  let extinction := alphaW06 * w
  1 - extinction

/-- The value of `filamentOffset` for the filament `f` of an emissive cloud. -/
def filamentOffset (cloud : GasCloud F) (numFilaments : Int) (f : Nat) : F :=
  let smoothingLength04 := cloud.smoothingLength * 0.4
  let numFilamentsHalf : Int := numFilaments / 2
  (((f : Int) - numFilamentsHalf : Int) : F) * smoothingLength04

/-- The value of `filamentFalloff` for the filament `f`. -/
def filamentFalloff (m : Libm F) (f : Nat) : F :=
  m.exp (((-(f : Int) * (f : Int) : Int) : F) * 0.8)

/-- The value of `size` for the layer `i` of an emissive cloud. -/
def emissiveSize (cloud : GasCloud F) (numLayersPerFilament : Int) (i : Nat) : F :=
  let baseSize := cloud.smoothingLength * 1.2
  let baseSizeElongated := baseSize * (1 + cloud.elongation * 0.5)
  let t : F := layerParam numLayersPerFilament i
  baseSizeElongated * (1 + t * 0.2)

/-- The value of `alpha` for the layer `i` of the filament `f` of an emissive
cloud. -/
def emissiveAlpha (m : Libm F) (cloud : GasCloud F) (numLayersPerFilament : Int)
    (f i : Nat) : F :=
  let alpha08 := cloud.alpha * 0.8
  let t : F := layerParam numLayersPerFilament i
  let gaussian := m.exp (-t * t * 2.5)
  alpha08 * gaussian * filamentFalloff m f

end Renderer

/-! ## Specification of the culling -/

section CullingSpec

variable {F : Type} [LinearOrderedField F]

/-- Specification: the elements at the positions `0, k, 2k, ...` of a list. -/
def everyNth {α : Type} (k : Nat) (l : List α) : List α :=
  (l.enum.filter fun p => p.1 % k = 0).map Prod.snd

/-- Specification: the dark-lane clouds that the dark-lane pass draws, the
clouds with `isDarkLane` at the positions `0, k, 2k, ...` among them, in the
order of the buffer, `k` the skip factor. -/
def keptDarkLane (gasClouds : List (GasCloud F)) (zone : RenderZone F) : List (GasCloud F) :=
  everyNth (skipFactor zone).toNat (gasClouds.filter fun c => c.isDarkLane)

/-- Specification: the emissive clouds that the emissive pass draws, the
clouds without `isDarkLane` at the positions `0, k, 2k, ...` among them, less
the `CORONAL` ones when the zoom level is below `0.001`. -/
def keptEmissive (gasClouds : List (GasCloud F)) (zone : RenderZone F) : List (GasCloud F) :=
  (everyNth (skipFactor zone).toNat (gasClouds.filter fun c => !c.isDarkLane)).filter
    fun c => ¬ (zone.zoomLevel < 0.001 ∧ c.type = GasType.CORONAL)

/-- The sum of the `count` arguments of the draws of a pass. -/
def totalCount (draws : List (DrawBatch F)) : Nat := (draws.map fun d => d.count).sum

/-- The number of splats held by the bins: the sum over the 40 bins of a third
of the number of vertex floats. -/
def splatCount (bins : SizeBins F) : Nat :=
  ((List.range 40).map fun b => (bins.verticesBySize b).length / 3).sum

/-- Specification: a cloud whose smoothing length, density and elongation lie
in the given half-open ranges and whose alpha is its density times `aFactor`. -/
def InRanges (c : GasCloud F) (hLo hHi dLo dHi aFactor eLo eHi : F) : Prop :=
  hLo ≤ c.smoothingLength ∧ c.smoothingLength < hHi ∧ dLo ≤ c.density ∧ c.density < dHi
    ∧ c.alpha = c.density * aFactor ∧ eLo ≤ c.elongation ∧ c.elongation < eHi

/-- Specification: the ranges of the species of a cloud, `base` to
`base + span` of the draws `base + dist(rng) * span` of its loop, and the alpha
factor of `getGasColor`. -/
def speciesRanges (c : GasCloud F) : Prop :=
  match c.type with
  | GasType.MOLECULAR => InRanges c 10 35 0.7 1 0.5 5 10
  | GasType.COLD_NEUTRAL => InRanges c 8 28 0.3 0.7 0.03 2 4
  | GasType.WARM_NEUTRAL => InRanges c 10 40 0.2 0.5 0.025 2 3
  | GasType.WARM_IONIZED => InRanges c 6 26 0.6 1 0.03 1.2 2
  | GasType.HOT_IONIZED => InRanges c 12 52 0.15 0.4 0.05 1 2
  | GasType.CORONAL => InRanges c 40 160 0.05 0.15 0.015 1 1.5

end CullingSpec

/-! ## Specification of the class draw -/

section ClassSpec

variable {F : Type} [LinearOrderedField F]

/-- Specification: the cumulative probabilities `c` of the seven classes
O, B, A, F, G, K, M. -/
def classThresholds : List F := [0.05, 0.15, 0.30, 0.50, 0.75, 0.90, 1.00]

/-- Specification: the colours `(r, g, b)` of the seven classes. -/
def classColours : List (F × F × F) :=
  [(0.6, 0.7, 1.0), (0.7, 0.8, 1.0), (0.9, 0.9, 1.0), (1.0, 1.0, 0.9), (1.0, 1.0, 0.7),
    (1.0, 0.8, 0.6), (1.0, 0.6, 0.5)]

end ClassSpec

/-! ## Specification of the run of candidates -/

section CandidateSpec

variable {F : Type} [LinearOrderedField F] [FloorRing F] {G : Type}

/-- Specification: the generator state before the candidate number `k` of a
run of candidates that starts in the state `rng`; every candidate, accepted or
rejected, leaves the state after its own draws to the next one. -/
def candidateState (m : Libm F) (rnd : Random F G) (config : GalaxyConfig F) (rng : G) :
    Nat → G
  | 0 => rng
  | k + 1 => (starCandidate m rnd config (candidateState m rnd config rng k)).2

/-- Specification: the stars of the accepted candidates among the first `k`
candidates of the run, in the order of the candidates; a rejected candidate
contributes nothing. -/
def acceptedStars (m : Libm F) (rnd : Random F G) (config : GalaxyConfig F) (rng : G)
    (k : Nat) : List (Star F) :=
  (List.range k).filterMap fun j =>
    (starCandidate m rnd config (candidateState m rnd config rng j)).1

end CandidateSpec

/-! ## A rational instance of the numeric environment

The definitions above are evaluated on the rationals with the stand-ins
below for `<cmath>` and `<random>`. -/

/-- A rational `<cmath>`: `cos` and `sin` are the rational parametrisation of
the circle at `t = a / 2` (so `cos² + sin² = 1` holds exactly), the other
functions first-order stand-ins. -/
def ratLibm : Libm ℚ where
  cos a := (1 - (a / 2) ^ 2) / (1 + (a / 2) ^ 2)
  sin a := 2 * (a / 2) / (1 + (a / 2) ^ 2)
  sqrt a := if a ≤ 0 then 0 else (a + 1) / 2
  log a := a - 1
  exp a := max 0 (1 + a)
  acos a := 1 - a
  atan2 y x := if x = 0 then 0 else y / x
  pow a _ := a

/-- A rational `<random>` on a counter: the `n`-th uniform draw is
`(11 n mod 100) / 100`, the `n`-th normal draw `(n mod 7) - 3`. -/
def ratRandom : Random ℚ Nat where
  mt19937 seed := seed
  next n := (n * 1103515245 % 4294967296, n + 1)
  dist n := (((11 * n % 100 : Nat) : ℚ) / 100, n + 1)
  normalDist n := (((n % 7 : Nat) : ℚ) - 3, n + 1)

/-- A second rational `<cmath>`: `exp` is positive everywhere and `sqrt` is a
lower bound of the square root. -/
def ratLibmPos : Libm ℚ :=
  { ratLibm with
    exp := fun a => if a < 0 then 1 / (1 - a) else 1 + a
    sqrt := fun a => if a ≤ 0 then 0 else 2 * a / (a + 1) }

/-- A scripted `<random>`: the uniform draws and the normal draws are read
from two lists, `0` after their end; the state is the pair of the numbers of
draws made. -/
def scriptedRandom (uniforms normals : List ℚ) : Random ℚ (Nat × Nat) where
  mt19937 _ := (0, 0)
  next g := (0, g)
  dist g := (uniforms.getD g.1 0, (g.1 + 1, g.2))
  normalDist g := (normals.getD g.2 0, (g.1, g.2 + 1))

/-- A third rational `<cmath>`: `cos` and `sin` are the first-order stand-ins
`1` and `a`, which the stand-in `atan2 y x = y / x` inverts exactly. -/
def ratLibmFlat : Libm ℚ :=
  { ratLibm with
    cos := fun _ => 1
    sin := fun a => a }

/-- A fourth rational `<cmath>`: `pow` is exact at the base `1/64` for the
exponents `1/2` and `1/3`. -/
def ratLibmRoot : Libm ℚ :=
  { ratLibm with
    pow := fun a b =>
      if a = 1 / 64 ∧ b = 1 / 2 then 1 / 8
      else if a = 1 / 64 ∧ b = 1 / 3 then 1 / 4
      else a }

/-- The IEEE 754 formats of `float` (binary32) and `double` (binary64). -/
def binaryRounding : Rounding ℚ where
  f32 := roundNearestEven 24 (-126)
  f64 := roundNearestEven 53 (-1022)

/-! ## Concrete inputs -/

/-- A star at angle `0` that turns by one radian per second. -/
def unitStar : Star ℚ :=
  { x := 1, y := 5, z := 0, r := 1, g := 1, b := 7 / 10, brightness := 1 / 2, radius := 1,
    angle := 0, angularVelocity := 1 }

/-- A coronal cloud away from its orbit position, with angle `1` and phase `2`. -/
def haloCloud : GasCloud ℚ :=
  { x := 30, y := 40, z := 50, type := GasType.CORONAL, mass := 1, smoothingLength := 50,
    temperature := 5000000, density := 1 / 10, r := 11 / 20, g := 2 / 5, b := 7 / 10,
    alpha := 3 / 2000, orbitalRadius := 10, angle := 1, angularVelocity := 1 / 100,
    turbulencePhase := 2, turbulenceSpeed := 1 / 10, isDarkLane := false, elongation := 1,
    rotationAngle := 0 }

/-- A gas configuration whose only clouds are `3` coronal ones. -/
def coronalOnlyConfig : GasConfig ℚ :=
  { numMolecularClouds := 0, numColdNeutralClouds := 0, numWarmNeutralClouds := 0,
    numWarmIonizedClouds := 0, numHotIonizedClouds := 0, numCoronalClouds := 3,
    molecularScaleHeight := 25, neutralScaleHeight := 100, ionizedScaleHeight := 400,
    coronalScaleHeight := 2000, enableTurbulence := true, enableDensityWaves := true }

/-- The default galaxy configuration of `main.cpp` with `2` stars and seed `0`. -/
def twoStarConfig : GalaxyConfig ℚ :=
  { numStars := 2, numSpiralArms := 2, spiralTightness := 3 / 10, armWidth := 60,
    diskRadius := 800, bulgeRadius := 150, diskHeight := 50, bulgeHeight := 100,
    armDensityBoost := 10, seed := 0, rotationSpeed := 1 }

/-- A render zone at the zoom level `1`. -/
def nearZone : RenderZone ℚ :=
  { distanceFromSystem := 1000, zoomLevel := 1, solarSystemScaleMultiplier := 1,
    starBrightnessFade := 1, renderOrbits := false }

/-- A render zone at the zoom level `0.0005`, below the coronal cut `0.001`. -/
def farZone : RenderZone ℚ :=
  { distanceFromSystem := 1000, zoomLevel := 1 / 2000, solarSystemScaleMultiplier := 1,
    starBrightnessFade := 1, renderOrbits := false }

/-- A render zone at the zoom level `150`, above every LOD threshold. -/
def closeZone : RenderZone ℚ :=
  { distanceFromSystem := 10, zoomLevel := 150, solarSystemScaleMultiplier := 1,
    starBrightnessFade := 1, renderOrbits := true }

/-- The default galaxy configuration of `main.cpp` with `1` star and seed `0`. -/
def oneStarConfig : GalaxyConfig ℚ :=
  { numStars := 1, numSpiralArms := 2, spiralTightness := 3 / 10, armWidth := 60,
    diskRadius := 800, bulgeRadius := 150, diskHeight := 50, bulgeHeight := 100,
    armDensityBoost := 10, seed := 0, rotationSpeed := 1 }

/-- A gas configuration with one cloud of each species. -/
def mixedGasConfig : GasConfig ℚ :=
  { numMolecularClouds := 1, numColdNeutralClouds := 1, numWarmNeutralClouds := 1,
    numWarmIonizedClouds := 1, numHotIonizedClouds := 1, numCoronalClouds := 1,
    molecularScaleHeight := 25, neutralScaleHeight := 100, ionizedScaleHeight := 400,
    coronalScaleHeight := 2000, enableTurbulence := true, enableDensityWaves := true }

/-- A star with the `float` angle `-2⁻²⁷`, about `-7.45e-9`. -/
def grazingStar : Star ℚ :=
  { x := 1, y := 5, z := 0, r := 1, g := 1, b := 3 / 4, brightness := 1 / 2, radius := 1,
    angle := -(1 / 2 ^ 27), angularVelocity := 1 }

/-- A star with the `float` angle `10⁹`. -/
def farTurnedStar : Star ℚ :=
  { x := 1, y := 5, z := 0, r := 1, g := 1, b := 3 / 4, brightness := 1 / 2, radius := 1,
    angle := 1000000000, angularVelocity := 1 }

/-- A coronal cloud with the `float` angle and phase `-2⁻²⁷`. -/
def grazingCloud : GasCloud ℚ :=
  { x := 30, y := 40, z := 50, type := GasType.CORONAL, mass := 1, smoothingLength := 50,
    temperature := 5000000, density := 1 / 8, r := 1 / 2, g := 1 / 2, b := 3 / 4,
    alpha := 1 / 512, orbitalRadius := 10, angle := -(1 / 2 ^ 27), angularVelocity := 1 / 128,
    turbulencePhase := -(1 / 2 ^ 27), turbulenceSpeed := 1 / 8, isDarkLane := false,
    elongation := 1, rotationAngle := 0 }

/-! ## Lemmas on the numeric primitives -/

section NumericLemmas

variable {F : Type} [LinearOrderedField F]

theorem M_PI_pos : (0 : F) < M_PI := by
  unfold M_PI
  positivity

variable [FloorRing F]

/-- What the loop `while (x > hi) x -= 2π` computes: it subtracts `k` turns,
ends at or below `hi`, less than one turn below `hi` when it ran at all, and
does not run when `x ≤ hi`. -/
theorem subWhileAbove_spec (hi x : F) :
    ∃ k : ℕ, subWhileAbove hi x = x - k * (2 * M_PI) ∧ subWhileAbove hi x ≤ hi
      ∧ (hi < x → hi - 2 * M_PI < subWhileAbove hi x) ∧ (x ≤ hi → k = 0) := by
  induction x using subWhileAbove.induct hi with
  | case1 x h ih =>
    obtain ⟨k, h1, h2, h3, h4⟩ := ih
    rw [subWhileAbove, if_pos h]
    refine ⟨k + 1, ?_, h2, ?_, ?_⟩
    · rw [h1]; push_cast; ring
    · intro _
      by_cases hx : hi < x - 2 * M_PI
      · exact h3 hx
      · have hk := h4 (not_lt.mp hx)
        subst hk
        rw [h1]; simp
        linarith
    · intro hle; exact absurd h (not_lt.mpr hle)
  | case2 x h =>
    rw [subWhileAbove, if_neg h]
    exact ⟨0, by simp, not_lt.mp h, fun h2 => absurd h2 h, fun _ => rfl⟩

/-- What the loop `while (x < lo) x += 2π` computes. -/
theorem addWhileBelow_spec (lo x : F) :
    ∃ k : ℕ, addWhileBelow lo x = x + k * (2 * M_PI) ∧ lo ≤ addWhileBelow lo x
      ∧ (x < lo → addWhileBelow lo x < lo + 2 * M_PI) ∧ (lo ≤ x → k = 0) := by
  induction x using addWhileBelow.induct lo with
  | case1 x h ih =>
    obtain ⟨k, h1, h2, h3, h4⟩ := ih
    rw [addWhileBelow, if_pos h]
    refine ⟨k + 1, ?_, h2, ?_, ?_⟩
    · rw [h1]; push_cast; ring
    · intro _
      by_cases hx : x + 2 * M_PI < lo
      · exact h3 hx
      · have hk := h4 (not_lt.mp hx)
        subst hk
        rw [h1]; simp
        linarith
    · intro hle; exact absurd h (not_lt.mpr hle)
  | case2 x h =>
    rw [addWhileBelow, if_neg h]
    exact ⟨0, by simp, not_lt.mp h, fun h2 => absurd h2 h, fun _ => rfl⟩

theorem subWhileAbove_of_le {hi x : F} (h : x ≤ hi) : subWhileAbove hi x = x := by
  rw [subWhileAbove, if_neg (not_lt.mpr h)]

theorem addWhileBelow_of_le {lo x : F} (h : lo ≤ x) : addWhileBelow lo x = x := by
  rw [addWhileBelow, if_neg (not_lt.mpr h)]

/-- On `[0, y)` the function `fmodf · y` is the identity. -/
theorem fmodf_of_mem {x y : F} (h0 : 0 ≤ x) (h1 : x < y) : fmodf x y = x := by
  have hy : 0 < y := lt_of_le_of_lt h0 h1
  unfold fmodf truncToInt
  rw [if_pos (div_nonneg h0 hy.le)]
  have : ⌊x / y⌋ = 0 := by
    rw [Int.floor_eq_iff]
    refine ⟨by simpa using div_nonneg h0 hy.le, ?_⟩
    simpa using (div_lt_one hy).mpr h1
  rw [this]; simp

theorem forall₂_map_self {α β : Type} (R : α → β → Prop) (f : α → β) (h : ∀ a, R a (f a))
    (l : List α) : List.Forall₂ R l (l.map f) := by
  induction l with
  | nil => exact List.Forall₂.nil
  | cons a l ih => exact List.Forall₂.cons (h a) ih

end NumericLemmas

/-! ## Conditional statements on one particle -/

section StatementLemmas

variable {F : Type}

theorem restoreHeight_eq (c : GasCloud F) (y : F) :
    restoreHeight c y = { c with y := if c.type ≠ GasType.CORONAL then y else c.y } := by
  unfold restoreHeight
  split_ifs <;> rfl

variable [LinearOrderedField F]

theorem wrapNegativeAngle_eq (c : GasCloud F) (t : F) :
    wrapNegativeAngle c t = { c with angle := if c.angle < 0 then c.angle + t else c.angle } := by
  unfold wrapNegativeAngle
  split_ifs <;> rfl

theorem wrapNegativePhase_eq (c : GasCloud F) (t : F) :
    wrapNegativePhase c t
      = { c with turbulencePhase :=
            if c.turbulencePhase < 0 then c.turbulencePhase + t else c.turbulencePhase } := by
  unfold wrapNegativePhase
  split_ifs <;> rfl

end StatementLemmas

/-! ## Kinematics: lemmas on one particle -/

section KinematicsLemmas

variable {F : Type} [LinearOrderedField F] [FloorRing F]

/-- The body of `updateGalacticGas` in closed form: the cloud with its new
angle, the position on the orbit at that angle, and its new phase. -/
theorem updateCloud_eq (m : Libm F) (c : GasCloud F) (dt : F) :
    updateCloud m c dt =
      { c with
        angle :=
          if fmodf (c.angle + c.angularVelocity * dt) (2 * M_PI) < 0
            then fmodf (c.angle + c.angularVelocity * dt) (2 * M_PI) + 2 * M_PI
            else fmodf (c.angle + c.angularVelocity * dt) (2 * M_PI)
        x := c.orbitalRadius * m.cos
          (if fmodf (c.angle + c.angularVelocity * dt) (2 * M_PI) < 0
            then fmodf (c.angle + c.angularVelocity * dt) (2 * M_PI) + 2 * M_PI
            else fmodf (c.angle + c.angularVelocity * dt) (2 * M_PI))
        z := c.orbitalRadius * m.sin
          (if fmodf (c.angle + c.angularVelocity * dt) (2 * M_PI) < 0
            then fmodf (c.angle + c.angularVelocity * dt) (2 * M_PI) + 2 * M_PI
            else fmodf (c.angle + c.angularVelocity * dt) (2 * M_PI))
        turbulencePhase :=
          if fmodf (c.turbulencePhase + c.turbulenceSpeed * dt) (2 * M_PI) < 0
            then fmodf (c.turbulencePhase + c.turbulenceSpeed * dt) (2 * M_PI) + 2 * M_PI
            else fmodf (c.turbulencePhase + c.turbulenceSpeed * dt) (2 * M_PI) } := by
  unfold updateCloud
  simp only [wrapNegativeAngle_eq, restoreHeight_eq, wrapNegativePhase_eq, ite_self]

/-- The fields that `updateGalacticGas` leaves as they were. -/
theorem updateCloud_frame (m : Libm F) (c : GasCloud F) (dt : F) :
    updateCloud m c dt =
      { c with
        angle := (updateCloud m c dt).angle
        x := (updateCloud m c dt).x
        z := (updateCloud m c dt).z
        turbulencePhase := (updateCloud m c dt).turbulencePhase } := by
  rw [updateCloud_eq]

/-- The stand-ins `ratLibm.cos` and `ratLibm.sin` lie on the unit circle. -/
theorem ratLibm_cos_sq_add_sin_sq (a : ℚ) : ratLibm.cos a ^ 2 + ratLibm.sin a ^ 2 = 1 := by
  have h : (1 + (a / 2) ^ 2) ≠ 0 := by positivity
  simp only [ratLibm]
  field_simp
  ring

end KinematicsLemmas

/-! ## Kinematics: the orbital angle, the orbital invariant, the frame -/

section KinematicsClaims

variable {F : Type} [LinearOrderedField F] [FloorRing F]

/-- C7.  A tick keeps the length and the order of the buffer and, position by
position, changes no field of a star other than `angle`, `x` and `z`, and no
field of a gas cloud other than `angle`, `x`, `z` and `turbulencePhase`; in
particular `y` is kept for every species, `CORONAL` included. -/
theorem tick_frame (m : Libm F) (stars : List (Star F)) (gasClouds : List (GasCloud F))
    (deltaTime : F) :
    (updateStarPositions m stars deltaTime).length = stars.length
      ∧ (updateGalacticGas m gasClouds deltaTime).length = gasClouds.length
      ∧ List.Forall₂
        (fun s t => t = { s with angle := t.angle, x := t.x, z := t.z } ∧ t.y = s.y)
        stars (updateStarPositions m stars deltaTime)
      ∧ List.Forall₂
        (fun c d =>
          d = { c with angle := d.angle, x := d.x, z := d.z,
                       turbulencePhase := d.turbulencePhase }
            ∧ d.y = c.y ∧ d.type = c.type ∧ d.isDarkLane = c.isDarkLane)
        gasClouds (updateGalacticGas m gasClouds deltaTime) := by
  refine ⟨by simp [updateStarPositions], by simp [updateGalacticGas], ?_, ?_⟩
  · unfold updateStarPositions
    apply forall₂_map_self
    intro s
    exact ⟨rfl, rfl⟩
  · unfold updateGalacticGas
    apply forall₂_map_self
    intro c
    have h := updateCloud_frame m c deltaTime
    refine ⟨h, ?_, ?_, ?_⟩ <;> rw [h]

end KinematicsClaims

/-! ## Gas generator: lemmas on the loops -/

section GasGeneratorLemmas

variable {F : Type} [LinearOrderedField F] {G : Type}

/-- A counted push loop appends to the buffer a block of `k` elements, each a
value of the body. -/
theorem pushLoop_spec {α : Type} (body : G → α × G) (P : α → Prop)
    (hP : ∀ g, P (body g).1) (k : Nat) (st : List α × G) :
    ∃ block : List α, (pushLoop body k st).1 = st.1 ++ block ∧ block.length = k
      ∧ ∀ c ∈ block, P c := by
  induction k generalizing st with
  | zero => exact ⟨[], by simp [pushLoop], rfl, by simp⟩
  | succ k ih =>
    obtain ⟨block, h1, h2, h3⟩ := ih (st.1 ++ [(body st.2).1], (body st.2).2)
    refine ⟨(body st.2).1 :: block, ?_, by simp [h2], ?_⟩
    · rw [pushLoop]
      simp only [] at h1 ⊢
      rw [h1]
      simp
    · intro c hc
      rcases List.mem_cons.mp hc with rfl | hc
      · exact hP _
      · exact h3 c hc

/-- The buffer returned by `generateGalacticGas` is six consecutive blocks, one
for each loop in the order of the source, the length of each the count of its
loop, and every cloud of a block a value of the body of its loop. -/
theorem generateGalacticGas_decomp (m : Libm F) (rnd : Random F G)
    (prior : List (GasCloud F)) (config : GasConfig F) (seed : Nat) (diskRadius bulgeRadius : F)
    (P1 P2 P3 P4 P5 P6 : GasCloud F → Prop)
    (h1 : ∀ g, P1 (molecularCloud m rnd config 2 0.3 60 diskRadius bulgeRadius g).1)
    (h2 : ∀ g, P2 (coldNeutralCloud m rnd config diskRadius bulgeRadius g).1)
    (h3 : ∀ g, P3 (warmNeutralCloud m rnd config diskRadius bulgeRadius g).1)
    (h4 : ∀ g, P4 (warmIonizedCloud m rnd config 2 0.3 60 diskRadius bulgeRadius g).1)
    (h5 : ∀ g, P5 (hotIonizedCloud m rnd config diskRadius bulgeRadius g).1)
    (h6 : ∀ g, P6 (coronalCloud m rnd diskRadius g).1) :
    ∃ b1 b2 b3 b4 b5 b6 : List (GasCloud F),
      generateGalacticGas m rnd prior config seed diskRadius bulgeRadius
          = b1 ++ b2 ++ b3 ++ b4 ++ b5 ++ b6
        ∧ b1.length = config.numMolecularClouds.toNat ∧ (∀ c ∈ b1, P1 c)
        ∧ b2.length = config.numColdNeutralClouds.toNat ∧ (∀ c ∈ b2, P2 c)
        ∧ b3.length = config.numWarmNeutralClouds.toNat ∧ (∀ c ∈ b3, P3 c)
        ∧ b4.length = config.numWarmIonizedClouds.toNat ∧ (∀ c ∈ b4, P4 c)
        ∧ b5.length = config.numHotIonizedClouds.toNat ∧ (∀ c ∈ b5, P5 c)
        ∧ b6.length = config.numCoronalClouds.toNat ∧ (∀ c ∈ b6, P6 c) := by
  unfold generateGalacticGas
  simp only []
  obtain ⟨b1, e1, l1, p1⟩ := pushLoop_spec _ P1 h1 config.numMolecularClouds.toNat
    (clear prior, rnd.mt19937 ((seed + 12345) % 2 ^ 32))
  obtain ⟨b2, e2, l2, p2⟩ := pushLoop_spec _ P2 h2 config.numColdNeutralClouds.toNat
    (pushLoop (molecularCloud m rnd config 2 0.3 60 diskRadius bulgeRadius)
      config.numMolecularClouds.toNat (clear prior, rnd.mt19937 ((seed + 12345) % 2 ^ 32)))
  obtain ⟨b3, e3, l3, p3⟩ := pushLoop_spec _ P3 h3 config.numWarmNeutralClouds.toNat
    (pushLoop (coldNeutralCloud m rnd config diskRadius bulgeRadius)
      config.numColdNeutralClouds.toNat
    (pushLoop (molecularCloud m rnd config 2 0.3 60 diskRadius bulgeRadius)
      config.numMolecularClouds.toNat (clear prior, rnd.mt19937 ((seed + 12345) % 2 ^ 32))))
  generalize pushLoop (warmNeutralCloud m rnd config diskRadius bulgeRadius)
      config.numWarmNeutralClouds.toNat
    (pushLoop (coldNeutralCloud m rnd config diskRadius bulgeRadius)
      config.numColdNeutralClouds.toNat
    (pushLoop (molecularCloud m rnd config 2 0.3 60 diskRadius bulgeRadius)
      config.numMolecularClouds.toNat (clear prior, rnd.mt19937 ((seed + 12345) % 2 ^ 32))))
    = st3 at e3 ⊢
  obtain ⟨b4, e4, l4, p4⟩ := pushLoop_spec _ P4 h4 config.numWarmIonizedClouds.toNat st3
  generalize pushLoop (warmIonizedCloud m rnd config 2 0.3 60 diskRadius bulgeRadius)
      config.numWarmIonizedClouds.toNat st3 = st4 at e4 ⊢
  obtain ⟨b5, e5, l5, p5⟩ := pushLoop_spec _ P5 h5 config.numHotIonizedClouds.toNat st4
  generalize pushLoop (hotIonizedCloud m rnd config diskRadius bulgeRadius)
      config.numHotIonizedClouds.toNat st4 = st5 at e5 ⊢
  obtain ⟨b6, e6, l6, p6⟩ := pushLoop_spec _ P6 h6 config.numCoronalClouds.toNat st5
  refine ⟨b1, b2, b3, b4, b5, b6, ?_, l1, p1, l2, p2, l3, p3, l4, p4, l5, p5, l6, p6⟩
  rw [e6, e5, e4, e3, e2, e1]
  simp [clear]

end GasGeneratorLemmas

/-! ## Gas generator: count, layout, dark lanes -/

section GasGeneratorClaims

variable {F : Type} [LinearOrderedField F] {G : Type}

/-- C1.  For a configuration whose six counts are non-negative,
`generateGalacticGas` returns the sum of the six counts many clouds, as six
consecutive blocks in the order molecular, cold neutral, warm neutral, warm
ionized, hot ionized, coronal, the length of each block its count and every
cloud of a block of the species of the block; when the first five counts are
`0` every cloud is `CORONAL` and there are `numCoronalClouds` of them. -/
theorem generateGalacticGas_count_layout (m : Libm F) (rnd : Random F G)
    (prior : List (GasCloud F)) (config : GasConfig F) (seed : Nat) (diskRadius bulgeRadius : F)
    (h1 : 0 ≤ config.numMolecularClouds) (h2 : 0 ≤ config.numColdNeutralClouds)
    (h3 : 0 ≤ config.numWarmNeutralClouds) (h4 : 0 ≤ config.numWarmIonizedClouds)
    (h5 : 0 ≤ config.numHotIonizedClouds) (h6 : 0 ≤ config.numCoronalClouds) :
    (((generateGalacticGas m rnd prior config seed diskRadius bulgeRadius).length : Int)
        = config.numMolecularClouds + config.numColdNeutralClouds
          + config.numWarmNeutralClouds + config.numWarmIonizedClouds
          + config.numHotIonizedClouds + config.numCoronalClouds)
      ∧ (∃ b1 b2 b3 b4 b5 b6 : List (GasCloud F),
          generateGalacticGas m rnd prior config seed diskRadius bulgeRadius
              = b1 ++ b2 ++ b3 ++ b4 ++ b5 ++ b6
            ∧ (b1.length : Int) = config.numMolecularClouds
            ∧ (∀ c ∈ b1, c.type = GasType.MOLECULAR)
            ∧ (b2.length : Int) = config.numColdNeutralClouds
            ∧ (∀ c ∈ b2, c.type = GasType.COLD_NEUTRAL)
            ∧ (b3.length : Int) = config.numWarmNeutralClouds
            ∧ (∀ c ∈ b3, c.type = GasType.WARM_NEUTRAL)
            ∧ (b4.length : Int) = config.numWarmIonizedClouds
            ∧ (∀ c ∈ b4, c.type = GasType.WARM_IONIZED)
            ∧ (b5.length : Int) = config.numHotIonizedClouds
            ∧ (∀ c ∈ b5, c.type = GasType.HOT_IONIZED)
            ∧ (b6.length : Int) = config.numCoronalClouds
            ∧ (∀ c ∈ b6, c.type = GasType.CORONAL))
      ∧ (config.numMolecularClouds = 0 → config.numColdNeutralClouds = 0 →
          config.numWarmNeutralClouds = 0 → config.numWarmIonizedClouds = 0 →
          config.numHotIonizedClouds = 0 →
          ((generateGalacticGas m rnd prior config seed diskRadius bulgeRadius).length : Int)
              = config.numCoronalClouds
            ∧ ∀ c ∈ generateGalacticGas m rnd prior config seed diskRadius bulgeRadius,
                c.type = GasType.CORONAL) := by
  obtain ⟨b1, b2, b3, b4, b5, b6, e, l1, p1, l2, p2, l3, p3, l4, p4, l5, p5, l6, p6⟩ :=
    generateGalacticGas_decomp m rnd prior config seed diskRadius bulgeRadius
      (fun c => c.type = GasType.MOLECULAR) (fun c => c.type = GasType.COLD_NEUTRAL)
      (fun c => c.type = GasType.WARM_NEUTRAL) (fun c => c.type = GasType.WARM_IONIZED)
      (fun c => c.type = GasType.HOT_IONIZED) (fun c => c.type = GasType.CORONAL)
      (fun _ => rfl) (fun _ => rfl) (fun _ => rfl) (fun _ => rfl) (fun _ => rfl) (fun _ => rfl)
  have k1 : (b1.length : Int) = config.numMolecularClouds := by rw [l1]; exact Int.toNat_of_nonneg h1
  have k2 : (b2.length : Int) = config.numColdNeutralClouds := by rw [l2]; exact Int.toNat_of_nonneg h2
  have k3 : (b3.length : Int) = config.numWarmNeutralClouds := by rw [l3]; exact Int.toNat_of_nonneg h3
  have k4 : (b4.length : Int) = config.numWarmIonizedClouds := by rw [l4]; exact Int.toNat_of_nonneg h4
  have k5 : (b5.length : Int) = config.numHotIonizedClouds := by rw [l5]; exact Int.toNat_of_nonneg h5
  have k6 : (b6.length : Int) = config.numCoronalClouds := by rw [l6]; exact Int.toNat_of_nonneg h6
  have total : ((generateGalacticGas m rnd prior config seed diskRadius bulgeRadius).length : Int)
      = config.numMolecularClouds + config.numColdNeutralClouds
        + config.numWarmNeutralClouds + config.numWarmIonizedClouds
        + config.numHotIonizedClouds + config.numCoronalClouds := by
    rw [e]
    simp only [List.length_append]
    push_cast
    rw [k1, k2, k3, k4, k5, k6]
  refine ⟨total, ⟨b1, b2, b3, b4, b5, b6, e, k1, p1, k2, p2, k3, p3, k4, p4, k5, p5, k6, p6⟩, ?_⟩
  intro z1 z2 z3 z4 z5
  refine ⟨by rw [total, z1, z2, z3, z4, z5]; simp, ?_⟩
  have n1 : b1 = [] := List.length_eq_zero.mp (by rw [l1, z1]; rfl)
  have n2 : b2 = [] := List.length_eq_zero.mp (by rw [l2, z2]; rfl)
  have n3 : b3 = [] := List.length_eq_zero.mp (by rw [l3, z3]; rfl)
  have n4 : b4 = [] := List.length_eq_zero.mp (by rw [l4, z4]; rfl)
  have n5 : b5 = [] := List.length_eq_zero.mp (by rw [l5, z5]; rfl)
  rw [e, n1, n2, n3, n4, n5]
  simpa using p6

/-- C1, witness.  With every count `0` but `numCoronalClouds = 3`, seed `42`
and the default radii, the rational instance returns `3` clouds, all of them
`CORONAL`, whatever the buffer held. -/
theorem generateGalacticGas_count_layout_witness :
    (generateGalacticGas ratLibm ratRandom [haloCloud] coronalOnlyConfig 42 800 150).length = 3
      ∧ ∀ c ∈ generateGalacticGas ratLibm ratRandom [haloCloud] coronalOnlyConfig 42 800 150,
          c.type = GasType.CORONAL := by
  have h := (generateGalacticGas_count_layout ratLibm ratRandom [haloCloud] coronalOnlyConfig
    42 800 150 (by decide) (by decide) (by decide) (by decide) (by decide) (by decide)).2.2
    rfl rfl rfl rfl rfl
  refine ⟨?_, h.2⟩
  have h1 := h.1
  simp only [coronalOnlyConfig] at h1
  exact_mod_cast h1

/-- C2.  `getGasColor` leaves `isDarkLane` true exactly for `MOLECULAR`, where
it returns the colour `(0, 0, 0)` with alpha `0.5 * density`; and every cloud
returned by `generateGalacticGas` has `isDarkLane` true exactly when its type
is `MOLECULAR`, so a cloud of any of the five other species has `isDarkLane`
false. -/
theorem getGasColor_darkLane_iff_molecular (m : Libm F) (rnd : Random F G)
    (prior : List (GasCloud F)) (config : GasConfig F) (seed : Nat) (diskRadius bulgeRadius : F) :
    (∀ (type : GasType) (temperature density : F),
        ((getGasColor type temperature density).2 = true ↔ type = GasType.MOLECULAR))
      ∧ (∀ temperature density : F,
          getGasColor GasType.MOLECULAR temperature density
            = ({ r := 0, g := 0, b := 0, a := 0.5 * density }, true))
      ∧ (∀ c ∈ generateGalacticGas m rnd prior config seed diskRadius bulgeRadius,
          (c.isDarkLane = true ↔ c.type = GasType.MOLECULAR)
            ∧ (c.type ≠ GasType.MOLECULAR → c.isDarkLane = false)) := by
  refine ⟨?_, ?_, ?_⟩
  · intro type temperature density
    cases type <;> simp [getGasColor]
  · intro temperature density
    simp [getGasColor, mul_comm]
  · obtain ⟨b1, b2, b3, b4, b5, b6, e, _, p1, _, p2, _, p3, _, p4, _, p5, _, p6⟩ :=
      generateGalacticGas_decomp m rnd prior config seed diskRadius bulgeRadius
        (fun c => c.type = GasType.MOLECULAR ∧ c.isDarkLane = true)
        (fun c => c.type = GasType.COLD_NEUTRAL ∧ c.isDarkLane = false)
        (fun c => c.type = GasType.WARM_NEUTRAL ∧ c.isDarkLane = false)
        (fun c => c.type = GasType.WARM_IONIZED ∧ c.isDarkLane = false)
        (fun c => c.type = GasType.HOT_IONIZED ∧ c.isDarkLane = false)
        (fun c => c.type = GasType.CORONAL ∧ c.isDarkLane = false)
        (fun _ => ⟨rfl, rfl⟩) (fun _ => ⟨rfl, rfl⟩) (fun _ => ⟨rfl, rfl⟩) (fun _ => ⟨rfl, rfl⟩)
        (fun _ => ⟨rfl, rfl⟩) (fun _ => ⟨rfl, rfl⟩)
    intro c hc
    rw [e] at hc
    simp only [List.mem_append] at hc
    rcases hc with ((((hc | hc) | hc) | hc) | hc) | hc
    · obtain ⟨t, d⟩ := p1 c hc
      simp [t, d]
    · obtain ⟨t, d⟩ := p2 c hc
      simp [t, d]
    · obtain ⟨t, d⟩ := p3 c hc
      simp [t, d]
    · obtain ⟨t, d⟩ := p4 c hc
      simp [t, d]
    · obtain ⟨t, d⟩ := p5 c hc
      simp [t, d]
    · obtain ⟨t, d⟩ := p6 c hc
      simp [t, d]

end GasGeneratorClaims

/-! ## Star generator: count, and regeneration of both buffers -/

section StarGeneratorLemmas

variable {F : Type} [LinearOrderedField F] [FloorRing F] {G : Type}

/-- The end of the body draws twice, in both of its branches. -/
theorem typeAndBrightness_snd (m : Libm F) (rnd : Random F G) (config : GalaxyConfig F)
    (star : Star F) (rng : G) :
    (typeAndBrightness m rnd config star rng).2 = (rnd.dist (rnd.dist rng).2).2 := by
  unfold typeAndBrightness
  simp only [apply_ite Prod.snd, ite_self]

/-- A candidate whose first draw is below `0.15` is a bulge star: it is
accepted, after six uniform draws. -/
theorem starCandidate_bulge (m : Libm F) (rnd : Random F G) (config : GalaxyConfig F) (rng : G)
    (h : (rnd.dist rng).1 < 0.15) :
    ∃ star, starCandidate m rnd config rng
      = (some star,
          (rnd.dist (rnd.dist (rnd.dist (rnd.dist (rnd.dist (rnd.dist rng).2).2).2).2).2).2) := by
  unfold starCandidate
  simp only [h, decide_True, if_true]
  refine ⟨(typeAndBrightness m rnd config (bulgeStar m rnd config Star.declared (rnd.dist rng).2).1
    (bulgeStar m rnd config Star.declared (rnd.dist rng).2).2).1, ?_⟩
  rw [typeAndBrightness_snd]
  rfl

/-- The stand-in `ratLibm.exp` vanishes at and below `-1`. -/
theorem ratLibm_exp_of_le {a : ℚ} (h : a ≤ -1) : ratLibm.exp a = 0 := by
  simp only [ratLibm]
  exact max_eq_left (by linarith)

/-- The Newton loop on the rational instance for the draw `u = 0.77`: it
leaves at the second iteration, where the derivative vanishes. -/
theorem newtonLoop_eval :
    newtonLoop ratLibm 200 (77 / 100) 10 (-200 * ratLibm.log (1 - 77 / 100 + 1e-8))
      = 313467017786999769000001 / 885500026999999500000 := by
  rw [newtonLoop]
  norm_num [ratLibm, abs_lt]
  rw [newtonLoop]
  norm_num [ratLibm, abs_lt, max_def]

/-- The candidate of radius about `354` at the angle `0.88 * 2π` is more than
`300` away from both arms. -/
theorem minArmDistance_eval :
    300 < minArmDistance ratLibm twoStarConfig
      (313467017786999769000001 / 885500026999999500000) (88 / 100 * 2 * M_PI) := by
  unfold minArmDistance
  simp only [twoStarConfig, List.range, List.range.loop, List.foldl, Int.toNat]
  have e0 : (88 / 100 * 2 * M_PI
      - (ratLibm.log (313467017786999769000001 / 885500026999999500000 / 150) / (3 / 10)
        + ((0 : ℕ) : ℚ) * 2 * M_PI / ((2 : ℤ) : ℚ)))
      = 4960364040684963188965639370881469623 / 4980937651874997187500000000000000000 := by
    norm_num [ratLibm, M_PI]
  have e1 : (88 / 100 * 2 * M_PI
      - (ratLibm.log (313467017786999769000001 / 885500026999999500000 / 150) / (3 / 10)
        + ((1 : ℕ) : ℚ) * 2 * M_PI / ((2 : ℤ) : ℚ)))
      = -42750852377737291991786906995750188833 / 19923750607499988750000000000000000000 := by
    norm_num [ratLibm, M_PI]
  rw [e0, e1]
  rw [subWhileAbove_of_le (by norm_num [M_PI]), addWhileBelow_of_le (by norm_num [M_PI]),
    subWhileAbove_of_le (by norm_num [M_PI]), addWhileBelow_of_le (by norm_num [M_PI])]
  norm_num [abs_of_nonneg, abs_of_neg, min_def]

/-- The disk candidate drawn from the state `7` is rejected: its acceptance
probability is `1 / 55` and the uniform draw is `0.99`. -/
theorem diskStar_eval : diskStar ratLibm ratRandom twoStarConfig Star.declared 7 = (none, 10) := by
  have h7 : ratRandom.dist 7 = (77 / 100, 8) := by norm_num [ratRandom]
  have h8 : ratRandom.dist 8 = (88 / 100, 9) := by norm_num [ratRandom]
  have h9 : ratRandom.dist 9 = (99 / 100, 10) := by norm_num [ratRandom]
  have hs : sampleExponentialDiskRadius ratLibm ratRandom (twoStarConfig.diskRadius * 0.25) 7
      = (313467017786999769000001 / 885500026999999500000, 8) := by
    have e : twoStarConfig.diskRadius * 0.25 = 200 := by norm_num [twoStarConfig]
    rw [e]
    unfold sampleExponentialDiskRadius
    simp only [h7]
    rw [newtonLoop_eval]
  have hr : ¬ ((313467017786999769000001 / 885500026999999500000 : ℚ)
      > twoStarConfig.diskRadius * 2) := by
    norm_num [twoStarConfig]
  have hn : ¬ ((313467017786999769000001 / 885500026999999500000 : ℚ)
      / twoStarConfig.diskRadius > 1) := by
    norm_num [twoStarConfig]
  unfold diskStar
  simp only [hs, h8, h9, if_neg hr, if_neg hn]
  have hd := minArmDistance_eval
  generalize minArmDistance ratLibm twoStarConfig
    (313467017786999769000001 / 885500026999999500000) (88 / 100 * 2 * M_PI) = d at hd ⊢
  have e1 : twoStarConfig.diskRadius = 800 := rfl
  have e2 : twoStarConfig.armWidth = 60 := rfl
  rw [e1, e2]
  have hw : (60 * (1 + 313467017786999769000001 / 885500026999999500000 / 800 * 1.5) : ℚ)
      * (60 * (1 + 313467017786999769000001 / 885500026999999500000 / 800 * 1.5)) ≤ 90000 := by
    norm_num
  have hw0 : (0 : ℚ) < (60 * (1 + 313467017786999769000001 / 885500026999999500000 / 800 * 1.5))
      * (60 * (1 + 313467017786999769000001 / 885500026999999500000 / 800 * 1.5)) := by
    norm_num
  have hexp : -d * d / ((60 * (1 + 313467017786999769000001 / 885500026999999500000 / 800 * 1.5))
      * (60 * (1 + 313467017786999769000001 / 885500026999999500000 / 800 * 1.5))) ≤ -1 := by
    rw [div_le_iff₀ hw0]
    nlinarith
  rw [ratLibm_exp_of_le hexp]
  norm_num [acceptProbability, twoStarConfig]

/-- The candidate drawn from the state `6` is a disk candidate and is
rejected. -/
theorem starCandidate_eval : starCandidate ratLibm ratRandom twoStarConfig 6 = (none, 10) := by
  have h6 : ratRandom.dist 6 = (66 / 100, 7) := by norm_num [ratRandom]
  unfold starCandidate
  simp only [h6]
  have hb : ¬ ((66 / 100 : ℚ) < 0.15) := by norm_num
  simp only [hb, decide_False, Bool.false_eq_true, if_false, diskStar_eval]

end StarGeneratorLemmas

section GeneratorClaims

variable {F : Type} [LinearOrderedField F] [FloorRing F] {G : Type}

/-- C9.  The buffer returned by `generateStarField` and the buffer returned by
`generateGalacticGas` do not depend on what the buffer held on entry: a call
on a populated buffer returns what a call on an empty buffer returns, and a
second call with the same inputs on the buffer that the first call returned
returns that buffer again. -/
theorem generate_ignores_prior_buffer (m : Libm F) (rnd : Random F G) (fuel : Nat)
    (priorStars : List (Star F)) (config : GalaxyConfig F) (priorGas : List (GasCloud F))
    (gasConfig : GasConfig F) (seed : Nat) (diskRadius bulgeRadius : F) :
    generateStarField m rnd fuel priorStars config = generateStarField m rnd fuel [] config
      ∧ generateGalacticGas m rnd priorGas gasConfig seed diskRadius bulgeRadius
          = generateGalacticGas m rnd [] gasConfig seed diskRadius bulgeRadius
      ∧ (generateStarField m rnd fuel priorStars config).bind
            (fun stars => generateStarField m rnd fuel stars config)
          = generateStarField m rnd fuel priorStars config
      ∧ generateGalacticGas m rnd
            (generateGalacticGas m rnd priorGas gasConfig seed diskRadius bulgeRadius)
            gasConfig seed diskRadius bulgeRadius
          = generateGalacticGas m rnd priorGas gasConfig seed diskRadius bulgeRadius := by
  refine ⟨rfl, rfl, ?_, rfl⟩
  cases hres : generateStarField m rnd fuel priorStars config with
  | none => rfl
  | some stars =>
    rw [Option.some_bind, ← hres]
    rfl

end GeneratorClaims

/-! ## Renderer: lemmas on the bins and the loops -/

section RendererLemmas

set_option linter.unusedSectionVars false

variable {F : Type} [LinearOrderedField F] [FloorRing F]

/-- The bin index is one of the 40 bins. -/
theorem sizeBinOf_range (size : F) : 0 ≤ sizeBinOf size ∧ sizeBinOf size < 40 := by
  unfold sizeBinOf MAX_SIZE_BINS
  simp only []
  split_ifs <;> omega

theorem sum_map_range_update (f : Nat → Nat) (j n : Nat) (hj : j < n) :
    ((List.range n).map fun b => if b = j then f b + 1 else f b).sum
      = ((List.range n).map f).sum + 1 := by
  induction n with
  | zero => omega
  | succ n ih =>
    rw [List.range_succ, List.map_append, List.map_append, List.sum_append, List.sum_append]
    by_cases h : j = n
    · subst h
      have e : (List.range j).map (fun b => if b = j then f b + 1 else f b) = (List.range j).map f := by
        apply List.map_congr_left
        intro b hb
        have : b ≠ j := Nat.ne_of_lt (List.mem_range.mp hb)
        simp [this]
      rw [e]
      simp
      ring
    · have hlt : j < n := by omega
      rw [ih hlt]
      have : n ≠ j := fun e => h e.symm
      simp [this]
      ring

/-- A splat pushed on a bin adds one to the number of splats and keeps every
bin a whole number of vertices. -/
theorem pushSplat_count (bins : SizeBins F) (sizeBin : Int) (x y z r g b a : F)
    (h0 : 0 ≤ sizeBin) (h1 : sizeBin < 40)
    (hw : ∀ i, 3 ∣ (bins.verticesBySize i).length) :
    (∀ i, 3 ∣ ((pushSplat bins sizeBin x y z r g b a).verticesBySize i).length)
      ∧ splatCount (pushSplat bins sizeBin x y z r g b a) = splatCount bins + 1 := by
  constructor
  · intro i
    simp only [pushSplat]
    split_ifs
    · rw [List.length_append]
      exact Nat.dvd_add (hw i) (by simp)
    · exact hw i
  · unfold splatCount
    rw [← sum_map_range_update _ sizeBin.toNat 40 (by omega)]
    apply congrArg
    apply List.map_congr_left
    intro i _
    simp only [pushSplat]
    split_ifs with h
    · rw [List.length_append]
      obtain ⟨c, hc⟩ := hw i
      rw [hc]
      simp
    · rfl

theorem foldl_range_count (step : SizeBins F → Nat → SizeBins F) (n : Nat)
    (hstep : ∀ bins i, (∀ j, 3 ∣ (bins.verticesBySize j).length) →
      (∀ j, 3 ∣ ((step bins i).verticesBySize j).length)
        ∧ splatCount (step bins i) = splatCount bins + 1)
    (bins : SizeBins F) (hw : ∀ j, 3 ∣ (bins.verticesBySize j).length) :
    (∀ j, 3 ∣ (((List.range n).foldl step bins).verticesBySize j).length)
      ∧ splatCount ((List.range n).foldl step bins) = splatCount bins + n := by
  induction n with
  | zero =>
    simp only [List.range_zero, List.foldl_nil, add_zero]
    exact ⟨hw, trivial⟩
  | succ n ih =>
    rw [List.range_succ, List.foldl_append]
    simp only [List.foldl_cons, List.foldl_nil]
    obtain ⟨h1, h2⟩ := hstep _ n ih.1
    exact ⟨h1, by rw [h2, ih.2]; ring⟩

theorem darkLaneSplats_count (cloud : GasCloud F) (numLayers : Int) (bins : SizeBins F)
    (hw : ∀ j, 3 ∣ (bins.verticesBySize j).length) :
    (∀ j, 3 ∣ ((darkLaneSplats cloud numLayers bins).verticesBySize j).length)
      ∧ splatCount (darkLaneSplats cloud numLayers bins) = splatCount bins + numLayers.toNat := by
  unfold darkLaneSplats
  apply foldl_range_count
  · intro bins i hb
    exact pushSplat_count _ _ _ _ _ _ _ _ _ (sizeBinOf_range _).1 (sizeBinOf_range _).2 hb
  · exact hw

theorem emissiveSplats_count (m : Libm F) (cloud : GasCloud F) (nf nl : Int) (bins : SizeBins F)
    (hw : ∀ j, 3 ∣ (bins.verticesBySize j).length) :
    (∀ j, 3 ∣ ((emissiveSplats m cloud nf nl bins).verticesBySize j).length)
      ∧ splatCount (emissiveSplats m cloud nf nl bins) = splatCount bins + nf.toNat * nl.toNat := by
  unfold emissiveSplats
  simp only []
  generalize nf.toNat = a
  induction a with
  | zero =>
    simp only [List.range_zero, List.foldl_nil, zero_mul, add_zero]
    exact ⟨hw, trivial⟩
  | succ a ih =>
    rw [List.range_succ, List.foldl_append]
    simp only [List.foldl_cons, List.foldl_nil]
    have h := foldl_range_count (F := F)
      (fun (bins : SizeBins F) (i : Nat) =>
          pushSplat bins
            (sizeBinOf
              (cloud.smoothingLength * 1.2 * (1 + cloud.elongation * 0.5) * (1 + (i : F) / ((nl - 1 : Int) : F) * 0.2)))
            (cloud.x + ((((a : Int) - nf / 2 : Int) : F) * (cloud.smoothingLength * 0.4)) * m.cos cloud.rotationAngle) cloud.y
            (cloud.z + ((((a : Int) - nf / 2 : Int) : F) * (cloud.smoothingLength * 0.4)) * m.sin cloud.rotationAngle) cloud.r cloud.g cloud.b
            (cloud.alpha * 0.8 * m.exp (-((i : F) / ((nl - 1 : Int) : F)) * ((i : F) / ((nl - 1 : Int) : F)) * 2.5) *
              m.exp (((-(a : Int) * (a : Int) : Int) : F) * 0.8)))
      nl.toNat
      (fun bins i hb => pushSplat_count _ _ _ _ _ _ _ _ _ (sizeBinOf_range _).1 (sizeBinOf_range _).2 hb)
      _ ih.1
    refine ⟨h.1, ?_⟩
    rw [h.2, ih.2]
    ring

/-- The index lists of `renderGalacticGas`: the indices of the clouds with
`isDarkLane` and the indices of the others, each in the order of the buffer. -/
theorem partitionIndices_spec (gasClouds : List (GasCloud F)) :
    partitionIndices gasClouds
      = ((gasClouds.enum.filter fun p => p.2.isDarkLane).map Prod.fst,
         (gasClouds.enum.filter fun p => !p.2.isDarkLane).map Prod.fst) := by
  unfold partitionIndices
  have key : ∀ (ps : List (Nat × GasCloud F)) (acc : List Nat × List Nat),
      ps.foldl
          (fun (idxs : List Nat × List Nat) (p : Nat × GasCloud F) =>
            if p.2.isDarkLane then (idxs.1 ++ [p.1], idxs.2) else (idxs.1, idxs.2 ++ [p.1]))
          acc
        = (acc.1 ++ (ps.filter fun p => p.2.isDarkLane).map Prod.fst,
           acc.2 ++ (ps.filter fun p => !p.2.isDarkLane).map Prod.fst) := by
    intro ps
    induction ps with
    | nil => intro acc; simp
    | cons p ps ih =>
      intro acc
      rw [List.foldl_cons, ih]
      by_cases h : p.2.isDarkLane = true <;> simp [h]
  rw [key]
  simp

/-- A loop over an index list whose entries are valid reads the clouds that
the indices name. -/
theorem foldl_lookup (gasClouds : List (GasCloud F)) (skip : Nat → Prop) [DecidablePred skip]
    (body : GasCloud F → SizeBins F → SizeBins F) (E : List (Nat × GasCloud F))
    (hE : ∀ p ∈ E, gasClouds[p.1]? = some p.2) (n : Nat) (bins : SizeBins F) :
    ((E.map Prod.fst).enumFrom n).foldl
        (fun (bins : SizeBins F) (p : Nat × Nat) =>
          if skip p.1 then bins
          else
            match gasClouds[p.2]? with
            | none => bins
            | some cloud => body cloud bins)
        bins
      = (((E.map Prod.snd).enumFrom n).filter fun p => ¬ skip p.1).foldl
          (fun (bins : SizeBins F) (p : Nat × GasCloud F) => body p.2 bins) bins := by
  induction E generalizing n bins with
  | nil => rfl
  | cons p E ih =>
    have hp := hE p (List.mem_cons_self _ _)
    have hE2 : ∀ q ∈ E, gasClouds[q.1]? = some q.2 := fun q hq => hE q (List.mem_cons_of_mem _ hq)
    simp only [List.map_cons, List.enumFrom_cons, List.foldl_cons]
    rw [ih hE2]
    by_cases hs : skip n
    · simp [hs, List.filter_cons]
    · simp [hs, List.filter_cons, hp]

theorem foldl_count {α : Type} (body : α → SizeBins F → SizeBins F) (w : α → Nat)
    (hbody : ∀ c bins, (∀ j, 3 ∣ (bins.verticesBySize j).length) →
      (∀ j, 3 ∣ ((body c bins).verticesBySize j).length)
        ∧ splatCount (body c bins) = splatCount bins + w c)
    (cs : List α) (bins : SizeBins F) (hw : ∀ j, 3 ∣ (bins.verticesBySize j).length) :
    (∀ j, 3 ∣ ((cs.foldl (fun bins c => body c bins) bins).verticesBySize j).length)
      ∧ splatCount (cs.foldl (fun bins c => body c bins) bins)
          = splatCount bins + (cs.map w).sum := by
  induction cs generalizing bins with
  | nil =>
    simp only [List.foldl_nil, List.map_nil, List.sum_nil, add_zero]
    exact ⟨hw, trivial⟩
  | cons c cs ih =>
    obtain ⟨h1, h2⟩ := hbody c bins hw
    obtain ⟨h3, h4⟩ := ih (body c bins) h1
    simp only [List.foldl_cons, List.map_cons, List.sum_cons]
    exact ⟨h3, by rw [h4, h2]; ring⟩

theorem splatCount_cleared : splatCount (SizeBins.cleared : SizeBins F) = 0 := by
  simp [splatCount, SizeBins.cleared]

/-- The draws of a pass: at most `40`, and their counts add up to the number of
splats in the bins. -/
theorem drawBins_spec (bins : SizeBins F) :
    (drawBins bins).length ≤ 40 ∧ totalCount (drawBins bins) = splatCount bins := by
  constructor
  · unfold drawBins
    refine le_trans (List.length_filterMap_le _ _) ?_
    simp [MAX_SIZE_BINS]
  · unfold drawBins totalCount splatCount
    have e : MAX_SIZE_BINS.toNat = 40 := rfl
    rw [e]
    generalize List.range 40 = l
    induction l with
    | nil => rfl
    | cons b l ih =>
      rw [List.filterMap_cons]
      by_cases hb : (bins.verticesBySize b).isEmpty = true
      · have : (bins.verticesBySize b).length = 0 := by
          rw [List.isEmpty_iff] at hb
          rw [hb]; rfl
        simp only [hb, if_true, List.map_cons, List.sum_cons, this]
        rw [ih]
        simp
      · simp only [hb, Bool.false_eq_true, if_false, List.map_cons, List.sum_cons]
        rw [ih]

theorem skipFactor_cases (zone : RenderZone F) :
    skipFactor zone = 1 ∨ skipFactor zone = 2 ∨ skipFactor zone = 3 ∨ skipFactor zone = 4 := by
  unfold skipFactor
  split_ifs <;> simp

/-- The clouds that a culled loop over an index list reads are the clouds at
the positions `0, k, 2k, ...` of the list that the indices name. -/
theorem kept_eq_everyNth {α : Type} (k : Int)
    (hk : k = 1 ∨ k = 2 ∨ k = 3 ∨ k = 4) (l : List α) :
    ((l.enumFrom 0).filter fun p => ¬ (k > 1 ∧ (p.1 : Int) % k ≠ 0)).map Prod.snd
      = everyNth k.toNat l := by
  unfold everyNth List.enum
  congr 1
  apply List.filter_congr
  intro p _
  rcases hk with h | h | h | h
  all_goals subst h
  all_goals simp
  all_goals omega

theorem enum_filter_snd {α : Type} (q : α → Bool) (l : List α) :
    ((List.enumFrom 0 l).filter fun p => q p.2).map Prod.snd = l.filter q := by
  have e : (fun p : Nat × α => q p.2) = q ∘ Prod.snd := rfl
  rw [e, ← List.filter_map, List.enumFrom_map_snd]

theorem enum_filter_lookup {α : Type} (q : Nat × α → Bool) (l : List α) :
    ∀ p ∈ (List.enumFrom 0 l).filter q, l[p.1]? = some p.2 := by
  intro p hp
  have h := (List.mem_filter.mp hp).1
  exact List.mk_mem_enum_iff_getElem?.mp h

theorem sum_map_ite {α : Type} (cut : α → Prop) [DecidablePred cut] (n : Nat) (cs : List α) :
    (cs.map fun c => if cut c then 0 else n).sum = n * (cs.filter fun c => ¬ cut c).length := by
  induction cs with
  | nil => simp
  | cons c cs ih =>
    by_cases h : cut c
    · simp [h, ih, List.filter_cons]
    · simp [h, ih, List.filter_cons]
      ring

/-- The number of draws and of splats of the two passes of `renderGalacticGas`. -/
theorem renderGalacticGas_totals (m : Libm F) (gasClouds : List (GasCloud F))
    (zone : RenderZone F) :
    (renderGalacticGas m gasClouds zone).1.length ≤ 40
      ∧ (renderGalacticGas m gasClouds zone).2.length ≤ 40
      ∧ totalCount (renderGalacticGas m gasClouds zone).1
          = (if zone.zoomLevel ≥ 0.1
              then (numLayers zone).toNat * (keptDarkLane gasClouds zone).length else 0)
      ∧ totalCount (renderGalacticGas m gasClouds zone).2
          = (numFilaments zone).toNat * (numLayersPerFilament zone).toNat
              * (keptEmissive gasClouds zone).length := by
  have hw0 : ∀ j, 3 ∣ ((SizeBins.cleared : SizeBins F).verticesBySize j).length := by
    intro j; simp [SizeBins.cleared]
  have hdark : splatCount (darkLaneLoop gasClouds (partitionIndices gasClouds).1
      (skipFactor zone) (numLayers zone) SizeBins.cleared)
      = (numLayers zone).toNat * (keptDarkLane gasClouds zone).length := by
    rw [partitionIndices_spec]
    unfold darkLaneLoop List.enum
    simp only []
    refine (congrArg splatCount (foldl_lookup gasClouds
      (fun idx => skipFactor zone > 1 ∧ (idx : Int) % skipFactor zone ≠ 0)
      (fun cloud bins => darkLaneSplats cloud (numLayers zone) bins)
      ((List.enumFrom 0 gasClouds).filter fun p => p.2.isDarkLane)
      (enum_filter_lookup _ gasClouds) 0 SizeBins.cleared)).trans ?_
    rw [← List.foldl_map (f := Prod.snd) (g := fun bins c => darkLaneSplats c (numLayers zone) bins),
      enum_filter_snd (fun c : GasCloud F => c.isDarkLane), kept_eq_everyNth _ (skipFactor_cases zone)]
    have h := (foldl_count (fun c bins => darkLaneSplats c (numLayers zone) bins)
      (fun _ => (numLayers zone).toNat) (fun c bins hb => darkLaneSplats_count c _ bins hb)
      (everyNth (skipFactor zone).toNat (gasClouds.filter fun c => c.isDarkLane))
      SizeBins.cleared hw0).2
    rw [h, splatCount_cleared]
    simp [keptDarkLane, mul_comm]
  have hemis : splatCount (emissiveLoop m gasClouds (partitionIndices gasClouds).2 zone
      (skipFactor zone) (numFilaments zone) (numLayersPerFilament zone) SizeBins.cleared)
      = (numFilaments zone).toNat * (numLayersPerFilament zone).toNat
          * (keptEmissive gasClouds zone).length := by
    rw [partitionIndices_spec]
    unfold emissiveLoop List.enum
    simp only []
    refine (congrArg splatCount (foldl_lookup gasClouds
      (fun idx => skipFactor zone > 1 ∧ (idx : Int) % skipFactor zone ≠ 0)
      (fun cloud bins =>
        if zone.zoomLevel < 0.001 ∧ cloud.type = GasType.CORONAL then bins
        else emissiveSplats m cloud (numFilaments zone) (numLayersPerFilament zone) bins)
      ((List.enumFrom 0 gasClouds).filter fun p => !p.2.isDarkLane)
      (enum_filter_lookup _ gasClouds) 0 SizeBins.cleared)).trans ?_
    rw [← List.foldl_map (f := Prod.snd) (g := fun bins (c : GasCloud F) =>
        if zone.zoomLevel < 0.001 ∧ c.type = GasType.CORONAL then bins
        else emissiveSplats m c (numFilaments zone) (numLayersPerFilament zone) bins),
      enum_filter_snd (fun c : GasCloud F => !c.isDarkLane), kept_eq_everyNth _ (skipFactor_cases zone)]
    have h := (foldl_count
      (fun (c : GasCloud F) bins =>
        if zone.zoomLevel < 0.001 ∧ c.type = GasType.CORONAL then bins
        else emissiveSplats m c (numFilaments zone) (numLayersPerFilament zone) bins)
      (fun c => if zone.zoomLevel < 0.001 ∧ c.type = GasType.CORONAL then 0
        else (numFilaments zone).toNat * (numLayersPerFilament zone).toNat)
      (fun c bins hb => by
        by_cases hc : zone.zoomLevel < 0.001 ∧ c.type = GasType.CORONAL
        · simp only [if_pos hc, add_zero]
          exact ⟨hb, trivial⟩
        · simp only [if_neg hc]
          exact emissiveSplats_count m c _ _ bins hb)
      (everyNth (skipFactor zone).toNat (gasClouds.filter fun c => !c.isDarkLane))
      SizeBins.cleared hw0).2
    rw [h, splatCount_cleared, sum_map_ite]
    simp [keptEmissive]
  unfold renderGalacticGas
  simp only []
  refine ⟨?_, (drawBins_spec _).1, ?_, ?_⟩
  · split_ifs
    · exact (drawBins_spec _).1
    · simp
  · split_ifs
    · rw [(drawBins_spec _).2, hdark]
    · rfl
  · rw [(drawBins_spec _).2, hemis]

end RendererLemmas

/-! ## Renderer: the batches of the two passes -/

section RendererClaims

variable {F : Type} [LinearOrderedField F] [FloorRing F]

/-- C10, counterexample.  For the buffer of one coronal cloud (`N = 1`) the
batch counts of the emissive pass add up to `12` at the zoom level `1`
(`3` filaments of `4` layers for the one cloud) and to `0` at the zoom level
`0.0005` (the cloud is cut); the dark-lane pass draws nothing.  In neither
case is the total `N`. -/
theorem renderGalacticGas_total_ne_size :
    [haloCloud].length = 1
      ∧ totalCount (renderGalacticGas ratLibm [haloCloud] nearZone).1 = 0
      ∧ totalCount (renderGalacticGas ratLibm [haloCloud] nearZone).2 = 12
      ∧ totalCount (renderGalacticGas ratLibm [haloCloud] farZone).1 = 0
      ∧ totalCount (renderGalacticGas ratLibm [haloCloud] farZone).2 = 0 := by
  obtain ⟨_, _, n1, n2⟩ := renderGalacticGas_totals ratLibm [haloCloud] nearZone
  obtain ⟨_, _, f1, f2⟩ := renderGalacticGas_totals ratLibm [haloCloud] farZone
  have k1 : skipFactor nearZone = 1 := by norm_num [skipFactor, nearZone]
  have k2 : skipFactor farZone = 1 := by norm_num [skipFactor, farZone]
  refine ⟨rfl, ?_, ?_, ?_, ?_⟩
  · rw [n1]
    simp [keptDarkLane, everyNth, haloCloud]
  · rw [n2]
    have e : keptEmissive [haloCloud] nearZone = [haloCloud] := by
      simp only [keptEmissive, k1]
      norm_num [everyNth, haloCloud, nearZone, List.enum]
    rw [e]
    norm_num [numFilaments, numLayersPerFilament, nearZone]
    decide
  · rw [f1]
    norm_num [farZone]
  · rw [f2]
    have e : keptEmissive [haloCloud] farZone = [] := by
      simp only [keptEmissive, k2]
      norm_num [everyNth, haloCloud, farZone, List.enum]
    rw [e]
    simp

/-- C10, as amended.  For every gas buffer and every zoom level each pass of
`renderGalacticGas` issues at most `40` draws, and the counts of its draws add
up to the number of splats that the pass binned, no splat dropped or
duplicated by the batcher: `numLayers` for each dark-lane cloud kept by the
skip factor when the zoom level is at least `0.1` and none below, and
`numFilaments * numLayersPerFilament` for each emissive cloud kept by the skip
factor and by the coronal cut. -/
theorem renderGalacticGas_batches (m : Libm F) (gasClouds : List (GasCloud F))
    (zone : RenderZone F) :
    (renderGalacticGas m gasClouds zone).1.length ≤ 40
      ∧ (renderGalacticGas m gasClouds zone).2.length ≤ 40
      ∧ (totalCount (renderGalacticGas m gasClouds zone).1 : Int)
          = (if zone.zoomLevel ≥ 0.1
              then numLayers zone * ((keptDarkLane gasClouds zone).length : Int) else 0)
      ∧ (totalCount (renderGalacticGas m gasClouds zone).2 : Int)
          = numFilaments zone * numLayersPerFilament zone
              * ((keptEmissive gasClouds zone).length : Int) := by
  obtain ⟨h1, h2, h3, h4⟩ := renderGalacticGas_totals m gasClouds zone
  have a1 : ((numLayers zone).toNat : Int) = numLayers zone :=
    Int.toNat_of_nonneg (by unfold numLayers; split_ifs <;> decide)
  have a2 : ((numFilaments zone).toNat : Int) = numFilaments zone :=
    Int.toNat_of_nonneg (by unfold numFilaments; split_ifs <;> decide)
  have a3 : ((numLayersPerFilament zone).toNat : Int) = numLayersPerFilament zone :=
    Int.toNat_of_nonneg (by unfold numLayersPerFilament; split_ifs <;> decide)
  refine ⟨h1, h2, ?_, ?_⟩
  · rw [h3]
    split_ifs
    · push_cast
      rw [a1]
    · rfl
  · rw [h4]
    push_cast
    rw [a2, a3]

end RendererClaims

/-! ## Renderer: level of detail and size bins -/

section LodClaims

variable {F : Type} [LinearOrderedField F]

/-- C11.  The LOD values of `renderGalacticGas` are step functions of the
zoom level `z`: `skipFactor` is `4` for `z > 100`, `3` for `50 < z ≤ 100`, `2`
for `20 < z ≤ 50` and `1` for `z ≤ 20` (and only then); `(numFilaments,
numLayersPerFilament)` is `(2, 3)` for `z < 0.5` and `(3, 4)` otherwise; the
dark-lane `numLayers` is `3` for `z < 2` and `4` otherwise.  `skipFactor` does
not decrease when the zoom level grows, and `numLayers - 1` and
`numLayersPerFilament - 1` are not zero, as integers and after the conversion
`(float)`, so the divisions `i / (float)(numLayers - 1)` and
`i / (float)(numLayersPerFilament - 1)` have a nonzero divisor. -/
theorem lod_step_functions (zone zone2 : RenderZone F)
    (hz : zone.zoomLevel ≤ zone2.zoomLevel) :
    skipFactor zone
        = (if zone.zoomLevel > 100 then 4
           else if 50 < zone.zoomLevel ∧ zone.zoomLevel ≤ 100 then 3
           else if 20 < zone.zoomLevel ∧ zone.zoomLevel ≤ 50 then 2
           else 1)
      ∧ (zone.zoomLevel ≤ 20 ↔ skipFactor zone = 1)
      ∧ (numFilaments zone, numLayersPerFilament zone)
          = (if zone.zoomLevel < 1 / 2 then (2, 3) else (3, 4))
      ∧ numLayers zone = (if zone.zoomLevel < 2 then 3 else 4)
      ∧ skipFactor zone ≤ skipFactor zone2
      ∧ numLayers zone - 1 ≠ 0
      ∧ numLayersPerFilament zone - 1 ≠ 0
      ∧ ((numLayers zone - 1 : Int) : F) ≠ 0
      ∧ ((numLayersPerFilament zone - 1 : Int) : F) ≠ 0 := by
  have h05 : (0.5 : F) = 1 / 2 := by norm_num
  refine ⟨?_, ?_, ?_, ?_, ?_, ?_, ?_, ?_, ?_⟩
  · unfold skipFactor
    split_ifs <;> first | rfl | (exfalso; linarith) | (exfalso; simp_all)
  · unfold skipFactor
    constructor
    · intro h
      rw [if_neg (by linarith), if_neg (by linarith), if_neg (by linarith)]
    · intro h
      by_contra hc
      push_neg at hc
      rw [if_pos hc] at h
      split_ifs at h <;> omega
  · unfold numFilaments numLayersPerFilament
    rw [h05]
    split_ifs <;> rfl
  · rfl
  · unfold skipFactor
    split_ifs <;> first | decide | (exfalso; linarith)
  · unfold numLayers
    split_ifs <;> decide
  · unfold numLayersPerFilament
    split_ifs <;> decide
  · unfold numLayers
    split_ifs <;> norm_num
  · unfold numLayersPerFilament
    split_ifs <;> norm_num

/-- C11, witness: the zoom levels `1` and `150`, with skip factors `1` and `4`. -/
theorem lod_step_functions_witness :
    nearZone.zoomLevel ≤ closeZone.zoomLevel
      ∧ skipFactor nearZone = 1 ∧ skipFactor closeZone = 4
      ∧ skipFactor nearZone ≤ skipFactor closeZone
      ∧ numLayers nearZone - 1 ≠ 0 :=
  have hz : nearZone.zoomLevel ≤ closeZone.zoomLevel := by norm_num [nearZone, closeZone]
  have h := lod_step_functions nearZone closeZone hz
  ⟨hz, h.2.1.1 (by norm_num [nearZone]),
    by norm_num [skipFactor, closeZone], h.2.2.2.2.1, h.2.2.2.2.2.1⟩

variable [FloorRing F]

/-- C12.  For every splat size `s` the size bin computed by the two passes is
`min (max ⌊s / 5⌋ 0) 39`; it lies in `0..39`, so it indexes the `40` bins; and
for `0 ≤ s < 200` the bin `b` satisfies `5 b ≤ s < 5 (b + 1)`: the point size
`b * SIZE_BIN` of the bin is at most `s` and less than one bin width below it. -/
theorem sizeBinOf_spec (s : F) :
    sizeBinOf s = min (max ⌊s / 5⌋ 0) 39
      ∧ 0 ≤ sizeBinOf s ∧ sizeBinOf s < MAX_SIZE_BINS
      ∧ (sizeBinOf s).toNat < 40
      ∧ (0 ≤ s → s < 200 →
          SIZE_BIN * (sizeBinOf s : F) ≤ s ∧ s < SIZE_BIN * ((sizeBinOf s : F) + 1)
            ∧ s - (sizeBinOf s : F) * SIZE_BIN < SIZE_BIN) := by
  have hr := sizeBinOf_range s
  have key : sizeBinOf s = min (max ⌊s / 5⌋ 0) 39 := by
    have hc : s / 5 < 0 → ⌈s / 5⌉ ≤ 0 ∧ ⌊s / 5⌋ < 0 := fun hlt =>
      ⟨Int.ceil_le.mpr (by exact_mod_cast hlt.le), Int.floor_lt.mpr (by exact_mod_cast hlt)⟩
    have hf : 0 ≤ s / 5 → (0 : Int) ≤ ⌊s / 5⌋ := fun h0 => Int.floor_nonneg.mpr h0
    unfold sizeBinOf truncToInt SIZE_BIN MAX_SIZE_BINS
    simp only [min_def, max_def]
    by_cases h0 : (0 : F) ≤ s / 5
    · have := hf h0
      simp only [if_pos h0]
      split_ifs <;> omega
    · have := hc (not_le.mp h0)
      simp only [if_neg h0]
      split_ifs <;> omega
  refine ⟨key, hr.1, hr.2, by have := hr.1; have := hr.2; omega, ?_⟩
  intro h0 h200
  have h5 : (0 : F) ≤ s / 5 := by positivity
  have hf0 : (0 : Int) ≤ ⌊s / 5⌋ := Int.floor_nonneg.mpr h5
  have hf39 : ⌊s / 5⌋ ≤ 39 := by
    have : ⌊s / 5⌋ < 40 := Int.floor_lt.mpr (by push_cast; linarith)
    omega
  have hb : sizeBinOf s = ⌊s / 5⌋ := by
    rw [key, max_eq_left hf0, min_eq_left hf39]
  have h1 := Int.floor_le (s / 5)
  have h2 := Int.lt_floor_add_one (s / 5)
  rw [hb]
  unfold SIZE_BIN
  refine ⟨by linarith, by linarith, by linarith⟩

/-- C12, witness: the size `12` falls in the bin `2`, which is drawn at the point
size `10`. -/
theorem sizeBinOf_spec_witness :
    sizeBinOf (12 : ℚ) = 2
      ∧ SIZE_BIN * ((sizeBinOf (12 : ℚ) : Int) : ℚ) ≤ 12
      ∧ (12 : ℚ) < SIZE_BIN * (((sizeBinOf (12 : ℚ) : Int) : ℚ) + 1) :=
  have h := sizeBinOf_spec (12 : ℚ)
  have hb := h.2.2.2.2 (by norm_num) (by norm_num)
  ⟨by
    rw [h.1]
    have : ⌊(12 : ℚ) / 5⌋ = 2 := by
      rw [Int.floor_eq_iff]; norm_num
    rw [this]; decide, hb.1, hb.2.1⟩
end LodClaims

/-! ## Star generator: lemmas on the candidates -/

section CandidateLemmas

set_option linter.unusedSectionVars false

variable {F : Type} [LinearOrderedField F] [FloorRing F] {G : Type}

/-- A property that holds of every accepted candidate, and of the stars in the
buffer at the start, holds of every star in the buffer when the loop ends. -/
theorem starLoop_forall (m : Libm F) (rnd : Random F G) (config : GalaxyConfig F)
    (P : Star F → Prop)
    (hP : ∀ (rng : G) (star : Star F) (rng2 : G),
      starCandidate m rnd config rng = (some star, rng2) → P star)
    (fuel : Nat) (i : Int) (stars : List (Star F)) (rng : G) (out : List (Star F))
    (h : starLoop m rnd config fuel i stars rng = some out) (hs : ∀ s ∈ stars, P s) :
    ∀ s ∈ out, P s := by
  induction fuel generalizing i stars rng with
  | zero =>
    rw [starLoop] at h
    split_ifs at h with hi
    cases h
    exact hs
  | succ fuel ih =>
    rw [starLoop] at h
    split_ifs at h with hi
    · split at h
      · exact ih _ _ _ h hs
      · rename_i star rng2 hc
        refine ih _ _ _ h ?_
        intro s hsm
        rcases List.mem_append.mp hsm with h1 | h1
        · exact hs s h1
        · rw [List.mem_singleton.mp h1]
          exact hP _ _ _ hc
    · cases h
      exact hs

/-- A property that holds of every accepted candidate holds of every star that
`generateStarField` returns. -/
theorem generateStarField_forall (m : Libm F) (rnd : Random F G) (config : GalaxyConfig F)
    (P : Star F → Prop)
    (hP : ∀ (rng : G) (star : Star F) (rng2 : G),
      starCandidate m rnd config rng = (some star, rng2) → P star)
    (fuel : Nat) (prior : List (Star F)) (out : List (Star F))
    (h : generateStarField m rnd fuel prior config = some out) :
    ∀ s ∈ out, P s := by
  unfold generateStarField at h
  exact starLoop_forall m rnd config P hP fuel 0 _ _ out h (by simp [clear])

/-- An accepted candidate is a bulge star or an accepted disk star, passed
through the end of the body. -/
theorem starCandidate_some (m : Libm F) (rnd : Random F G) (config : GalaxyConfig F)
    (rng : G) (star : Star F) (rng2 : G)
    (h : starCandidate m rnd config rng = (some star, rng2)) :
    ((rnd.dist rng).1 < 0.15
        ∧ star = (typeAndBrightness m rnd config
            (bulgeStar m rnd config Star.declared (rnd.dist rng).2).1
            (bulgeStar m rnd config Star.declared (rnd.dist rng).2).2).1)
      ∨ (¬ (rnd.dist rng).1 < 0.15
        ∧ ∃ (star0 : Star F) (rng0 : G),
            diskStar m rnd config Star.declared (rnd.dist rng).2 = (some star0, rng0)
              ∧ star = (typeAndBrightness m rnd config star0 rng0).1) := by
  unfold starCandidate at h
  by_cases hb : (rnd.dist rng).1 < 0.15
  · left
    simp only [hb, decide_True, if_true, Prod.mk.injEq, Option.some.injEq] at h
    exact ⟨hb, h.1.symm⟩
  · right
    simp only [hb, decide_False, Bool.false_eq_true, if_false] at h
    refine ⟨hb, ?_⟩
    split at h
    · simp at h
    · rename_i star0 rng0 hd
      simp only [Prod.mk.injEq, Option.some.injEq] at h
      exact ⟨star0, rng0, hd, h.1.symm⟩

/-- The cumulative probabilities as fractions. -/
theorem classThresholds_eq :
    (classThresholds : List F) = [1 / 20, 3 / 20, 3 / 10, 1 / 2, 3 / 4, 9 / 10, 1] := by
  unfold classThresholds
  norm_num

/-- The selection loop on the table `starTypes`, unrolled: the running sums
are `0.05, 0.15, 0.30, 0.50, 0.75, 0.90, 1.00`, and the last test is of no
consequence because `selectedType` starts at `6`. -/
theorem selectTypeLoop_eq (u : F) :
    selectTypeLoop u starTypes 0 0
      = if u ≤ 1 / 20 then 0 else if u ≤ 3 / 20 then 1 else if u ≤ 3 / 10 then 2
        else if u ≤ 1 / 2 then 3 else if u ≤ 3 / 4 then 4 else if u ≤ 9 / 10 then 5 else 6 := by
  have e1 : (0 : F) + 0.05 = 1 / 20 := by norm_num
  have e2 : (1 / 20 : F) + 0.10 = 3 / 20 := by norm_num
  have e3 : (3 / 20 : F) + 0.15 = 3 / 10 := by norm_num
  have e4 : (3 / 10 : F) + 0.20 = 1 / 2 := by norm_num
  have e5 : (1 / 2 : F) + 0.25 = 3 / 4 := by norm_num
  have e6 : (3 / 4 : F) + 0.15 = 9 / 10 := by norm_num
  simp only [starTypes, selectTypeLoop, e1, e2, e3, e4, e5, e6, ite_self]

/-- For a roll `u ≤ 1` the loop selects the first class whose cumulative
probability is at least `u`. -/
theorem selectTypeLoop_spec (u : F) (h1 : u ≤ 1) :
    selectTypeLoop u starTypes 0 0 < 7
      ∧ u ≤ (classThresholds : List F).getD (selectTypeLoop u starTypes 0 0) 0
      ∧ ∀ j < selectTypeLoop u starTypes 0 0, (classThresholds : List F).getD j 0 < u := by
  rw [selectTypeLoop_eq, classThresholds_eq]
  split_ifs
  all_goals refine ⟨by decide, ?_, ?_⟩
  all_goals first
    | (simp only [List.getD_cons_zero, List.getD_cons_succ]; assumption)
    | (intro j hj
       interval_cases j <;> simp only [List.getD_cons_zero, List.getD_cons_succ]
         <;> exact not_le.mp (by assumption))

/-- The star that leaves the end of the body, in closed form: the colour is
that of the selected entry, the brightness one of three expressions, and the
other fields are those of the star that entered. -/
theorem typeAndBrightness_fst (m : Libm F) (rnd : Random F G) (config : GalaxyConfig F)
    (star : Star F) (rng : G) :
    (typeAndBrightness m rnd config star rng).1
      = { star with
          r := (selectedEntry (rnd.dist rng).1).r
          g := (selectedEntry (rnd.dist rng).1).g
          b := (selectedEntry (rnd.dist rng).1).b
          brightness :=
            if m.sqrt (star.x * star.x + star.y * star.y + star.z * star.z) < config.bulgeRadius
            then 0.4 + (rnd.dist (rnd.dist rng).2).1 * 0.4
            else if 0.3 + (rnd.dist (rnd.dist rng).2).1 * 0.7
                + armBrightness m config star * 0.3 > 1
              then 1
              else 0.3 + (rnd.dist (rnd.dist rng).2).1 * 0.7
                + armBrightness m config star * 0.3 } := by
  unfold typeAndBrightness clampBrightness selectedEntry armBrightness
  simp only [apply_ite Prod.fst]
  split_ifs <;> rfl

/-- The selected entry is an entry of the table, and its colour is the colour
of the selected class. -/
theorem selectedEntry_colour (u : F) :
    selectedEntry u ∈ (starTypes : List (StarType F))
      ∧ ((selectedEntry u).r, (selectedEntry u).g, (selectedEntry u).b)
          = (classColours : List (F × F × F)).getD (selectTypeLoop u starTypes 0 0) (0, 0, 0)
      ∧ ((selectedEntry u).r, (selectedEntry u).g, (selectedEntry u).b)
          ∈ (classColours : List (F × F × F)) := by
  unfold selectedEntry
  rw [selectTypeLoop_eq]
  split_ifs <;> simp [starTypes, classColours]

/-- The uniform draws of `ratRandom` lie in `[0, 1)`. -/
theorem ratRandom_dist_range (g : Nat) :
    0 ≤ (ratRandom.dist g).1 ∧ (ratRandom.dist g).1 < 1 := by
  simp only [ratRandom]
  have h : 11 * g % 100 < 100 := Nat.mod_lt _ (by decide)
  have h2 : ((11 * g % 100 : Nat) : ℚ) < 100 := by exact_mod_cast h
  constructor
  · positivity
  · rw [div_lt_one (by norm_num)]
    exact h2

/-- The stand-in `ratLibm.exp` has its values in `[0, 1]` on the non-positive
numbers. -/
theorem ratLibm_exp_range (x : ℚ) (h : x ≤ 0) : 0 ≤ ratLibm.exp x ∧ ratLibm.exp x ≤ 1 := by
  simp only [ratLibm]
  exact ⟨le_max_left _ _, max_le (by norm_num) (by linarith)⟩

/-- On the rational instance with `twoStarConfig` the loop ends after three
candidates and returns two stars, whatever the buffer held. -/
theorem generateStarField_twoStar (prior : List (Star ℚ)) :
    ∃ s0 s1, generateStarField ratLibm ratRandom 3 prior twoStarConfig = some [s0, s1] := by
  obtain ⟨s0, h0⟩ :=
    starCandidate_bulge ratLibm ratRandom twoStarConfig 0 (by norm_num [ratRandom])
  obtain ⟨s1, h1⟩ :=
    starCandidate_bulge ratLibm ratRandom twoStarConfig 10 (by norm_num [ratRandom])
  have g0 : (ratRandom.dist (ratRandom.dist (ratRandom.dist (ratRandom.dist
      (ratRandom.dist (ratRandom.dist 0).2).2).2).2).2).2 = 6 := rfl
  rw [g0] at h0
  refine ⟨s0, s1, ?_⟩
  unfold generateStarField
  simp only [clear]
  have hm : ratRandom.mt19937 twoStarConfig.seed = 0 := rfl
  rw [hm]
  rw [starLoop, if_pos (by decide), h0]
  simp only []
  rw [starLoop, if_pos (by decide), starCandidate_eval]
  simp only []
  rw [starLoop, if_pos (by decide), h1]
  simp only []
  rw [starLoop, if_neg (by decide)]
  rfl

end CandidateLemmas

/-! ## Star generator: classes and brightness -/

section ClassClaims

variable {F : Type} [LinearOrderedField F] [FloorRing F] {G : Type}

/-- C17.  With uniform draws in `[0, 1)`, a library `exp` with values in
`[0, 1]` on the non-positive numbers, and `armWidth > 0`: a star whose distance
from the centre is less than `bulgeRadius` gets the brightness `0.4 + 0.4 u`,
which lies in `[0.4, 0.8)`; any other star gets
`min 1 (0.3 + 0.7 u + 0.3 * armBrightness)`, where the arm bonus
`0.3 * armBrightness` lies in `[0, 0.3]`, and this brightness lies in
`[0.3, 1]`.  Hence every star that `generateStarField` returns has its
brightness in `[0.3, 1]`.  Here `u` is the second draw of the end of the
body. -/
theorem brightness_range (m : Libm F) (rnd : Random F G) (config : GalaxyConfig F)
    (hexp : ∀ x : F, x ≤ 0 → 0 ≤ m.exp x ∧ m.exp x ≤ 1)
    (hd : ∀ g : G, 0 ≤ (rnd.dist g).1 ∧ (rnd.dist g).1 < 1)
    (_hw : 0 < config.armWidth) :
    (∀ (star : Star F) (rng : G),
        (m.sqrt (star.x * star.x + star.y * star.y + star.z * star.z) < config.bulgeRadius →
          (typeAndBrightness m rnd config star rng).1.brightness
              = 0.4 + 0.4 * (rnd.dist (rnd.dist rng).2).1
            ∧ 0.4 ≤ (typeAndBrightness m rnd config star rng).1.brightness
            ∧ (typeAndBrightness m rnd config star rng).1.brightness < 0.8)
        ∧ (¬ m.sqrt (star.x * star.x + star.y * star.y + star.z * star.z) < config.bulgeRadius →
          (typeAndBrightness m rnd config star rng).1.brightness
              = min 1 (0.3 + 0.7 * (rnd.dist (rnd.dist rng).2).1
                  + 0.3 * armBrightness m config star)
            ∧ 0 ≤ 0.3 * armBrightness m config star
            ∧ 0.3 * armBrightness m config star ≤ 0.3
            ∧ 0.3 ≤ (typeAndBrightness m rnd config star rng).1.brightness
            ∧ (typeAndBrightness m rnd config star rng).1.brightness ≤ 1))
      ∧ (∀ (fuel : Nat) (prior out : List (Star F)),
          generateStarField m rnd fuel prior config = some out →
          ∀ s ∈ out, 0.3 ≤ s.brightness ∧ s.brightness ≤ 1) := by
  have hab : ∀ star : Star F,
      0 ≤ armBrightness m config star ∧ armBrightness m config star ≤ 1 := by
    intro star
    unfold armBrightness
    apply hexp
    have e : -minArmDistance m config star.radius star.angle
          * minArmDistance m config star.radius star.angle
          / (config.armWidth * config.armWidth * 4)
        = -((minArmDistance m config star.radius star.angle) ^ 2
            / ((config.armWidth) ^ 2 * 4)) := by ring
    rw [e]
    have : 0 ≤ (minArmDistance m config star.radius star.angle) ^ 2
        / ((config.armWidth) ^ 2 * 4) := by positivity
    linarith
  have key : ∀ (star : Star F) (rng : G),
      (m.sqrt (star.x * star.x + star.y * star.y + star.z * star.z) < config.bulgeRadius →
          (typeAndBrightness m rnd config star rng).1.brightness
              = 0.4 + 0.4 * (rnd.dist (rnd.dist rng).2).1
            ∧ 0.4 ≤ (typeAndBrightness m rnd config star rng).1.brightness
            ∧ (typeAndBrightness m rnd config star rng).1.brightness < 0.8)
        ∧ (¬ m.sqrt (star.x * star.x + star.y * star.y + star.z * star.z) < config.bulgeRadius →
          (typeAndBrightness m rnd config star rng).1.brightness
              = min 1 (0.3 + 0.7 * (rnd.dist (rnd.dist rng).2).1
                  + 0.3 * armBrightness m config star)
            ∧ 0 ≤ 0.3 * armBrightness m config star
            ∧ 0.3 * armBrightness m config star ≤ 0.3
            ∧ 0.3 ≤ (typeAndBrightness m rnd config star rng).1.brightness
            ∧ (typeAndBrightness m rnd config star rng).1.brightness ≤ 1) := by
    intro star rng
    obtain ⟨u0, u1⟩ := hd (rnd.dist rng).2
    obtain ⟨b0, b1⟩ := hab star
    rw [typeAndBrightness_fst]
    generalize (rnd.dist (rnd.dist rng).2).1 = u at u0 u1 ⊢
    generalize armBrightness m config star = a at b0 b1 ⊢
    have h03 : (0.3 : F) = 3 / 10 := by norm_num
    have h04 : (0.4 : F) = 2 / 5 := by norm_num
    have h07 : (0.7 : F) = 7 / 10 := by norm_num
    have h08 : (0.8 : F) = 4 / 5 := by norm_num
    simp only [h03, h04, h07, h08]
    constructor
    · intro hb
      simp only [if_pos hb]
      exact ⟨by ring, by linarith, by linarith⟩
    · intro hb
      simp only [if_neg hb]
      have eX : (3 / 10 : F) + u * (7 / 10) + a * (3 / 10)
          = 3 / 10 + 7 / 10 * u + 3 / 10 * a := by ring
      rw [eX]
      rcases le_or_lt (3 / 10 + 7 / 10 * u + 3 / 10 * a) 1 with c | c
      · rw [if_neg (not_lt.mpr c), min_eq_right c]
        exact ⟨rfl, by linarith, by linarith, by linarith, c⟩
      · rw [if_pos c, min_eq_left c.le]
        exact ⟨rfl, by linarith, by linarith, by norm_num, le_refl _⟩
  refine ⟨key, ?_⟩
  intro fuel prior out h
  refine generateStarField_forall m rnd config
    (fun s => 0.3 ≤ s.brightness ∧ s.brightness ≤ 1) ?_ fuel prior out h
  intro g s g2 hc
  have hall : ∀ (star : Star F) (rng : G),
      0.3 ≤ (typeAndBrightness m rnd config star rng).1.brightness
        ∧ (typeAndBrightness m rnd config star rng).1.brightness ≤ 1 := by
    intro star rng
    by_cases hb : m.sqrt (star.x * star.x + star.y * star.y + star.z * star.z) < config.bulgeRadius
    · obtain ⟨_, k1, k2⟩ := (key star rng).1 hb
      have h03 : (0.3 : F) = 3 / 10 := by norm_num
      have h04 : (0.4 : F) = 2 / 5 := by norm_num
      have h08 : (0.8 : F) = 4 / 5 := by norm_num
      rw [h04] at k1
      rw [h08] at k2
      rw [h03]
      exact ⟨by linarith, by linarith⟩
    · obtain ⟨_, _, _, k1, k2⟩ := (key star rng).2 hb
      exact ⟨k1, k2⟩
  rcases starCandidate_some m rnd config g s g2 hc with ⟨_, e⟩ | ⟨_, s0, g0, _, e⟩
  · rw [e]; exact hall _ _
  · rw [e]; exact hall _ _

/-- C17, witness: the two stars generated on the rational instance with the
default configuration have their brightness in `[0.3, 1]`. -/
theorem brightness_range_witness :
    ∃ out, generateStarField ratLibm ratRandom 3 [] twoStarConfig = some out
      ∧ out.length = 2 ∧ ∀ s ∈ out, (0.3 : ℚ) ≤ s.brightness ∧ s.brightness ≤ 1 := by
  obtain ⟨s0, s1, h⟩ := generateStarField_twoStar []
  exact ⟨[s0, s1], h, rfl,
    (brightness_range ratLibm ratRandom twoStarConfig ratLibm_exp_range ratRandom_dist_range
      (by norm_num [twoStarConfig])).2 3 [] _ h⟩

/-- C18.  The probabilities of the table `starTypes` are
`0.05, 0.10, 0.15, 0.20, 0.25, 0.15, 0.10` and their sum is `1`.  For a roll
`u ≤ 1` the selected class `k` is below `7` and is the first index with
`u ≤ c k`, for the cumulative probabilities `c`: `u ≤ c k`, and `c j < u` for
every `j < k`.  The colour `(r, g, b)` of the star that leaves the end of the
body is the colour of the class `k`, and every star that `generateStarField`
returns has one of the seven colours of the table. -/
theorem starType_selection (m : Libm F) (rnd : Random F G) (config : GalaxyConfig F)
    (star : Star F) (rng : G) (h1 : (rnd.dist rng).1 ≤ 1) :
    ((starTypes : List (StarType F)).map StarType.probability
        = [0.05, 0.10, 0.15, 0.20, 0.25, 0.15, 0.10])
      ∧ ((starTypes : List (StarType F)).map StarType.probability).sum = 1
      ∧ selectTypeLoop (rnd.dist rng).1 starTypes 0 0 < 7
      ∧ (rnd.dist rng).1
          ≤ (classThresholds : List F).getD (selectTypeLoop (rnd.dist rng).1 starTypes 0 0) 0
      ∧ (∀ j < selectTypeLoop (rnd.dist rng).1 starTypes 0 0,
          (classThresholds : List F).getD j 0 < (rnd.dist rng).1)
      ∧ ((typeAndBrightness m rnd config star rng).1.r,
          (typeAndBrightness m rnd config star rng).1.g,
          (typeAndBrightness m rnd config star rng).1.b)
          = (classColours : List (F × F × F)).getD
              (selectTypeLoop (rnd.dist rng).1 starTypes 0 0) (0, 0, 0)
      ∧ (∀ (fuel : Nat) (prior out : List (Star F)),
          generateStarField m rnd fuel prior config = some out →
          ∀ s ∈ out, (s.r, s.g, s.b) ∈ (classColours : List (F × F × F))) := by
  obtain ⟨a1, a2, a3⟩ := selectTypeLoop_spec (rnd.dist rng).1 h1
  refine ⟨rfl, ?_, a1, a2, a3, ?_, ?_⟩
  · simp only [starTypes, List.map, List.sum_cons, List.sum_nil]
    norm_num
  · rw [typeAndBrightness_fst]
    exact (selectedEntry_colour _).2.1
  · intro fuel prior out h
    refine generateStarField_forall m rnd config
      (fun s => (s.r, s.g, s.b) ∈ (classColours : List (F × F × F))) ?_ fuel prior out h
    intro g s g2 hc
    rcases starCandidate_some m rnd config g s g2 hc with ⟨_, e⟩ | ⟨_, s0, g0, _, e⟩
    · rw [e, typeAndBrightness_fst]
      exact (selectedEntry_colour _).2.2
    · rw [e, typeAndBrightness_fst]
      exact (selectedEntry_colour _).2.2

/-- C18, witness: the roll `0.66` selects the class `4` (G), between the
cumulative probabilities `0.50` and `0.75`, and the star is given the colour
`(1.0, 1.0, 0.7)`. -/
theorem starType_selection_witness :
    (ratRandom.dist 6).1 ≤ 1
      ∧ selectTypeLoop (ratRandom.dist 6).1 (starTypes : List (StarType ℚ)) 0 0 = 4
      ∧ (ratRandom.dist 6).1
          ≤ (classThresholds : List ℚ).getD (selectTypeLoop (ratRandom.dist 6).1 starTypes 0 0) 0
      ∧ ((typeAndBrightness ratLibm ratRandom twoStarConfig unitStar 6).1.r,
          (typeAndBrightness ratLibm ratRandom twoStarConfig unitStar 6).1.g,
          (typeAndBrightness ratLibm ratRandom twoStarConfig unitStar 6).1.b)
          = (1, 1, 7 / 10) :=
  have h6 : (ratRandom.dist 6).1 = 66 / 100 := by norm_num [ratRandom]
  have h1 : (ratRandom.dist 6).1 ≤ 1 := by rw [h6]; norm_num
  have hk : selectTypeLoop (ratRandom.dist 6).1 (starTypes : List (StarType ℚ)) 0 0 = 4 := by
    rw [h6, selectTypeLoop_eq]; norm_num
  have h := starType_selection ratLibm ratRandom twoStarConfig unitStar 6 h1
  ⟨h1, hk, h.2.2.2.1, by
    rw [h.2.2.2.2.2.1, hk]
    norm_num [classColours]⟩

end ClassClaims

/-! ## Star generator: the density field -/

section DensityLemmas

set_option linter.unusedSectionVars false

variable {F : Type} [LinearOrderedField F] [FloorRing F] {G : Type}

/-- A fold of `min` over a list: the result is at most the initial value and
at most every term, and it is the initial value or one of the terms. -/
theorem foldl_min_spec (f : Nat → F) (l : List Nat) (init : F) :
    l.foldl (fun acc a => min acc (f a)) init ≤ init
      ∧ (∀ a ∈ l, l.foldl (fun acc a => min acc (f a)) init ≤ f a)
      ∧ (l.foldl (fun acc a => min acc (f a)) init = init
          ∨ ∃ a ∈ l, l.foldl (fun acc a => min acc (f a)) init = f a) := by
  induction l generalizing init with
  | nil => simp
  | cons b l ih =>
    obtain ⟨h1, h2, h3⟩ := ih (min init (f b))
    simp only [List.foldl_cons]
    refine ⟨h1.trans (min_le_left _ _), ?_, ?_⟩
    · intro a ha
      rcases List.mem_cons.mp ha with e | e
      · rw [e]; exact h1.trans (min_le_right _ _)
      · exact h2 a e
    · rcases h3 with e | ⟨a, ha, e⟩
      · rcases min_choice init (f b) with c | c
        · left; rw [e, c]
        · right; exact ⟨b, List.mem_cons_self _ _, by rw [e, c]⟩
      · right; exact ⟨a, List.mem_cons_of_mem _ ha, e⟩

/-- The two loops that normalise `angleDiff` leave a value in `[-π, π]` that
differs from the initial one by a whole number of turns. -/
theorem armWrap_spec (x : F) :
    -M_PI ≤ addWhileBelow (-M_PI) (subWhileAbove M_PI x)
      ∧ addWhileBelow (-M_PI) (subWhileAbove M_PI x) ≤ M_PI
      ∧ ∃ k : ℤ, addWhileBelow (-M_PI) (subWhileAbove M_PI x) = x + k * (2 * M_PI) := by
  have hp : (0 : F) < M_PI := M_PI_pos
  obtain ⟨k, h1, h2, h3, h4⟩ := subWhileAbove_spec M_PI x
  obtain ⟨j, g1, g2, g3, g4⟩ := addWhileBelow_spec (-M_PI) (subWhileAbove M_PI x)
  refine ⟨g2, ?_, ⟨(j : ℤ) - k, ?_⟩⟩
  · by_cases hneg : subWhileAbove M_PI x < -M_PI
    · have := g3 hneg
      linarith
    · rw [addWhileBelow_of_le (not_lt.mp hneg)]
      exact h2
  · rw [g1, h1]; push_cast; ring

/-- A whole number of turns is normalised to `0`. -/
theorem armWrap_turns (j : ℤ) :
    addWhileBelow (-M_PI) (subWhileAbove M_PI ((j : F) * (2 * M_PI))) = 0 := by
  have hp : (0 : F) < M_PI := M_PI_pos
  obtain ⟨h1, h2, k, h3⟩ := armWrap_spec ((j : F) * (2 * M_PI))
  have e : addWhileBelow (-M_PI) (subWhileAbove M_PI ((j : F) * (2 * M_PI)))
      = ((j + k : ℤ) : F) * (2 * M_PI) := by
    rw [h3]; push_cast; ring
  rw [e] at h1 h2 ⊢
  rcases lt_trichotomy (j + k) 0 with c | c | c
  · exfalso
    have : ((j + k : ℤ) : F) ≤ -1 := by exact_mod_cast (by omega : j + k ≤ -1)
    nlinarith
  · rw [c]; simp
  · exfalso
    have : (1 : F) ≤ ((j + k : ℤ) : F) := by exact_mod_cast (by omega : 1 ≤ j + k)
    nlinarith

/-- The arm loop, with the value of `spiralTheta` named. -/
theorem minArmDistance_eq (m : Libm F) (config : GalaxyConfig F) (radius theta : F) :
    minArmDistance m config radius theta
      = (List.range config.numSpiralArms.toNat).foldl
          (fun acc arm => min acc
            |addWhileBelow (-M_PI) (subWhileAbove M_PI (theta - spiralTheta m config radius arm))
              * radius|)
          10000000000 := by
  unfold minArmDistance spiralTheta
  rfl

/-- A point whose angle is that of the arm `k` at its radius, up to whole turns,
is at distance `0` from the arms. -/
theorem minArmDistance_on_arm (m : Libm F) (config : GalaxyConfig F) (radius : F)
    (k : Nat) (j : Int) (hk : (k : Int) < config.numSpiralArms) :
    minArmDistance m config radius (spiralTheta m config radius k + j * (2 * M_PI)) = 0 := by
  rw [minArmDistance_eq]
  obtain ⟨h1, h2, h3⟩ := foldl_min_spec
    (fun arm => |addWhileBelow (-M_PI) (subWhileAbove M_PI
      (spiralTheta m config radius k + j * (2 * M_PI) - spiralTheta m config radius arm))
        * radius|)
    (List.range config.numSpiralArms.toNat) 10000000000
  have hmem : k ∈ List.range config.numSpiralArms.toNat := by
    rw [List.mem_range]; omega
  have hle := h2 k hmem
  simp only [add_sub_cancel_left, armWrap_turns, zero_mul, abs_zero] at hle
  apply le_antisymm hle
  rcases h3 with e | ⟨a, _, e⟩
  · rw [e]; norm_num
  · rw [e]; exact abs_nonneg _


/-- The normalisation of `π/2`, `-π/2` and `3π/2`. -/
theorem armWrap_quarter :
    addWhileBelow (-M_PI) (subWhileAbove M_PI ((M_PI : F) / 2)) = M_PI / 2
      ∧ addWhileBelow (-M_PI) (subWhileAbove M_PI (-(M_PI : F) / 2)) = -M_PI / 2
      ∧ addWhileBelow (-M_PI) (subWhileAbove M_PI (M_PI + (M_PI : F) / 2)) = -M_PI / 2 := by
  have hp : (0 : F) < M_PI := M_PI_pos
  refine ⟨?_, ?_, ?_⟩
  · rw [subWhileAbove_of_le (by linarith), addWhileBelow_of_le (by linarith)]
  · rw [subWhileAbove_of_le (by linarith), addWhileBelow_of_le (by linarith)]
  · rw [subWhileAbove, if_pos (by linarith)]
    have e : M_PI + (M_PI : F) / 2 - 2 * M_PI = -M_PI / 2 := by ring
    rw [e, subWhileAbove_of_le (by linarith), addWhileBelow_of_le (by linarith)]

/-- With two arms, a point a quarter turn after an arm is at the distance
`(π/2) * radius` from both arms. -/
theorem minArmDistance_between_arms (m : Libm F) (config : GalaxyConfig F) (radius : F)
    (k : Nat) (hk : k < 2) (hn : config.numSpiralArms = 2) (hr : 0 ≤ radius) :
    minArmDistance m config radius (spiralTheta m config radius k + M_PI / 2)
      = min 10000000000 (M_PI / 2 * radius) := by
  have hp : (0 : F) < M_PI := M_PI_pos
  obtain ⟨q1, q2, q3⟩ := armWrap_quarter (F := F)
  have d00 : ∀ a : Nat, spiralTheta m config radius a + M_PI / 2 - spiralTheta m config radius a
      = M_PI / 2 := by intro a; ring
  have d01 : spiralTheta m config radius 0 + M_PI / 2 - spiralTheta m config radius 1
      = -M_PI / 2 := by
    unfold spiralTheta
    rw [hn]
    push_cast
    ring
  have d10 : spiralTheta m config radius 1 + M_PI / 2 - spiralTheta m config radius 0
      = M_PI + M_PI / 2 := by
    unfold spiralTheta
    rw [hn]
    push_cast
    ring
  have a1 : |(M_PI : F) / 2 * radius| = M_PI / 2 * radius :=
    abs_of_nonneg (by positivity)
  have a2 : |-(M_PI : F) / 2 * radius| = M_PI / 2 * radius := by
    rw [neg_div, neg_mul, abs_neg, a1]
  rw [minArmDistance_eq, hn]
  have h2 : (2 : Int).toNat = 2 := rfl
  rw [h2]
  simp only [List.range, List.range.loop, List.foldl]
  interval_cases k
  · rw [d00, d01, q1, q2, a1, a2, min_assoc, min_self]
  · rw [d00, d10, q1, q3, a1, a2, min_assoc, min_self]

/-- The arm proximity, with its local variables replaced by their values. -/
theorem armProximity_eq (m : Libm F) (config : GalaxyConfig F) (radius theta : F) :
    armProximity m config radius theta
      = m.exp (-minArmDistance m config radius theta * minArmDistance m config radius theta
          / (config.armWidth * (1 + (if radius / config.diskRadius > 1 then 1
                else radius / config.diskRadius) * 1.5)
            * (config.armWidth * (1 + (if radius / config.diskRadius > 1 then 1
                else radius / config.diskRadius) * 1.5)))) := rfl

/-- The acceptance probability in the core band. -/
theorem acceptProbability_core (m : Libm F) (config : GalaxyConfig F)
    (radius radiusNorm armProximity : F) (h : radius ≤ 0.85 * config.diskRadius)
    (hd : 0 < config.diskRadius) :
    acceptProbability m config radius radiusNorm armProximity
      = if armProximity < 0.3
        then (1 + armProximity * config.armDensityBoost) / (1 + config.armDensityBoost) * 0.2
        else (1 + armProximity * config.armDensityBoost) / (1 + config.armDensityBoost) := by
  have h1 : ¬ radius > config.diskRadius := by
    have : (0.85 : F) * config.diskRadius ≤ config.diskRadius := by
      norm_num; nlinarith
    exact not_lt.mpr (h.trans this)
  have h2 : ¬ radius > config.diskRadius * 0.85 := by
    rw [mul_comm]; exact not_lt.mpr h
  unfold acceptProbability
  simp only [if_neg h1, if_neg h2]

/-- The acceptance probability in the outlier band. -/
theorem acceptProbability_outlier (m : Libm F) (config : GalaxyConfig F)
    (radius radiusNorm armProximity : F) (h : radius > config.diskRadius) :
    acceptProbability m config radius radiusNorm armProximity
      = (if radiusNorm > 1.3
          then m.exp (-(radius - config.diskRadius) / (config.diskRadius * 0.15))
            * (1.3 / radiusNorm * (1.3 / radiusNorm))
          else m.exp (-(radius - config.diskRadius) / (config.diskRadius * 0.15))) * 0.08 := by
  unfold acceptProbability
  simp only [if_pos h]

/-- The acceptance probability in the transition band. -/
theorem acceptProbability_transition (m : Libm F) (config : GalaxyConfig F)
    (radius radiusNorm armProximity : F) (h1 : ¬ radius > config.diskRadius)
    (h2 : radius > config.diskRadius * 0.85) :
    acceptProbability m config radius radiusNorm armProximity
      = (if armProximity < 0.3
        then (1 + armProximity * config.armDensityBoost) / (1 + config.armDensityBoost) * 0.2
        else (1 + armProximity * config.armDensityBoost) / (1 + config.armDensityBoost))
        * (0.5 + 0.5 * ((config.diskRadius - radius) / (config.diskRadius * 0.15))) := by
  unfold acceptProbability
  simp only [if_neg h1, if_pos h2]

/-- The blend of the arm proximity with the density boost, with its
suppression between the arms, lies in `(0, 1]`. -/
theorem densityBlend_range (boost a : F) (hb : 0 ≤ boost) (ha0 : 0 ≤ a) (ha1 : a ≤ 1) :
    0 < (if a < 0.3 then (1 + a * boost) / (1 + boost) * 0.2 else (1 + a * boost) / (1 + boost))
      ∧ (if a < 0.3 then (1 + a * boost) / (1 + boost) * 0.2 else (1 + a * boost) / (1 + boost))
          ≤ 1 := by
  have hpos : 0 < (1 + a * boost) / (1 + boost) := by
    apply div_pos <;> nlinarith
  have hle : (1 + a * boost) / (1 + boost) ≤ 1 := by
    rw [div_le_one (by linarith)]
    nlinarith
  have h02 : (0.2 : F) = 1 / 5 := by norm_num
  split_ifs
  · rw [h02]
    constructor <;> nlinarith
  · exact ⟨hpos, hle⟩

/-- In the outlier band the acceptance probability lies in `(0, 0.08]`. -/
theorem acceptProbability_outlier_range (m : Libm F) (config : GalaxyConfig F)
    (radius armProximity : F)
    (hexp : ∀ x : F, x ≤ 0 → 0 < m.exp x ∧ m.exp x ≤ 1)
    (hd : 0 < config.diskRadius) (h : radius > config.diskRadius) :
    0 < acceptProbability m config radius (radius / config.diskRadius) armProximity
      ∧ acceptProbability m config radius (radius / config.diskRadius) armProximity
          ≤ 0.08 := by
  rw [acceptProbability_outlier m config _ _ _ h]
  have hx : -(radius - config.diskRadius) / (config.diskRadius * 0.15) ≤ 0 := by
    apply div_nonpos_of_nonpos_of_nonneg
    · linarith
    · norm_num; linarith
  obtain ⟨e0, e1⟩ := hexp _ hx
  have h008 : (0.08 : F) = 2 / 25 := by norm_num
  have h13 : (1.3 : F) = 13 / 10 := by norm_num
  rw [h008, h13]
  generalize m.exp (-(radius - config.diskRadius) / (config.diskRadius * 0.15)) = e at e0 e1 ⊢
  split_ifs with c
  · have hq0 : 0 < 13 / 10 / (radius / config.diskRadius) := by
      apply div_pos (by norm_num)
      linarith
    have hq1 : 13 / 10 / (radius / config.diskRadius) ≤ 1 := by
      rw [div_le_one (by linarith)]
      exact c.le
    generalize 13 / 10 / (radius / config.diskRadius) = q at hq0 hq1 ⊢
    have hsq0 : 0 < q * q := mul_pos hq0 hq0
    have hsq1 : q * q ≤ 1 := by nlinarith
    have hp0 : 0 < e * (q * q) := mul_pos e0 hsq0
    have hp1 : e * (q * q) ≤ 1 := by nlinarith
    constructor <;> linarith
  · constructor <;> linarith

/-- In the transition band the transition factor lies in `(0, 1]`. -/
theorem transitionFactor_range (diskRadius radius : F) (hd : 0 < diskRadius)
    (h1 : ¬ radius > diskRadius) (h2 : radius > diskRadius * 0.85) :
    0 < 0.5 + 0.5 * ((diskRadius - radius) / (diskRadius * 0.15))
      ∧ 0.5 + 0.5 * ((diskRadius - radius) / (diskRadius * 0.15)) ≤ 1 := by
  have h085 : (0.85 : F) = 17 / 20 := by norm_num
  have h015 : (0.15 : F) = 3 / 20 := by norm_num
  have h05 : (0.5 : F) = 1 / 2 := by norm_num
  rw [h085] at h2
  rw [h015, h05]
  have hpos : 0 < diskRadius * (3 / 20) := by linarith
  have t0 : 0 ≤ (diskRadius - radius) / (diskRadius * (3 / 20)) :=
    div_nonneg (by linarith [not_lt.mp h1]) hpos.le
  have t1 : (diskRadius - radius) / (diskRadius * (3 / 20)) ≤ 1 := by
    rw [div_le_one hpos]
    linarith
  constructor <;> linarith

/-- The position of a bulge star. -/
theorem bulgeStar_position (m : Libm F) (rnd : Random F G) (config : GalaxyConfig F)
    (star : Star F) (rng : G) :
    (bulgeStar m rnd config star rng).1.x
        = m.pow (rnd.dist (rnd.dist (rnd.dist rng).2).2).1 (1 / 3) * config.bulgeRadius
          * m.sin (m.acos (2 * (rnd.dist (rnd.dist rng).2).1 - 1))
          * m.cos ((rnd.dist rng).1 * 2 * M_PI)
      ∧ (bulgeStar m rnd config star rng).1.y
        = m.pow (rnd.dist (rnd.dist (rnd.dist rng).2).2).1 (1 / 3) * config.bulgeRadius
          * m.sin (m.acos (2 * (rnd.dist (rnd.dist rng).2).1 - 1))
          * m.sin ((rnd.dist rng).1 * 2 * M_PI)
      ∧ (bulgeStar m rnd config star rng).1.z
        = m.pow (rnd.dist (rnd.dist (rnd.dist rng).2).2).1 (1 / 3) * config.bulgeRadius
          * m.cos (m.acos (2 * (rnd.dist (rnd.dist rng).2).1 - 1)) :=
  ⟨rfl, rfl, rfl⟩

/-- The end of the body leaves the position and the orbit of the star as they
are. -/
theorem typeAndBrightness_position (m : Libm F) (rnd : Random F G) (config : GalaxyConfig F)
    (star : Star F) (rng : G) :
    (typeAndBrightness m rnd config star rng).1.x = star.x
      ∧ (typeAndBrightness m rnd config star rng).1.y = star.y
      ∧ (typeAndBrightness m rnd config star rng).1.z = star.z
      ∧ (typeAndBrightness m rnd config star rng).1.radius = star.radius
      ∧ (typeAndBrightness m rnd config star rng).1.angle = star.angle
      ∧ (typeAndBrightness m rnd config star rng).1.angularVelocity = star.angularVelocity := by
  rw [typeAndBrightness_fst]
  exact ⟨rfl, rfl, rfl, rfl, rfl, rfl⟩

/-- The stand-in `ratLibmPos.sqrt` is a lower bound of the square root. -/
theorem ratLibmPos_sqrt_le (a b : ℚ) (hb : 0 ≤ b) (h : a ≤ b ^ 2) : ratLibmPos.sqrt a ≤ b := by
  simp only [ratLibmPos]
  split_ifs with c
  · exact hb
  · have ha : 0 < a := not_le.mp c
    rw [div_le_iff₀ (by linarith)]
    by_contra hc
    have h1 : b * (a + 1) < 2 * a := not_le.mp hc
    have h2 : 0 ≤ b * (a + 1) := mul_nonneg hb (by linarith)
    have h3 : (b * (a + 1)) ^ 2 < (2 * a) ^ 2 := pow_lt_pow_left₀ h1 h2 (by norm_num)
    have h4 : a * (a + 1) ^ 2 ≤ b ^ 2 * (a + 1) ^ 2 :=
      mul_le_mul_of_nonneg_right h (sq_nonneg _)
    have h5 : 0 ≤ a * (a - 1) ^ 2 := mul_nonneg ha.le (sq_nonneg _)
    nlinarith

end DensityLemmas

/-! ## Star generator: arms, acceptance, bulge -/

section DensityClaims

variable {F : Type} [LinearOrderedField F] [FloorRing F] {G : Type}

/-- C13.  Arms are denser than gaps, for a library `exp` with `exp 0 = 1` and
`exp x < 0.3` for `x ≤ -2`.  For every configuration and radius, every arm
`k < numSpiralArms` and every whole number `j` of turns, a candidate at the
angle `spiralTheta k + j * 2π` has the arm proximity `1`.  With
`numSpiralArms = 2`, `armWidth = 60` and `diskRadius = 800` (the default
configuration, whatever its `bulgeRadius` and `spiralTightness`), for every
radius of at least `150` a candidate at the angle `spiralTheta k + π / numArms`
has an arm proximity below `0.3`. -/
theorem arms_denser_than_gaps (m : Libm F) (config : GalaxyConfig F) (radius : F)
    (h0 : m.exp 0 = 1) (h2 : ∀ x : F, x ≤ -2 → m.exp x < 0.3) :
    (∀ (k : Nat) (j : Int), (k : Int) < config.numSpiralArms →
        armProximity m config radius (spiralTheta m config radius k + j * (2 * M_PI)) = 1)
      ∧ (config.numSpiralArms = 2 → config.armWidth = 60 → config.diskRadius = 800 →
          150 ≤ radius →
          ∀ k : Nat, k < 2 →
            armProximity m config radius
              (spiralTheta m config radius k + M_PI / (config.numSpiralArms : F)) < 0.3) := by
  constructor
  · intro k j hk
    rw [armProximity_eq, minArmDistance_on_arm m config radius k j hk]
    simp only [neg_zero, zero_mul, zero_div]
    exact h0
  · intro hn hw hd hr k hk
    rw [hn]
    have e2 : ((2 : Int) : F) = 2 := by norm_num
    rw [e2, armProximity_eq, minArmDistance_between_arms m config radius k hk hn (by linarith),
      hw, hd]
    apply h2
    have hpi : (3 : F) < M_PI := by unfold M_PI; norm_num
    have hd1 : (225 : F) ≤ min 10000000000 (M_PI / 2 * radius) := by
      apply le_min (by norm_num)
      nlinarith
    generalize min (10000000000 : F) (M_PI / 2 * radius) = d at hd1 ⊢
    have he0 : 0 < (if radius / 800 > 1 then (1 : F) else radius / 800) := by
      split_ifs
      · norm_num
      · apply div_pos <;> linarith
    have he1 : (if radius / 800 > 1 then (1 : F) else radius / 800) ≤ 1 := by
      split_ifs with c
      · exact le_refl _
      · exact not_lt.mp c
    generalize (if radius / 800 > 1 then (1 : F) else radius / 800) = ef at he0 he1 ⊢
    have h15 : (1.5 : F) = 3 / 2 := by norm_num
    rw [h15]
    have hw0 : (0 : F) < 60 * (1 + ef * (3 / 2)) := by nlinarith
    have hw1 : (60 : F) * (1 + ef * (3 / 2)) ≤ 150 := by nlinarith
    generalize (60 : F) * (1 + ef * (3 / 2)) = w at hw0 hw1 ⊢
    rw [div_le_iff₀ (mul_pos hw0 hw0)]
    nlinarith

/-- C13, witness: on the rational instance with the default configuration, at
the radius `300`, the proximity is `1` three turns after the arm `1` and below
`0.3` a quarter turn after it. -/
theorem arms_denser_than_gaps_witness :
    armProximity ratLibm twoStarConfig 300
        (spiralTheta ratLibm twoStarConfig 300 1 + ((3 : Int) : ℚ) * (2 * M_PI)) = 1
      ∧ armProximity ratLibm twoStarConfig 300
          (spiralTheta ratLibm twoStarConfig 300 1
            + M_PI / (twoStarConfig.numSpiralArms : ℚ)) < 0.3 :=
  have h := arms_denser_than_gaps ratLibm twoStarConfig 300 (by norm_num [ratLibm])
    (by
      intro x hx
      rw [ratLibm_exp_of_le (by linarith)]
      norm_num)
  ⟨h.1 1 3 (by decide), h.2 rfl rfl rfl (by norm_num) 1 (by decide)⟩


/-- C15.  A bulge-origin star lies inside the bulge sphere.  With uniform
draws in `[0, 1)`, `bulgeRadius ≥ 0`, a library with `cos² + sin² = 1`, with
`0 ≤ pow u (1/3) ≤ 1` on `[0, 1)` and whose `sqrt a` is at most `b` whenever
`a ≤ b²` and `0 ≤ b`: a candidate whose first draw is below `0.15` and which is
pushed as `star` satisfies `x² + y² + z² = (pow u (1/3) * bulgeRadius)²`, for
`u` the fourth draw of the candidate, hence `x² + y² + z² ≤ bulgeRadius²` and
`sqrt (x² + y² + z²) ≤ 1.01 * bulgeRadius`. -/
theorem bulge_star_in_sphere (m : Libm F) (rnd : Random F G) (config : GalaxyConfig F)
    (rng : G) (star : Star F) (rng2 : G)
    (hcs : ∀ a : F, m.cos a ^ 2 + m.sin a ^ 2 = 1)
    (hpow : ∀ u : F, 0 ≤ u → u < 1 → 0 ≤ m.pow u (1 / 3) ∧ m.pow u (1 / 3) ≤ 1)
    (hsqrt : ∀ a b : F, 0 ≤ b → a ≤ b ^ 2 → m.sqrt a ≤ b)
    (hd : ∀ g : G, 0 ≤ (rnd.dist g).1 ∧ (rnd.dist g).1 < 1)
    (hb : 0 ≤ config.bulgeRadius)
    (hin : (rnd.dist rng).1 < 0.15)
    (hc : starCandidate m rnd config rng = (some star, rng2)) :
    star.x ^ 2 + star.y ^ 2 + star.z ^ 2
        = (m.pow (rnd.dist (rnd.dist (rnd.dist (rnd.dist rng).2).2).2).1 (1 / 3)
            * config.bulgeRadius) ^ 2
      ∧ star.x ^ 2 + star.y ^ 2 + star.z ^ 2 ≤ config.bulgeRadius ^ 2
      ∧ m.sqrt (star.x * star.x + star.y * star.y + star.z * star.z)
          ≤ 1.01 * config.bulgeRadius := by
  rcases starCandidate_some m rnd config rng star rng2 hc with ⟨_, e⟩ | ⟨hn, _⟩
  swap
  · exact absurd hin hn
  obtain ⟨px, py, pz, _⟩ := typeAndBrightness_position m rnd config
    (bulgeStar m rnd config Star.declared (rnd.dist rng).2).1
    (bulgeStar m rnd config Star.declared (rnd.dist rng).2).2
  obtain ⟨bx, by_, bz⟩ := bulgeStar_position m rnd config Star.declared (rnd.dist rng).2
  rw [← e] at px py pz
  rw [bx] at px
  rw [by_] at py
  rw [bz] at pz
  obtain ⟨p0, p1⟩ := hpow _ (hd (rnd.dist (rnd.dist (rnd.dist rng).2).2).2).1
    (hd (rnd.dist (rnd.dist (rnd.dist rng).2).2).2).2
  have c1 := hcs (m.acos (2 * (rnd.dist (rnd.dist (rnd.dist rng).2).2).1 - 1))
  have c2 := hcs ((rnd.dist (rnd.dist rng).2).1 * 2 * M_PI)
  generalize m.pow (rnd.dist (rnd.dist (rnd.dist (rnd.dist rng).2).2).2).1 (1 / 3) = p
    at px py pz p0 p1 ⊢
  generalize m.cos (m.acos (2 * (rnd.dist (rnd.dist (rnd.dist rng).2).2).1 - 1)) = cp
    at px py pz c1 ⊢
  generalize m.sin (m.acos (2 * (rnd.dist (rnd.dist (rnd.dist rng).2).2).1 - 1)) = sp
    at px py pz c1 ⊢
  generalize m.cos ((rnd.dist (rnd.dist rng).2).1 * 2 * M_PI) = ct at px py pz c2 ⊢
  generalize m.sin ((rnd.dist (rnd.dist rng).2).1 * 2 * M_PI) = st at px py pz c2 ⊢
  have hsum : star.x ^ 2 + star.y ^ 2 + star.z ^ 2 = (p * config.bulgeRadius) ^ 2 := by
    rw [px, py, pz]
    linear_combination (p * config.bulgeRadius) ^ 2 * sp ^ 2 * c2
      + (p * config.bulgeRadius) ^ 2 * c1
  have hle : (p * config.bulgeRadius) ^ 2 ≤ config.bulgeRadius ^ 2 := by
    exact pow_le_pow_left₀ (mul_nonneg p0 hb) (mul_le_of_le_one_left hb p1) 2
  refine ⟨hsum, hsum ▸ hle, ?_⟩
  apply hsqrt
  · norm_num; linarith
  · have e2 : star.x * star.x + star.y * star.y + star.z * star.z
        = star.x ^ 2 + star.y ^ 2 + star.z ^ 2 := by ring
    rw [e2, hsum]
    have h101 : (1.01 : F) = 101 / 100 := by norm_num
    rw [h101]
    refine hle.trans (pow_le_pow_left₀ hb ?_ 2)
    linarith

/-- C15, witness: the first candidate of the rational instance is a bulge star
and lies inside the sphere of radius `150`. -/
theorem bulge_star_in_sphere_witness :
    ∃ star rng2, starCandidate ratLibmPos ratRandom twoStarConfig 0 = (some star, rng2)
      ∧ star.x ^ 2 + star.y ^ 2 + star.z ^ 2 ≤ twoStarConfig.bulgeRadius ^ 2
      ∧ ratLibmPos.sqrt (star.x * star.x + star.y * star.y + star.z * star.z)
          ≤ 1.01 * twoStarConfig.bulgeRadius := by
  have hin : (ratRandom.dist 0).1 < 0.15 := by norm_num [ratRandom]
  obtain ⟨star, hs⟩ := starCandidate_bulge ratLibmPos ratRandom twoStarConfig 0 hin
  have h := bulge_star_in_sphere ratLibmPos ratRandom twoStarConfig 0 star _
    ratLibm_cos_sq_add_sin_sq
    (by
      intro u h0 h1
      simp only [ratLibmPos, ratLibm]
      exact ⟨h0, h1.le⟩)
    ratLibmPos_sqrt_le ratRandom_dist_range (by norm_num [twoStarConfig]) hin hs
  exact ⟨star, _, hs, h.2.1, h.2.2⟩

/-- C20.  The acceptance probability is a positive probability.  For
`armDensityBoost ≥ 0`, `diskRadius > 0`, an arm proximity in `[0, 1]` and a
library `exp` with values in `(0, 1]` on the non-positive numbers, at every
radius: `0 < acceptProbability ≤ 1`; for `radius ≤ 0.85 * diskRadius` it is
`(1 + armProximity * armDensityBoost) / (1 + armDensityBoost)`, times `0.2`
when `armProximity < 0.3`, and it is `1` when `armProximity = 1`; for
`radius > diskRadius` it is at most `0.08` and is the same for every arm
proximity. -/
theorem acceptProbability_valid (m : Libm F) (config : GalaxyConfig F)
    (radius armProximity : F)
    (hexp : ∀ x : F, x ≤ 0 → 0 < m.exp x ∧ m.exp x ≤ 1)
    (hb : 0 ≤ config.armDensityBoost) (hd : 0 < config.diskRadius)
    (ha0 : 0 ≤ armProximity) (ha1 : armProximity ≤ 1) :
    0 < acceptProbability m config radius (radius / config.diskRadius) armProximity
      ∧ acceptProbability m config radius (radius / config.diskRadius) armProximity ≤ 1
      ∧ (radius ≤ 0.85 * config.diskRadius →
          acceptProbability m config radius (radius / config.diskRadius) armProximity
            = (if armProximity < 0.3 then 0.2 else 1)
              * ((1 + armProximity * config.armDensityBoost) / (1 + config.armDensityBoost)))
      ∧ (radius ≤ 0.85 * config.diskRadius → armProximity = 1 →
          acceptProbability m config radius (radius / config.diskRadius) armProximity = 1)
      ∧ (radius > config.diskRadius →
          acceptProbability m config radius (radius / config.diskRadius) armProximity ≤ 0.08
            ∧ ∀ a : F, acceptProbability m config radius (radius / config.diskRadius) a
                = acceptProbability m config radius (radius / config.diskRadius)
                    armProximity) := by
  have hblend := densityBlend_range config.armDensityBoost armProximity hb ha0 ha1
  have hout := acceptProbability_outlier_range m config radius armProximity hexp hd
  have hcore : radius ≤ 0.85 * config.diskRadius →
      acceptProbability m config radius (radius / config.diskRadius) armProximity
        = (if armProximity < 0.3 then 0.2 else 1)
          * ((1 + armProximity * config.armDensityBoost) / (1 + config.armDensityBoost)) := by
    intro h
    rw [acceptProbability_core m config _ _ _ h hd]
    split_ifs
    · ring
    · ring
  have hrange : 0 < acceptProbability m config radius (radius / config.diskRadius) armProximity
      ∧ acceptProbability m config radius (radius / config.diskRadius) armProximity ≤ 1 := by
    by_cases h1 : radius > config.diskRadius
    · have h008 : (0.08 : F) ≤ 1 := by norm_num
      exact ⟨(hout h1).1, (hout h1).2.trans h008⟩
    · by_cases h2 : radius > config.diskRadius * 0.85
      · rw [acceptProbability_transition m config _ _ _ h1 h2]
        obtain ⟨t0, t1⟩ := transitionFactor_range config.diskRadius radius hd h1 h2
        generalize (0.5 : F) + 0.5 * ((config.diskRadius - radius) / (config.diskRadius * 0.15))
          = t at t0 t1 ⊢
        obtain ⟨b0, b1⟩ := hblend
        exact ⟨mul_pos b0 t0, by nlinarith⟩
      · rw [acceptProbability_core m config _ _ _ (by rw [mul_comm]; exact not_lt.mp h2) hd]
        exact hblend
  refine ⟨hrange.1, hrange.2, hcore, ?_, ?_⟩
  · intro h ha
    rw [hcore h, ha, if_neg (by norm_num), one_mul, one_mul]
    exact div_self (by linarith)
  · intro h
    refine ⟨(hout h).2, ?_⟩
    intro a
    rw [acceptProbability_outlier m config _ _ _ h, acceptProbability_outlier m config _ _ _ h]

/-- C20, witness: on the default configuration at the radius `1000`, in the
outlier band, the acceptance probability is `0.03`. -/
theorem acceptProbability_valid_witness :
    acceptProbability ratLibmPos twoStarConfig 1000 (1000 / twoStarConfig.diskRadius) (1 / 2)
        = 3 / 100
      ∧ 0 < acceptProbability ratLibmPos twoStarConfig 1000 (1000 / twoStarConfig.diskRadius)
          (1 / 2)
      ∧ acceptProbability ratLibmPos twoStarConfig 1000 (1000 / twoStarConfig.diskRadius)
          (1 / 2) ≤ 1 :=
  have h := acceptProbability_valid ratLibmPos twoStarConfig 1000 (1 / 2)
    (by
      intro x hx
      simp only [ratLibmPos]
      rcases hx.lt_or_eq with c | c
      · rw [if_pos c]
        constructor
        · apply div_pos one_pos; linarith
        · rw [div_le_one (by linarith)]; linarith
      · rw [c]; norm_num)
    (by norm_num [twoStarConfig]) (by norm_num [twoStarConfig])
    (by norm_num) (by norm_num)
  ⟨by norm_num [acceptProbability, twoStarConfig, ratLibmPos], h.1, h.2.1⟩

end DensityClaims

/-! ## Star generator: the disk branch -/

section DiskLemmas

set_option linter.unusedSectionVars false

variable {F : Type} [LinearOrderedField F] [FloorRing F] {G : Type}

/-- An accepted disk candidate: the acceptance test failed to reject it, and
its radius, angle, height and angular velocity are those computed from the
clamped radius, the angle draw and the third normal draw. -/
theorem diskStar_some (m : Libm F) (rnd : Random F G) (config : GalaxyConfig F)
    (star0 : Star F) (rng : G) (star : Star F) (rng2 : G)
    (h : diskStar m rnd config star0 rng = (some star, rng2)) :
    ¬ (rnd.dist (rnd.dist (diskCandidateRadius m rnd config rng).2).2).1
          > acceptProbability m config (diskCandidateRadius m rnd config rng).1
              ((diskCandidateRadius m rnd config rng).1 / config.diskRadius)
              (armProximity m config (diskCandidateRadius m rnd config rng).1
                ((rnd.dist (diskCandidateRadius m rnd config rng).2).1 * 2 * M_PI))
      ∧ star.radius = (diskCandidateRadius m rnd config rng).1
      ∧ star.angle = (rnd.dist (diskCandidateRadius m rnd config rng).2).1 * 2 * M_PI
      ∧ star.y
          = (rnd.normalDist (rnd.normalDist (rnd.normalDist
              (rnd.dist (rnd.dist (diskCandidateRadius m rnd config rng).2).2).2).2).2).1
            * (config.diskHeight
              * (1 - (if (diskCandidateRadius m rnd config rng).1 / config.diskRadius > 1 then 1
                  else (diskCandidateRadius m rnd config rng).1 / config.diskRadius) * 0.5))
      ∧ star.angularVelocity
          = config.rotationSpeed * 1
            / (m.sqrt ((diskCandidateRadius m rnd config rng).1 / config.bulgeRadius)
              * ((diskCandidateRadius m rnd config rng).1 + 1))
      ∧ rng2 = (rnd.normalDist (rnd.normalDist (rnd.normalDist
          (rnd.dist (rnd.dist (diskCandidateRadius m rnd config rng).2).2).2).2).2).2 := by
  unfold diskStar at h
  unfold diskCandidateRadius armProximity
  simp only [] at h ⊢
  generalize (if (sampleExponentialDiskRadius m rnd (config.diskRadius * 0.25) rng).1
      > config.diskRadius * 2 then config.diskRadius * 2
    else (sampleExponentialDiskRadius m rnd (config.diskRadius * 0.25) rng).1) = R at h ⊢
  generalize (if R / config.diskRadius > 1 then 1 else R / config.diskRadius) = ef at h ⊢
  split_ifs at h with hacc
  · simp only [Prod.mk.injEq, reduceCtorEq, false_and] at h
  · simp only [Prod.mk.injEq, Option.some.injEq] at h
    obtain ⟨hs, hg⟩ := h
    subst hs
    exact ⟨hacc, rfl, rfl, rfl, rfl, hg.symm⟩

/-- A disk candidate whose acceptance draw does not exceed the acceptance
probability is accepted. -/
theorem diskStar_accept (m : Libm F) (rnd : Random F G) (config : GalaxyConfig F)
    (star0 : Star F) (rng : G)
    (h : ¬ (rnd.dist (rnd.dist (diskCandidateRadius m rnd config rng).2).2).1
          > acceptProbability m config (diskCandidateRadius m rnd config rng).1
              ((diskCandidateRadius m rnd config rng).1 / config.diskRadius)
              (armProximity m config (diskCandidateRadius m rnd config rng).1
                ((rnd.dist (diskCandidateRadius m rnd config rng).2).1 * 2 * M_PI))) :
    ∃ star rng2, diskStar m rnd config star0 rng = (some star, rng2) := by
  unfold diskCandidateRadius armProximity at h
  unfold diskStar
  simp only [] at h ⊢
  generalize (if (sampleExponentialDiskRadius m rnd (config.diskRadius * 0.25) rng).1
      > config.diskRadius * 2 then config.diskRadius * 2
    else (sampleExponentialDiskRadius m rnd (config.diskRadius * 0.25) rng).1) = R at h ⊢
  generalize (if R / config.diskRadius > 1 then 1 else R / config.diskRadius) = ef at h ⊢
  rw [if_neg h]
  exact ⟨_, _, rfl⟩

/-- A candidate whose first draw is not below `0.15` and whose disk branch
accepts is pushed after the end of the body. -/
theorem starCandidate_disk (m : Libm F) (rnd : Random F G) (config : GalaxyConfig F)
    (rng : G) (star0 : Star F) (rng0 : G) (hb : ¬ (rnd.dist rng).1 < 0.15)
    (hd : diskStar m rnd config Star.declared (rnd.dist rng).2 = (some star0, rng0)) :
    starCandidate m rnd config rng
      = (some (typeAndBrightness m rnd config star0 rng0).1,
          (rnd.dist (rnd.dist rng0).2).2) := by
  unfold starCandidate
  simp only [hb, decide_False, Bool.false_eq_true, if_false, hd]
  rw [typeAndBrightness_snd]

/-- The arm proximity lies in `[0, 1]` when `exp` does on the non-positive
numbers. -/
theorem armProximity_range (m : Libm F) (config : GalaxyConfig F) (radius theta : F)
    (hexp : ∀ x : F, x ≤ 0 → 0 ≤ m.exp x ∧ m.exp x ≤ 1) :
    0 ≤ armProximity m config radius theta ∧ armProximity m config radius theta ≤ 1 := by
  rw [armProximity_eq]
  apply hexp
  generalize minArmDistance m config radius theta = d
  generalize config.armWidth * (1 + (if radius / config.diskRadius > 1 then 1
    else radius / config.diskRadius) * 1.5) = w
  have e : -d * d / (w * w) = -(d ^ 2 / w ^ 2) := by ring
  rw [e]
  have : 0 ≤ d ^ 2 / w ^ 2 := by positivity
  linarith

/-- In the core band a candidate whose acceptance draw is `0` is accepted. -/
theorem diskStar_accept_core (m : Libm F) (rnd : Random F G) (config : GalaxyConfig F)
    (star0 : Star F) (rng : G)
    (hexp : ∀ x : F, x ≤ 0 → 0 ≤ m.exp x ∧ m.exp x ≤ 1)
    (hb : 0 ≤ config.armDensityBoost) (hd : 0 < config.diskRadius)
    (hcore : (diskCandidateRadius m rnd config rng).1 ≤ 0.85 * config.diskRadius)
    (ha : (rnd.dist (rnd.dist (diskCandidateRadius m rnd config rng).2).2).1 ≤ 0) :
    ∃ star rng2, diskStar m rnd config star0 rng = (some star, rng2) := by
  apply diskStar_accept
  rw [acceptProbability_core m config _ _ _ hcore hd]
  obtain ⟨a0, a1⟩ := armProximity_range m config (diskCandidateRadius m rnd config rng).1
    ((rnd.dist (diskCandidateRadius m rnd config rng).2).1 * 2 * M_PI) hexp
  have := (densityBlend_range config.armDensityBoost _ hb a0 a1).1
  exact not_lt.mpr (ha.trans this.le)


/-- The Newton loop on the rational instance for the draw `u = 0.5`: it leaves
at the second iteration, where the derivative vanishes, near `300`. -/
theorem newtonLoop_half :
    newtonLoop ratLibm 200 (1 / 2) 10 (-200 * ratLibm.log (1 - 1 / 2 + 1e-8))
      = 375000007499999850000001 / 1249999999999999500000 := by
  rw [newtonLoop]
  norm_num [ratLibm, abs_lt]
  rw [newtonLoop]
  norm_num [ratLibm, abs_lt, max_def]

/-- The Newton loop on the rational instance for the draw `u = 0`: the initial
guess `-200 * log (1 + 1e-8)` is negative and passes the convergence test at
once. -/
theorem newtonLoop_zero :
    newtonLoop ratLibm 200 0 10 (-200 * ratLibm.log (1 - 0 + 1e-8)) = -1 / 500000 := by
  rw [newtonLoop]
  norm_num [ratLibm, abs_lt, max_def]

/-- The radius of the disk candidate of a scripted run whose second uniform
draw is `u`. -/
theorem diskCandidateRadius_scripted (u : ℚ) (r : ℚ) (rest normals : List ℚ) (first : ℚ)
    (hn : newtonLoop ratLibm 200 u 10 (-200 * ratLibm.log (1 - u + 1e-8)) = r)
    (hr : r ≤ 1600) :
    diskCandidateRadius ratLibm (scriptedRandom (first :: u :: rest) normals) oneStarConfig (1, 0)
      = (r, (2, 0)) := by
  unfold diskCandidateRadius sampleExponentialDiskRadius
  have e : oneStarConfig.diskRadius * 0.25 = 200 := by norm_num [oneStarConfig]
  have e2 : oneStarConfig.diskRadius * 2 = 1600 := by norm_num [oneStarConfig]
  have hd : (scriptedRandom (first :: u :: rest) normals).dist (1, 0) = (u, (2, 0)) := rfl
  simp only [e, e2, hd, hn, if_neg (not_lt.mpr hr)]

/-- A scripted run of `generateStarField` for one star: the first draw `0.5`
selects the disk branch, `u` is the draw of the sampler, `theta` the draw of
the angle, and the acceptance draw is `0`. -/
theorem generateStarField_scripted (u theta r : ℚ) (normals : List ℚ)
    (hn : newtonLoop ratLibm 200 u 10 (-200 * ratLibm.log (1 - u + 1e-8)) = r)
    (hr : r ≤ 680) :
    ∃ s, generateStarField ratLibm (scriptedRandom [1 / 2, u, theta, 0] normals) 1 []
          oneStarConfig = some [s]
      ∧ starCandidate ratLibm (scriptedRandom [1 / 2, u, theta, 0] normals) oneStarConfig (0, 0)
          = (some s, (6, 3))
      ∧ s.radius = r
      ∧ s.y = normals.getD 2 0 * (50 * (1 - (if r / 800 > 1 then 1 else r / 800) * 0.5))
      ∧ s.angularVelocity = 1 * 1 / (ratLibm.sqrt (r / 150) * (r + 1)) := by
  have hR := diskCandidateRadius_scripted u r [theta, 0] normals (1 / 2) hn (by linarith)
  have hb : ¬ ((scriptedRandom [1 / 2, u, theta, 0] normals).dist (0, 0)).1 < 0.15 := by
    norm_num [scriptedRandom]
  have hg : ((scriptedRandom [1 / 2, u, theta, 0] normals).dist (0, 0)).2 = (1, 0) := rfl
  obtain ⟨s0, g0, h0⟩ := diskStar_accept_core ratLibm (scriptedRandom [1 / 2, u, theta, 0] normals)
    oneStarConfig Star.declared (1, 0) ratLibm_exp_range (by norm_num [oneStarConfig])
    (by norm_num [oneStarConfig])
    (by rw [hR]; norm_num [oneStarConfig]; linarith)
    (by rw [hR]; norm_num [scriptedRandom])
  obtain ⟨_, f1, _, f3, f4, f5⟩ := diskStar_some ratLibm _ oneStarConfig Star.declared (1, 0)
    s0 g0 h0
  rw [hR] at f1 f3 f4 f5
  have hg0 : g0 = (4, 3) := f5
  subst hg0
  rw [← hg] at h0
  have hc := starCandidate_disk ratLibm _ oneStarConfig (0, 0) s0 (4, 3) hb h0
  obtain ⟨_, py, _, pr, _, pv⟩ := typeAndBrightness_position ratLibm
    (scriptedRandom [1 / 2, u, theta, 0] normals) oneStarConfig s0 (4, 3)
  refine ⟨_, ?_, hc, pr.trans f1, py.trans f3, pv.trans f4⟩
  unfold generateStarField
  simp only [clear]
  have hm : (scriptedRandom [1 / 2, u, theta, 0] normals).mt19937 oneStarConfig.seed = (0, 0) :=
    rfl
  rw [hm, starLoop, if_pos (by decide), hc]
  simp only []
  rw [starLoop, if_neg (by decide)]
  rfl


end DiskLemmas

/-! ## Star generator: disk stars -/

section DiskClaims

variable {F : Type} [LinearOrderedField F] [FloorRing F] {G : Type}

/-- C16, counterexample.  With the default configuration (`diskHeight = 50`),
a disk candidate of radius about `300` and the height draw `4`, the star that
`generateStarField` returns has `y = 162.49...`, above `3 * diskHeight = 150`:
the height is the normal draw times `diskHeight * (1 - 0.5 * edgeFactor)` and
the draw is not clamped. -/
theorem disk_star_height_exceeds :
    ∃ s, generateStarField ratLibm (scriptedRandom [1 / 2, 1 / 2, 1 / 4, 0] [0, 0, 4]) 1 []
          oneStarConfig = some [s]
      ∧ s.y = 1624999992499999349999999 / 9999999999999996000000
      ∧ 3 * oneStarConfig.diskHeight < |s.y| := by
  obtain ⟨s, h1, _, _, h3, _⟩ := generateStarField_scripted (1 / 2) (1 / 4)
    (375000007499999850000001 / 1249999999999999500000) [0, 0, 4] newtonLoop_half
    (by norm_num)
  have hy : s.y = 1624999992499999349999999 / 9999999999999996000000 := by
    rw [h3]; norm_num
  refine ⟨s, h1, hy, ?_⟩
  rw [hy]
  norm_num [oneStarConfig, abs_of_pos]

/-- C16, amended.  For `diskHeight ≥ 0` and `diskRadius > 0`, a disk-origin
star that is pushed with a radius `≥ 0` has
`y = n * diskHeight * (1 - 0.5 * min 1 (radius / diskRadius))` for a normal draw
`n`, and `|y| ≤ 3 * diskHeight` whenever `|n| ≤ 3`. -/
theorem disk_star_height (m : Libm F) (rnd : Random F G) (config : GalaxyConfig F)
    (rng : G) (star : Star F) (rng2 : G)
    (hH : 0 ≤ config.diskHeight) (hD : 0 < config.diskRadius)
    (hb : ¬ (rnd.dist rng).1 < 0.15)
    (hc : starCandidate m rnd config rng = (some star, rng2))
    (hR : 0 ≤ star.radius) :
    ∃ g : G,
      star.y = (rnd.normalDist g).1
          * (config.diskHeight * (1 - 0.5 * min 1 (star.radius / config.diskRadius)))
        ∧ (|(rnd.normalDist g).1| ≤ 3 → |star.y| ≤ 3 * config.diskHeight) := by
  rcases starCandidate_some m rnd config rng star rng2 hc with ⟨hin, _⟩ | ⟨_, s0, g0, hd, e⟩
  · exact absurd hin hb
  obtain ⟨_, f1, _, f3, _, _⟩ := diskStar_some m rnd config Star.declared _ s0 g0 hd
  obtain ⟨_, py, _, pr, _, _⟩ := typeAndBrightness_position m rnd config s0 g0
  rw [← e] at py pr
  rw [f1] at pr
  rw [f3, ← pr] at py
  have hef : (if star.radius / config.diskRadius > 1 then 1 else star.radius / config.diskRadius)
      = min 1 (star.radius / config.diskRadius) := by
    rw [min_def]
    split_ifs with c1 c2 c2
    · rfl
    · exact absurd c1.le c2
    · exact le_antisymm (not_lt.mp c1) c2
    · rfl
  rw [hef] at py
  have h0 : 0 ≤ min 1 (star.radius / config.diskRadius) :=
    le_min zero_le_one (div_nonneg hR hD.le)
  have h1 : min 1 (star.radius / config.diskRadius) ≤ 1 := min_le_left _ _
  generalize min 1 (star.radius / config.diskRadius) = ef at py h0 h1 ⊢
  refine ⟨_, by rw [py]; ring, ?_⟩
  intro hn
  rw [py]
  generalize (rnd.normalDist (rnd.normalDist (rnd.normalDist (rnd.dist (rnd.dist
    (diskCandidateRadius m rnd config (rnd.dist rng).2).2).2).2).2).2).1 = n at hn ⊢
  have h05 : (0.5 : F) = 1 / 2 := by norm_num
  rw [h05, abs_mul]
  have hs0 : 0 ≤ config.diskHeight * (1 - ef * (1 / 2)) := mul_nonneg hH (by linarith)
  have hs1 : config.diskHeight * (1 - ef * (1 / 2)) ≤ config.diskHeight := by nlinarith
  rw [abs_of_nonneg hs0]
  calc |n| * (config.diskHeight * (1 - ef * (1 / 2)))
      ≤ 3 * (config.diskHeight * (1 - ef * (1 / 2))) := mul_le_mul_of_nonneg_right hn hs0
    _ ≤ 3 * config.diskHeight := by linarith

/-- C16, witness: the scripted run with the height draw `2`. -/
theorem disk_star_height_witness :
    ∃ s g, starCandidate ratLibm (scriptedRandom [1 / 2, 1 / 2, 1 / 4, 0] [0, 0, 2])
          oneStarConfig (0, 0) = (some s, g)
      ∧ |s.y| ≤ 3 * oneStarConfig.diskHeight := by
  obtain ⟨s, _, h2, h3, _, _⟩ := generateStarField_scripted (1 / 2) (1 / 4)
    (375000007499999850000001 / 1249999999999999500000) [0, 0, 2] newtonLoop_half
    (by norm_num)
  obtain ⟨g, _, hg⟩ := disk_star_height ratLibm
    (scriptedRandom [1 / 2, 1 / 2, 1 / 4, 0] [0, 0, 2]) oneStarConfig (0, 0) s (6, 3)
    (by norm_num [oneStarConfig]) (by norm_num [oneStarConfig])
    (by norm_num [scriptedRandom]) h2 (by rw [h3]; norm_num)
  refine ⟨s, _, h2, hg ?_⟩
  simp only [scriptedRandom]
  rcases g with ⟨a, b⟩
  rcases b with _ | _ | _ | b <;> norm_num [List.getD]

/-- C19.  The run of `generateStarField` with the default configuration in
which the uniform draw of the sampler is `u = 0`: the star returned is a disk
star whose radius is `-1/500000`, not positive; the argument
`radius / bulgeRadius` of `log` is not positive, and the denominator
`sqrt (radius / bulgeRadius) * (radius + 1)` of the angular velocity is `0`
(the stand-in `ratLibm.sqrt` is `0` on the non-positive numbers). -/
theorem disk_radius_not_positive :
    ∃ s, generateStarField ratLibm (scriptedRandom [1 / 2, 0, 1 / 4, 0] []) 1 []
          oneStarConfig = some [s]
      ∧ s.radius = -1 / 500000
      ∧ s.radius ≤ 2 * oneStarConfig.diskRadius
      ∧ ¬ 0 < s.radius
      ∧ ¬ 0 < s.radius / oneStarConfig.bulgeRadius
      ∧ ratLibm.sqrt (s.radius / oneStarConfig.bulgeRadius) * (s.radius + 1) = 0 := by
  obtain ⟨s, h1, _, h3, _, _⟩ := generateStarField_scripted 0 (1 / 4) (-1 / 500000) []
    newtonLoop_zero (by norm_num)
  refine ⟨s, h1, h3, ?_, ?_, ?_, ?_⟩ <;> rw [h3] <;> norm_num [oneStarConfig, ratLibm]


end DiskClaims

/-! ## Renderer: the passes as folds over the kept clouds -/

section PassLemmas

set_option linter.unusedSectionVars false

variable {F : Type} [LinearOrderedField F] [FloorRing F]

/-- The splats of a dark-lane cloud, with the values of `size` and `darken`
named. -/
theorem darkLaneSplats_eq (cloud : GasCloud F) (numLayers : Int) (bins : SizeBins F) :
    darkLaneSplats cloud numLayers bins
      = (List.range numLayers.toNat).foldl
          (fun (bins : SizeBins F) (i : Nat) =>
            pushSplat bins (sizeBinOf (darkLaneSize cloud numLayers i)) cloud.x cloud.y cloud.z
              (darkLaneDarken cloud numLayers i) (darkLaneDarken cloud numLayers i)
              (darkLaneDarken cloud numLayers i) 1)
          bins := rfl

/-- The splats of an emissive cloud, with the values of `filamentOffset`,
`size` and `alpha` named. -/
theorem emissiveSplats_eq (m : Libm F) (cloud : GasCloud F)
    (numFilaments numLayersPerFilament : Int) (bins : SizeBins F) :
    emissiveSplats m cloud numFilaments numLayersPerFilament bins
      = (List.range numFilaments.toNat).foldl
          (fun (bins : SizeBins F) (f : Nat) =>
            (List.range numLayersPerFilament.toNat).foldl
              (fun (bins : SizeBins F) (i : Nat) =>
                pushSplat bins (sizeBinOf (emissiveSize cloud numLayersPerFilament i))
                  (cloud.x + filamentOffset cloud numFilaments f * m.cos cloud.rotationAngle)
                  cloud.y
                  (cloud.z + filamentOffset cloud numFilaments f * m.sin cloud.rotationAngle)
                  cloud.r cloud.g cloud.b (emissiveAlpha m cloud numLayersPerFilament f i))
              bins)
          bins := rfl

/-- The dark-lane loop reads the kept dark-lane clouds, in order. -/
theorem darkLaneLoop_eq (gasClouds : List (GasCloud F)) (zone : RenderZone F)
    (numLayers : Int) (bins : SizeBins F) :
    darkLaneLoop gasClouds (partitionIndices gasClouds).1 (skipFactor zone) numLayers bins
      = (keptDarkLane gasClouds zone).foldl
          (fun bins c => darkLaneSplats c numLayers bins) bins := by
  rw [partitionIndices_spec]
  unfold darkLaneLoop List.enum
  simp only []
  refine (foldl_lookup gasClouds
    (fun idx => skipFactor zone > 1 ∧ (idx : Int) % skipFactor zone ≠ 0)
    (fun cloud bins => darkLaneSplats cloud numLayers bins)
    ((List.enumFrom 0 gasClouds).filter fun p => p.2.isDarkLane)
    (enum_filter_lookup _ gasClouds) 0 bins).trans ?_
  rw [← List.foldl_map (f := Prod.snd) (g := fun bins c => darkLaneSplats c numLayers bins),
    enum_filter_snd (fun c : GasCloud F => c.isDarkLane), kept_eq_everyNth _ (skipFactor_cases zone)]
  rfl

/-- A fold that skips the elements with a property is the fold over the
elements without it. -/
theorem foldl_ite_filter {α β : Type} (cut : α → Prop) [DecidablePred cut] (body : β → α → β)
    (l : List α) (b : β) :
    l.foldl (fun b a => if cut a then b else body b a) b
      = (l.filter fun a => ¬ cut a).foldl body b := by
  induction l generalizing b with
  | nil => rfl
  | cons a l ih =>
    by_cases h : cut a
    · simp [h, ih, List.filter_cons]
    · simp [h, ih, List.filter_cons]

/-- The emissive loop reads the kept emissive clouds, in order. -/
theorem emissiveLoop_eq (m : Libm F) (gasClouds : List (GasCloud F)) (zone : RenderZone F)
    (numFilaments numLayersPerFilament : Int) (bins : SizeBins F) :
    emissiveLoop m gasClouds (partitionIndices gasClouds).2 zone (skipFactor zone) numFilaments
        numLayersPerFilament bins
      = (keptEmissive gasClouds zone).foldl
          (fun bins c => emissiveSplats m c numFilaments numLayersPerFilament bins) bins := by
  rw [partitionIndices_spec]
  unfold emissiveLoop List.enum
  simp only []
  refine (foldl_lookup gasClouds
    (fun idx => skipFactor zone > 1 ∧ (idx : Int) % skipFactor zone ≠ 0)
    (fun cloud bins =>
      if zone.zoomLevel < 0.001 ∧ cloud.type = GasType.CORONAL then bins
      else emissiveSplats m cloud numFilaments numLayersPerFilament bins)
    ((List.enumFrom 0 gasClouds).filter fun p => !p.2.isDarkLane)
    (enum_filter_lookup _ gasClouds) 0 bins).trans ?_
  rw [← List.foldl_map (f := Prod.snd) (g := fun bins (c : GasCloud F) =>
      if zone.zoomLevel < 0.001 ∧ c.type = GasType.CORONAL then bins
      else emissiveSplats m c numFilaments numLayersPerFilament bins),
    enum_filter_snd (fun c : GasCloud F => !c.isDarkLane), kept_eq_everyNth _ (skipFactor_cases zone)]
  rw [foldl_ite_filter (fun c : GasCloud F => zone.zoomLevel < 0.001 ∧ c.type = GasType.CORONAL)
    (fun bins c => emissiveSplats m c numFilaments numLayersPerFilament bins)]
  rfl

/-- The draws of the two passes: those of the bins filled from the kept
dark-lane clouds, and those of the bins, cleared in between, filled from the
kept emissive clouds. -/
theorem renderGalacticGas_eq (m : Libm F) (gasClouds : List (GasCloud F))
    (zone : RenderZone F) :
    renderGalacticGas m gasClouds zone
      = (if zone.zoomLevel ≥ 0.1 then
          drawBins ((keptDarkLane gasClouds zone).foldl
            (fun bins c => darkLaneSplats c (numLayers zone) bins) SizeBins.cleared)
         else [],
         drawBins ((keptEmissive gasClouds zone).foldl
            (fun bins c => emissiveSplats m c (numFilaments zone) (numLayersPerFilament zone)
              bins) SizeBins.cleared)) := by
  unfold renderGalacticGas
  simp only []
  rw [darkLaneLoop_eq, emissiveLoop_eq]


end PassLemmas

/-! ## Gas: ranges of the species, kernel, invariants of the bins -/

section GasRangeLemmas

set_option linter.unusedSectionVars false

variable {F : Type} [LinearOrderedField F] [FloorRing F] {G : Type}

/-- The three cases of the kernel in terms of `q = r / h`. -/
theorem cubicSplineKernel2D_cases (r h : F) :
    (0 ≤ r / h → r / h < 1 →
        cubicSplineKernel2D r h
          = 10 / (7 * M_PI * h * h) * (1 - 1.5 * (r / h) * (r / h)
              + 0.75 * (r / h) * (r / h) * (r / h)))
      ∧ (1 ≤ r / h → r / h < 2 →
        cubicSplineKernel2D r h
          = 10 / (7 * M_PI * h * h) * 0.25 * (2 - r / h) * (2 - r / h) * (2 - r / h))
      ∧ (2 ≤ r / h → cubicSplineKernel2D r h = 0)
      ∧ (r / h < 0 → cubicSplineKernel2D r h = 0) := by
  unfold cubicSplineKernel2D
  refine ⟨?_, ?_, ?_, ?_⟩
  · intro h0 h1
    simp only [ge_iff_le, h0, h1, and_self, if_true]
  · intro h1 h2
    have n1 : ¬ (r / h ≥ 0 ∧ r / h < 1) := fun c => absurd c.2 (not_lt.mpr h1)
    simp only [n1, if_false, ge_iff_le, h1, h2, and_self, if_true]
  · intro h2
    have n1 : ¬ (r / h ≥ 0 ∧ r / h < 1) := fun c => absurd c.2 (not_lt.mpr (by linarith))
    have n2 : ¬ (r / h ≥ 1 ∧ r / h < 2) := fun c => absurd c.2 (not_lt.mpr h2)
    simp only [n1, n2, if_false]
  · intro hneg
    have n1 : ¬ (r / h ≥ 0 ∧ r / h < 1) := fun c => absurd c.1 (not_le.mpr hneg)
    have n2 : ¬ (r / h ≥ 1 ∧ r / h < 2) := fun c => absurd c.1 (not_le.mpr (by linarith))
    simp only [n1, n2, if_false]

/-- The shape factor of the kernel lies in `[0, 1]`. -/
theorem kernel_shape_range (q : F) :
    (0 ≤ q → q < 1 → 0 < 1 - 1.5 * q * q + 0.75 * q * q * q
        ∧ 1 - 1.5 * q * q + 0.75 * q * q * q ≤ 1)
      ∧ (1 ≤ q → q < 2 → 0 < 0.25 * (2 - q) * (2 - q) * (2 - q)
        ∧ 0.25 * (2 - q) * (2 - q) * (2 - q) ≤ 1) := by
  have h15 : (1.5 : F) = 3 / 2 := by norm_num
  have h075 : (0.75 : F) = 3 / 4 := by norm_num
  have h025 : (0.25 : F) = 1 / 4 := by norm_num
  rw [h15, h075, h025]
  constructor
  · intro h0 h1
    have hq2 : 0 ≤ q * q := mul_nonneg h0 h0
    have hq21 : q * q ≤ 1 := by nlinarith
    constructor
    · nlinarith [mul_nonneg hq2 h0]
    · nlinarith [mul_nonneg hq2 (by linarith : (0 : F) ≤ 2 - q)]
  · intro h1 h2
    have hs0 : 0 < 2 - q := by linarith
    have hs1 : 2 - q ≤ 1 := by linarith
    have hss : 0 < (2 - q) * (2 - q) := mul_pos hs0 hs0
    have hss1 : (2 - q) * (2 - q) ≤ 1 := by nlinarith
    have hsss : 0 < (2 - q) * (2 - q) * (2 - q) := mul_pos hss hs0
    have hsss1 : (2 - q) * (2 - q) * (2 - q) ≤ 1 := by nlinarith
    constructor
    · nlinarith
    · nlinarith

/-- The kernel lies between `0` and its central value. -/
theorem cubicSplineKernel2D_range (r h : F) (hh : 0 < h) :
    0 ≤ cubicSplineKernel2D r h ∧ cubicSplineKernel2D r h ≤ 10 / (7 * M_PI * h * h) := by
  have hp : (0 : F) < M_PI := M_PI_pos
  have hs : 0 < 10 / (7 * M_PI * h * h) := by positivity
  obtain ⟨c1, c2, c3, c4⟩ := cubicSplineKernel2D_cases r h
  obtain ⟨k1, k2⟩ := kernel_shape_range (r / h)
  rcases lt_or_le (r / h) 0 with hq | hq
  · rw [c4 hq]; exact ⟨le_refl _, hs.le⟩
  rcases lt_or_le (r / h) 1 with hq1 | hq1
  · rw [c1 hq hq1]
    obtain ⟨a, b⟩ := k1 hq hq1
    generalize 1 - 1.5 * (r / h) * (r / h) + 0.75 * (r / h) * (r / h) * (r / h) = s at a b
    generalize 10 / (7 * M_PI * h * h) = σ at hs ⊢
    constructor <;> nlinarith
  rcases lt_or_le (r / h) 2 with hq2 | hq2
  · rw [c2 hq1 hq2]
    obtain ⟨a, b⟩ := k2 hq1 hq2
    have e : 10 / (7 * M_PI * h * h) * 0.25 * (2 - r / h) * (2 - r / h) * (2 - r / h)
        = 10 / (7 * M_PI * h * h) * (0.25 * (2 - r / h) * (2 - r / h) * (2 - r / h)) := by ring
    rw [e]
    generalize 0.25 * (2 - r / h) * (2 - r / h) * (2 - r / h) = s at a b
    generalize 10 / (7 * M_PI * h * h) = σ at hs ⊢
    constructor <;> nlinarith
  · rw [c3 hq2]; exact ⟨le_refl _, hs.le⟩

/-- A draw `base + u * span` with `u` in `[0, 1)` lies in `[base, base + span)`. -/
theorem affine_draw_range (u base span top : F) (h0 : 0 ≤ u) (h1 : u < 1) (hs : 0 < span)
    (ht : base + span = top) :
    base ≤ base + u * span ∧ base + u * span < top := by
  subst ht
  constructor
  · nlinarith
  · nlinarith

/-- A cloud whose three fields are such draws lies in the ranges of the draws. -/
theorem inRanges_of_draws (rnd : Random F G) (c : GasCloud F)
    (hd : ∀ g : G, 0 ≤ (rnd.dist g).1 ∧ (rnd.dist g).1 < 1)
    (hB hS hT dB dS dT aF eB eS eT : F) (g1 g2 g3 : G)
    (e1 : c.smoothingLength = hB + (rnd.dist g1).1 * hS)
    (e2 : c.density = dB + (rnd.dist g2).1 * dS)
    (e3 : c.elongation = eB + (rnd.dist g3).1 * eS)
    (e4 : c.alpha = c.density * aF)
    (hS0 : 0 < hS) (dS0 : 0 < dS) (eS0 : 0 < eS)
    (hhT : hB + hS = hT) (hdT : dB + dS = dT) (heT : eB + eS = eT) :
    InRanges c hB hT dB dT aF eB eT := by
  unfold InRanges
  have a1 := affine_draw_range _ hB hS hT (hd g1).1 (hd g1).2 hS0 hhT
  have a2 := affine_draw_range _ dB dS dT (hd g2).1 (hd g2).2 dS0 hdT
  have a3 := affine_draw_range _ eB eS eT (hd g3).1 (hd g3).2 eS0 heT
  rw [e1, e2, e3] at *
  exact ⟨a1.1, a1.2, a2.1, a2.2, e4, a3.1, a3.2⟩

/-- Every generated cloud lies in the ranges of its species and has the
dark-lane flag of its species. -/
theorem generateGalacticGas_ranges (m : Libm F) (rnd : Random F G)
    (prior : List (GasCloud F)) (config : GasConfig F) (seed : Nat) (diskRadius bulgeRadius : F)
    (hd : ∀ g : G, 0 ≤ (rnd.dist g).1 ∧ (rnd.dist g).1 < 1) :
    ∀ c ∈ generateGalacticGas m rnd prior config seed diskRadius bulgeRadius,
      speciesRanges c ∧ (c.isDarkLane = true ↔ c.type = GasType.MOLECULAR) := by
  obtain ⟨b1, b2, b3, b4, b5, b6, e, _, p1, _, p2, _, p3, _, p4, _, p5, _, p6⟩ :=
    generateGalacticGas_decomp m rnd prior config seed diskRadius bulgeRadius
      (fun c => c.type = GasType.MOLECULAR ∧ c.isDarkLane = true
        ∧ InRanges c 10 35 0.7 1 0.5 5 10)
      (fun c => c.type = GasType.COLD_NEUTRAL ∧ c.isDarkLane = false
        ∧ InRanges c 8 28 0.3 0.7 0.03 2 4)
      (fun c => c.type = GasType.WARM_NEUTRAL ∧ c.isDarkLane = false
        ∧ InRanges c 10 40 0.2 0.5 0.025 2 3)
      (fun c => c.type = GasType.WARM_IONIZED ∧ c.isDarkLane = false
        ∧ InRanges c 6 26 0.6 1 0.03 1.2 2)
      (fun c => c.type = GasType.HOT_IONIZED ∧ c.isDarkLane = false
        ∧ InRanges c 12 52 0.15 0.4 0.05 1 2)
      (fun c => c.type = GasType.CORONAL ∧ c.isDarkLane = false
        ∧ InRanges c 40 160 0.05 0.15 0.015 1 1.5)
      (fun g => ⟨rfl, rfl, 
        (show InRanges (molecularCloud m rnd config 2 0.3 60 diskRadius bulgeRadius g).1
            10 35 0.7 1 0.5 5 10 from
          inRanges_of_draws rnd _ hd 10 25 35 0.7 0.3 1 0.5 5 5 10 _ _ _
            rfl rfl rfl rfl (by norm_num) (by norm_num) (by norm_num) (by norm_num)
            (by norm_num) (by norm_num))⟩)
      (fun g => ⟨rfl, rfl, 
        (show InRanges (coldNeutralCloud m rnd config diskRadius bulgeRadius g).1
            8 28 0.3 0.7 0.03 2 4 from
          inRanges_of_draws rnd _ hd 8 20 28 0.3 0.4 0.7 0.03 2 2 4 _ _ _
            rfl rfl rfl rfl (by norm_num) (by norm_num) (by norm_num) (by norm_num)
            (by norm_num) (by norm_num))⟩)
      (fun g => ⟨rfl, rfl, 
        (show InRanges (warmNeutralCloud m rnd config diskRadius bulgeRadius g).1
            10 40 0.2 0.5 0.025 2 3 from
          inRanges_of_draws rnd _ hd 10 30 40 0.2 0.3 0.5 0.025 2 1 3 _ _ _
            rfl rfl rfl rfl (by norm_num) (by norm_num) (by norm_num) (by norm_num)
            (by norm_num) (by norm_num))⟩)
      (fun g => ⟨rfl, rfl, 
        (show InRanges (warmIonizedCloud m rnd config 2 0.3 60 diskRadius bulgeRadius g).1
            6 26 0.6 1 0.03 1.2 2 from
          inRanges_of_draws rnd _ hd 6 20 26 0.6 0.4 1 0.03 1.2 0.8 2 _ _ _
            rfl rfl rfl rfl (by norm_num) (by norm_num) (by norm_num) (by norm_num)
            (by norm_num) (by norm_num))⟩)
      (fun g => ⟨rfl, rfl, 
        (show InRanges (hotIonizedCloud m rnd config diskRadius bulgeRadius g).1
            12 52 0.15 0.4 0.05 1 2 from
          inRanges_of_draws rnd _ hd 12 40 52 0.15 0.25 0.4 0.05 1 1 2 _ _ _
            rfl rfl rfl rfl (by norm_num) (by norm_num) (by norm_num) (by norm_num)
            (by norm_num) (by norm_num))⟩)
      (fun g => ⟨rfl, rfl, 
        (show InRanges (coronalCloud m rnd diskRadius g).1
            40 160 0.05 0.15 0.015 1 1.5 from
          inRanges_of_draws rnd _ hd 40 120 160 0.05 0.1 0.15 0.015 1 0.5 1.5 _ _ _
            rfl rfl rfl rfl (by norm_num) (by norm_num) (by norm_num) (by norm_num)
            (by norm_num) (by norm_num))⟩)
  intro c hc
  rw [e] at hc
  simp only [List.mem_append] at hc
  unfold speciesRanges
  rcases hc with ((((hc | hc) | hc) | hc) | hc) | hc
  · obtain ⟨t, d, r⟩ := p1 c hc
    simp only [t, d]
    exact ⟨r, by simp⟩
  · obtain ⟨t, d, r⟩ := p2 c hc
    simp only [t, d]
    exact ⟨r, by simp⟩
  · obtain ⟨t, d, r⟩ := p3 c hc
    simp only [t, d]
    exact ⟨r, by simp⟩
  · obtain ⟨t, d, r⟩ := p4 c hc
    simp only [t, d]
    exact ⟨r, by simp⟩
  · obtain ⟨t, d, r⟩ := p5 c hc
    simp only [t, d]
    exact ⟨r, by simp⟩
  · obtain ⟨t, d, r⟩ := p6 c hc
    simp only [t, d]
    exact ⟨r, by simp⟩

/-- Bounds common to the ranges of the six species. -/
theorem inRanges_common (c : GasCloud F) (hLo hHi dLo dHi aF eLo eHi : F)
    (h : InRanges c hLo hHi dLo dHi aF eLo eHi)
    (h6 : 6 ≤ hLo) (h160 : hHi ≤ 160) (he : 1 ≤ eLo) (hd0 : 0 < dLo) (hd1 : dHi ≤ 1)
    (ha0 : 0 < aF) (ha1 : aF ≤ 1 / 2) :
    6 ≤ c.smoothingLength ∧ c.smoothingLength < 160 ∧ 1 ≤ c.elongation
      ∧ 0 < c.alpha ∧ c.alpha < 1 / 2 := by
  obtain ⟨a1, a2, a3, a4, a5, a6, a7⟩ := h
  rw [a5]
  have hdpos : 0 < c.density := lt_of_lt_of_le hd0 a3
  refine ⟨by linarith, by linarith, by linarith, mul_pos hdpos ha0, ?_⟩
  have : c.density * aF ≤ c.density * (1 / 2) := mul_le_mul_of_nonneg_left ha1 hdpos.le
  linarith

/-- Every generated cloud has `6 ≤ smoothingLength < 160`, `1 ≤ elongation`,
and an alpha in `(0, 0.5)`. -/
theorem speciesRanges_common (c : GasCloud F) (h : speciesRanges c) :
    6 ≤ c.smoothingLength ∧ c.smoothingLength < 160 ∧ 1 ≤ c.elongation
      ∧ 0 < c.alpha ∧ c.alpha < 1 / 2 := by
  unfold speciesRanges at h
  cases ht : c.type
  · rw [ht] at h
    exact inRanges_common c _ _ _ _ _ _ _ h (by norm_num) (by norm_num) (by norm_num)
      (by norm_num) (by norm_num) (by norm_num) (by norm_num)
  · rw [ht] at h
    exact inRanges_common c _ _ _ _ _ _ _ h (by norm_num) (by norm_num) (by norm_num)
      (by norm_num) (by norm_num) (by norm_num) (by norm_num)
  · rw [ht] at h
    exact inRanges_common c _ _ _ _ _ _ _ h (by norm_num) (by norm_num) (by norm_num)
      (by norm_num) (by norm_num) (by norm_num) (by norm_num)
  · rw [ht] at h
    exact inRanges_common c _ _ _ _ _ _ _ h (by norm_num) (by norm_num) (by norm_num)
      (by norm_num) (by norm_num) (by norm_num) (by norm_num)
  · rw [ht] at h
    exact inRanges_common c _ _ _ _ _ _ _ h (by norm_num) (by norm_num) (by norm_num)
      (by norm_num) (by norm_num) (by norm_num) (by norm_num)
  · rw [ht] at h
    exact inRanges_common c _ _ _ _ _ _ _ h (by norm_num) (by norm_num) (by norm_num)
      (by norm_num) (by norm_num) (by norm_num) (by norm_num)

/-- A property kept by every step of a fold holds of its result. -/
theorem foldl_invariant {α β : Type} (Q : β → Prop) (body : β → α → β) (l : List α) (b : β)
    (hQ : Q b) (hstep : ∀ b a, a ∈ l → Q b → Q (body b a)) : Q (l.foldl body b) := by
  induction l generalizing b with
  | nil => exact hQ
  | cons a l ih =>
    rw [List.foldl_cons]
    exact ih _ (hstep b a (List.mem_cons_self _ _) hQ)
      (fun b x hx hb => hstep b x (List.mem_cons_of_mem _ hx) hb)

/-- A property of the bins kept by every splat of a dark-lane cloud is kept by
the cloud. -/
theorem darkLaneSplats_invariant (Q : SizeBins F → Prop) (cloud : GasCloud F) (numLayers : Int)
    (bins : SizeBins F) (hQ : Q bins)
    (hstep : ∀ (bins : SizeBins F) (i : Nat), i < numLayers.toNat → Q bins →
      Q (pushSplat bins (sizeBinOf (darkLaneSize cloud numLayers i)) cloud.x cloud.y cloud.z
        (darkLaneDarken cloud numLayers i) (darkLaneDarken cloud numLayers i)
        (darkLaneDarken cloud numLayers i) 1)) :
    Q (darkLaneSplats cloud numLayers bins) := by
  rw [darkLaneSplats_eq]
  exact foldl_invariant Q _ _ bins hQ
    (fun b i hi hb => hstep b i (List.mem_range.mp hi) hb)

/-- A property of the bins kept by every splat of an emissive cloud is kept by
the cloud. -/
theorem emissiveSplats_invariant (Q : SizeBins F → Prop) (m : Libm F) (cloud : GasCloud F)
    (numFilaments numLayersPerFilament : Int) (bins : SizeBins F) (hQ : Q bins)
    (hstep : ∀ (bins : SizeBins F) (f i : Nat), f < numFilaments.toNat →
      i < numLayersPerFilament.toNat → Q bins →
      Q (pushSplat bins (sizeBinOf (emissiveSize cloud numLayersPerFilament i))
        (cloud.x + filamentOffset cloud numFilaments f * m.cos cloud.rotationAngle) cloud.y
        (cloud.z + filamentOffset cloud numFilaments f * m.sin cloud.rotationAngle)
        cloud.r cloud.g cloud.b (emissiveAlpha m cloud numLayersPerFilament f i))) :
    Q (emissiveSplats m cloud numFilaments numLayersPerFilament bins) := by
  rw [emissiveSplats_eq]
  refine foldl_invariant Q _ _ bins hQ ?_
  intro b f hf hb
  exact foldl_invariant Q _ _ b hb
    (fun b2 i hi hb2 => hstep b2 f i (List.mem_range.mp hf) (List.mem_range.mp hi) hb2)

/-- The draws of a pass are the non-empty bins. -/
theorem drawBins_mem (bins : SizeBins F) (d : DrawBatch F) (hd : d ∈ drawBins bins) :
    ∃ b : Nat, b < 40 ∧ bins.verticesBySize b ≠ []
      ∧ d.pointSize = (b : F) * SIZE_BIN
      ∧ d.vertices = bins.verticesBySize b ∧ d.colors = bins.colorsBySize b
      ∧ d.count = (bins.verticesBySize b).length / 3 := by
  unfold drawBins at hd
  rw [List.mem_filterMap] at hd
  obtain ⟨b, hb, hd⟩ := hd
  have hb40 : b < 40 := List.mem_range.mp hb
  by_cases he : (bins.verticesBySize b).isEmpty = true
  · simp [he] at hd
  · simp only [he, Bool.false_eq_true, if_false, Option.some.injEq] at hd
    refine ⟨b, hb40, ?_, ?_, ?_, ?_, ?_⟩
    · intro hn
      rw [hn] at he
      simp at he
    all_goals rw [← hd]

/-- The elements at the positions `0, k, 2k, ...` of a list are elements of
the list. -/
theorem everyNth_subset {α : Type} (k : Nat) (l : List α) : ∀ a ∈ everyNth k l, a ∈ l := by
  intro a ha
  unfold everyNth at ha
  rw [List.mem_map] at ha
  obtain ⟨p, hp, rfl⟩ := ha
  have h := (List.mem_filter.mp hp).1
  have := List.mk_mem_enum_iff_getElem?.mp h
  exact List.getElem?_mem this

/-- The clouds kept by the dark-lane pass are dark-lane clouds of the buffer. -/
theorem keptDarkLane_mem (gasClouds : List (GasCloud F)) (zone : RenderZone F) :
    ∀ c ∈ keptDarkLane gasClouds zone, c ∈ gasClouds ∧ c.isDarkLane = true := by
  intro c hc
  have h := everyNth_subset _ _ c hc
  exact ⟨(List.mem_filter.mp h).1, (List.mem_filter.mp h).2⟩

/-- The clouds kept by the emissive pass are clouds of the buffer without the
dark-lane flag. -/
theorem keptEmissive_mem (gasClouds : List (GasCloud F)) (zone : RenderZone F) :
    ∀ c ∈ keptEmissive gasClouds zone, c ∈ gasClouds ∧ c.isDarkLane = false := by
  intro c hc
  unfold keptEmissive at hc
  have h := everyNth_subset _ _ c (List.mem_filter.mp hc).1
  have h2 := (List.mem_filter.mp h).2
  exact ⟨(List.mem_filter.mp h).1, by simpa using h2⟩

/-- The layer parameter lies in `[0, 1]` and is `1` at the last layer. -/
theorem layerParam_range (layers : Int) (h2 : 2 ≤ layers) (i : Nat) (hi : i < layers.toNat) :
    0 ≤ (layerParam layers i : F) ∧ (layerParam layers i : F) ≤ 1
      ∧ (layerParam layers (layers.toNat - 1) : F) = 1 := by
  unfold layerParam
  have hpos : (0 : F) < ((layers - 1 : Int) : F) := by
    have : (0 : Int) < layers - 1 := by omega
    exact_mod_cast this
  have hi2 : (i : Int) ≤ layers - 1 := by omega
  have hi3 : (i : F) ≤ ((layers - 1 : Int) : F) := by exact_mod_cast hi2
  refine ⟨by positivity, (div_le_one hpos).mpr hi3, ?_⟩
  have e : ((layers.toNat - 1 : Nat) : Int) = layers - 1 := by omega
  have e2 : ((layers.toNat - 1 : Nat) : F) = ((layers - 1 : Int) : F) := by exact_mod_cast e
  rw [e2]
  exact div_self hpos.ne'

/-- Both layer counts are at least `2`. -/
theorem lod_layers_ge_two (zone : RenderZone F) :
    2 ≤ numLayers zone ∧ 2 ≤ numLayersPerFilament zone := by
  unfold numLayers numLayersPerFilament
  constructor <;> split_ifs <;> decide

/-- A size of at least `5` falls in a bin of index at least `1`. -/
theorem sizeBinOf_pos (size : F) (h : 5 ≤ size) :
    1 ≤ sizeBinOf size ∧ (sizeBinOf size).toNat ≠ 0
      ∧ (5 : F) ≤ ((sizeBinOf size : Int) : F) * SIZE_BIN := by
  have hq : (1 : F) ≤ size / 5 := by
    rw [le_div_iff₀ (by norm_num)]
    linarith
  have hf : (1 : Int) ≤ ⌊size / 5⌋ := Int.le_floor.mpr (by exact_mod_cast hq)
  have h1 : 1 ≤ sizeBinOf size := by
    unfold sizeBinOf truncToInt SIZE_BIN MAX_SIZE_BINS
    simp only [if_pos (by linarith : (0 : F) ≤ size / 5)]
    split_ifs <;> omega
  refine ⟨h1, by omega, ?_⟩
  have h1F : (1 : F) ≤ ((sizeBinOf size : Int) : F) := by exact_mod_cast h1
  unfold SIZE_BIN
  linarith

/-- The splat sizes of a cloud with `6 ≤ smoothingLength` and `1 ≤ elongation`. -/
theorem splat_sizes_ge (h e t : F) (h6 : 6 ≤ h) (he : 1 ≤ e) (t0 : 0 ≤ t) :
    5 ≤ h * 2 * (1 + t * 0.3) ∧ 5 ≤ h * 1.2 * (1 + e * 0.5) * (1 + t * 0.2) := by
  have n1 : (0.3 : F) = 3 / 10 := by norm_num
  have n2 : (1.2 : F) = 6 / 5 := by norm_num
  have n3 : (0.5 : F) = 1 / 2 := by norm_num
  have n4 : (0.2 : F) = 1 / 5 := by norm_num
  rw [n1, n2, n3, n4]
  have a1 : 0 ≤ h * t := mul_nonneg (by linarith) t0
  constructor
  · nlinarith
  · have b1 : 9 ≤ h * (6 / 5) * (1 + e * (1 / 2)) := by nlinarith
    have b2 : 1 ≤ 1 + t * (1 / 5) := by linarith
    nlinarith

/-- A splat pushed on a bin other than `0` leaves the bin `0` empty. -/
theorem pushSplat_bin_zero (bins : SizeBins F) (sizeBin : Int) (x y z r g b a : F)
    (h : sizeBin.toNat ≠ 0) (h0 : bins.verticesBySize 0 = []) :
    (pushSplat bins sizeBin x y z r g b a).verticesBySize 0 = [] := by
  simp only [pushSplat]
  rw [if_neg (fun e => h e.symm)]
  exact h0

/-- A splat whose colour components lie in `[0, 1]` keeps the colour floats of
the bins in `[0, 1]`. -/
theorem pushSplat_colours (bins : SizeBins F) (sizeBin : Int) (x y z r g b a : F)
    (hr : 0 ≤ r ∧ r ≤ 1) (hg : 0 ≤ g ∧ g ≤ 1) (hb : 0 ≤ b ∧ b ≤ 1) (ha : 0 ≤ a ∧ a ≤ 1)
    (h : ∀ j, ∀ v ∈ bins.colorsBySize j, 0 ≤ v ∧ v ≤ 1) :
    ∀ j, ∀ v ∈ (pushSplat bins sizeBin x y z r g b a).colorsBySize j, 0 ≤ v ∧ v ≤ 1 := by
  intro j v hv
  simp only [pushSplat] at hv
  split_ifs at hv
  · rcases List.mem_append.mp hv with h1 | h1
    · exact h j v h1
    · simp only [List.mem_cons, List.mem_singleton, List.not_mem_nil, or_false] at h1
      rcases h1 with e | e | e | e <;> rw [e] <;> assumption
  · exact h j v hv

/-- The darkening factor of a cloud with `6 ≤ smoothingLength` and an alpha in
`[0, 1]` lies in `[0, 1]`. -/
theorem darkLaneDarken_range (cloud : GasCloud F) (numLayers : Int) (i : Nat)
    (h6 : 6 ≤ cloud.smoothingLength) (a0 : 0 ≤ cloud.alpha) (a1 : cloud.alpha ≤ 1) :
    0 ≤ darkLaneDarken cloud numLayers i ∧ darkLaneDarken cloud numLayers i ≤ 1 := by
  unfold darkLaneDarken
  simp only []
  have hh : 0 < cloud.smoothingLength := by linarith
  obtain ⟨w0, w1⟩ := cubicSplineKernel2D_range
    (layerParam numLayers i * (cloud.smoothingLength * 2)) cloud.smoothingLength hh
  have hpi : (3 : F) < M_PI := by unfold M_PI; norm_num
  have hs : 10 / (7 * M_PI * cloud.smoothingLength * cloud.smoothingLength) ≤ 1 := by
    rw [div_le_one (by positivity)]
    nlinarith [mul_pos hh hh]
  generalize cubicSplineKernel2D (layerParam numLayers i * (cloud.smoothingLength * 2))
    cloud.smoothingLength = w at w0 w1
  have w2 : w ≤ 1 := w1.trans hs
  have n : (0.6 : F) = 3 / 5 := by norm_num
  rw [n]
  have p0 : 0 ≤ cloud.alpha * (3 / 5) := by positivity
  have p1 : cloud.alpha * (3 / 5) ≤ 1 := by linarith
  have q0 : 0 ≤ cloud.alpha * (3 / 5) * w := mul_nonneg p0 w0
  have q1 : cloud.alpha * (3 / 5) * w ≤ 1 := by nlinarith
  constructor <;> linarith

/-- At the last layer the kernel is evaluated at `q = 2`, where it is `0`, and
the darkening factor is `1`. -/
theorem darkLaneDarken_last (cloud : GasCloud F) (numLayers : Int) (h2 : 2 ≤ numLayers)
    (hh : 0 < cloud.smoothingLength) :
    cubicSplineKernel2D (layerParam numLayers (numLayers.toNat - 1)
        * (cloud.smoothingLength * 2)) cloud.smoothingLength = 0
      ∧ darkLaneDarken cloud numLayers (numLayers.toNat - 1) = 1 := by
  have ht := (layerParam_range (F := F) numLayers h2 0 (by omega)).2.2
  have hk : cubicSplineKernel2D (layerParam numLayers (numLayers.toNat - 1)
      * (cloud.smoothingLength * 2)) cloud.smoothingLength = 0 := by
    rw [ht]
    apply (cubicSplineKernel2D_cases _ _).2.2.1
    rw [le_div_iff₀ hh]
    linarith
  refine ⟨hk, ?_⟩
  unfold darkLaneDarken
  simp only []
  rw [hk]
  ring

/-- The rational instance generates one cloud of each species from
`mixedGasConfig`: a molecular one first and a coronal one last. -/
theorem generateGalacticGas_mixed (m : Libm ℚ) (seed : Nat) (diskRadius bulgeRadius : ℚ) :
    ∃ c1 c2 c3 c4 c5 c6,
      generateGalacticGas m ratRandom [] mixedGasConfig seed diskRadius bulgeRadius
          = [c1, c2, c3, c4, c5, c6]
        ∧ c1.type = GasType.MOLECULAR ∧ c1.isDarkLane = true
        ∧ c6.type = GasType.CORONAL ∧ c6.isDarkLane = false := by
  refine ⟨_, _, _, _, _, _, rfl, rfl, rfl, rfl, rfl⟩

end GasRangeLemmas

/-! ## Gas: alpha, point sizes, darkening -/

section GasRangeClaims

set_option linter.unusedSectionVars false

variable {F : Type} [LinearOrderedField F] [FloorRing F] {G : Type}

/-- C26.  With uniform draws in `[0, 1)`, for every two clouds of the buffer
that `generateGalacticGas` returns, the first `CORONAL` and the second of any
other species: the alpha of the first is `0.015 * density` with its density in
`[0.05, 0.15)`, the alpha of the second is at least `0.005`, and the alpha of
the first is less than the alpha of the second. -/
theorem coronal_alpha_faintest (m : Libm F) (rnd : Random F G)
    (prior : List (GasCloud F)) (config : GasConfig F) (seed : Nat) (diskRadius bulgeRadius : F)
    (hd : ∀ g : G, 0 ≤ (rnd.dist g).1 ∧ (rnd.dist g).1 < 1) :
    ∀ c1 ∈ generateGalacticGas m rnd prior config seed diskRadius bulgeRadius,
      ∀ c2 ∈ generateGalacticGas m rnd prior config seed diskRadius bulgeRadius,
        c1.type = GasType.CORONAL → c2.type ≠ GasType.CORONAL →
          c1.alpha = 0.015 * c1.density ∧ 0.05 ≤ c1.density ∧ c1.density < 0.15
            ∧ 0.005 ≤ c2.alpha ∧ c1.alpha < c2.alpha := by
  intro c1 h1 c2 h2 t1 t2
  obtain ⟨r1, _⟩ := generateGalacticGas_ranges m rnd prior config seed diskRadius bulgeRadius hd
    c1 h1
  obtain ⟨r2, _⟩ := generateGalacticGas_ranges m rnd prior config seed diskRadius bulgeRadius hd
    c2 h2
  unfold speciesRanges at r1 r2
  rw [t1] at r1
  obtain ⟨_, _, d0, d1, a, _, _⟩ := r1
  have n1 : (0.7 : F) = 7 / 10 := by norm_num
  have n2 : (0.5 : F) = 1 / 2 := by norm_num
  have n3 : (0.3 : F) = 3 / 10 := by norm_num
  have n4 : (0.03 : F) = 3 / 100 := by norm_num
  have n5 : (0.2 : F) = 1 / 5 := by norm_num
  have n6 : (0.025 : F) = 1 / 40 := by norm_num
  have n7 : (0.6 : F) = 3 / 5 := by norm_num
  have n9 : (0.15 : F) = 3 / 20 := by norm_num
  have n11 : (0.05 : F) = 1 / 20 := by norm_num
  have n12 : (0.015 : F) = 3 / 200 := by norm_num
  have n14 : (0.005 : F) = 1 / 200 := by norm_num
  have hc2 : (1 / 200 : F) ≤ c2.alpha := by
    cases ht : c2.type
    · rw [ht] at r2
      obtain ⟨_, _, e0, _, ea, _, _⟩ := r2
      rw [ea, n2]; rw [n1] at e0; linarith
    · rw [ht] at r2
      obtain ⟨_, _, e0, _, ea, _, _⟩ := r2
      rw [ea, n4]; rw [n3] at e0; linarith
    · rw [ht] at r2
      obtain ⟨_, _, e0, _, ea, _, _⟩ := r2
      rw [ea, n6]; rw [n5] at e0; linarith
    · rw [ht] at r2
      obtain ⟨_, _, e0, _, ea, _, _⟩ := r2
      rw [ea, n4]; rw [n7] at e0; linarith
    · rw [ht] at r2
      obtain ⟨_, _, e0, _, ea, _, _⟩ := r2
      rw [ea, n11]; rw [n9] at e0; linarith
    · exact absurd ht t2
  rw [n11] at d0
  rw [n9] at d1
  rw [n12, n11, n9, n14, a, n12]
  exact ⟨by ring, d0, d1, hc2, by linarith⟩

/-- C26, witness: with one cloud of each species on the rational instance, the
coronal cloud has a smaller alpha than the molecular one. -/
theorem coronal_alpha_faintest_witness :
    ∃ c1 ∈ generateGalacticGas ratLibm ratRandom [] mixedGasConfig 42 800 150,
      ∃ c2 ∈ generateGalacticGas ratLibm ratRandom [] mixedGasConfig 42 800 150,
        c1.type = GasType.CORONAL ∧ c2.type = GasType.MOLECULAR ∧ c1.alpha < c2.alpha := by
  obtain ⟨c1, c2, c3, c4, c5, c6, e, t1, _, t6, _⟩ := generateGalacticGas_mixed ratLibm 42 800 150
  have h1 : c1 ∈ generateGalacticGas ratLibm ratRandom [] mixedGasConfig 42 800 150 := by
    rw [e]; simp
  have h6 : c6 ∈ generateGalacticGas ratLibm ratRandom [] mixedGasConfig 42 800 150 := by
    rw [e]; simp
  exact ⟨c6, h6, c1, h1, t6, t1,
    (coronal_alpha_faintest ratLibm ratRandom [] mixedGasConfig 42 800 150 ratRandom_dist_range
      c6 h6 c1 h1 t6 (by rw [t1]; decide)).2.2.2.2⟩

/-- C29.  With uniform draws in `[0, 1)`, for every cloud that
`generateGalacticGas` returns and every zoom level: for `t` in `[0, 1]` the
dark-lane size `2h (1 + 0.3 t)` and the emissive size
`1.2 h (1 + 0.5 elongation) (1 + 0.2 t)` are at least `5`; the size of every
layer of either pass is at least `5`, its bin index is at least `1` and the
point size `bin * SIZE_BIN` is positive; and every draw of either pass of
`renderGalacticGas` on the generated buffer has a point size of at least `5`. -/
theorem splat_point_size_positive (m : Libm F) (rnd : Random F G)
    (prior : List (GasCloud F)) (config : GasConfig F) (seed : Nat) (diskRadius bulgeRadius : F)
    (zone : RenderZone F)
    (hd : ∀ g : G, 0 ≤ (rnd.dist g).1 ∧ (rnd.dist g).1 < 1) :
    (∀ c ∈ generateGalacticGas m rnd prior config seed diskRadius bulgeRadius,
        ∀ t : F, 0 ≤ t → t ≤ 1 →
          5 ≤ c.smoothingLength * 2 * (1 + t * 0.3)
            ∧ 5 ≤ c.smoothingLength * 1.2 * (1 + c.elongation * 0.5) * (1 + t * 0.2))
      ∧ (∀ c ∈ generateGalacticGas m rnd prior config seed diskRadius bulgeRadius,
          ∀ i : Nat, i < (numLayers zone).toNat →
            5 ≤ darkLaneSize c (numLayers zone) i
              ∧ 1 ≤ sizeBinOf (darkLaneSize c (numLayers zone) i)
              ∧ 0 < ((sizeBinOf (darkLaneSize c (numLayers zone) i) : Int) : F) * SIZE_BIN)
      ∧ (∀ c ∈ generateGalacticGas m rnd prior config seed diskRadius bulgeRadius,
          ∀ i : Nat, i < (numLayersPerFilament zone).toNat →
            5 ≤ emissiveSize c (numLayersPerFilament zone) i
              ∧ 1 ≤ sizeBinOf (emissiveSize c (numLayersPerFilament zone) i)
              ∧ 0 < ((sizeBinOf (emissiveSize c (numLayersPerFilament zone) i) : Int) : F)
                  * SIZE_BIN)
      ∧ (∀ d ∈ (renderGalacticGas m
            (generateGalacticGas m rnd prior config seed diskRadius bulgeRadius) zone).1,
          5 ≤ d.pointSize)
      ∧ (∀ d ∈ (renderGalacticGas m
            (generateGalacticGas m rnd prior config seed diskRadius bulgeRadius) zone).2,
          5 ≤ d.pointSize) := by
  have hr := generateGalacticGas_ranges m rnd prior config seed diskRadius bulgeRadius hd
  have hc : ∀ c ∈ generateGalacticGas m rnd prior config seed diskRadius bulgeRadius,
      6 ≤ c.smoothingLength ∧ 1 ≤ c.elongation := fun c h =>
    ⟨(speciesRanges_common c (hr c h).1).1, (speciesRanges_common c (hr c h).1).2.2.1⟩
  obtain ⟨l1, l2⟩ := lod_layers_ge_two zone
  have hdark : ∀ c ∈ generateGalacticGas m rnd prior config seed diskRadius bulgeRadius,
      ∀ i : Nat, i < (numLayers zone).toNat → 5 ≤ darkLaneSize c (numLayers zone) i := by
    intro c h i hi
    obtain ⟨t0, _, _⟩ := layerParam_range (F := F) (numLayers zone) l1 i hi
    exact (splat_sizes_ge c.smoothingLength c.elongation _ (hc c h).1 (hc c h).2 t0).1
  have hemis : ∀ c ∈ generateGalacticGas m rnd prior config seed diskRadius bulgeRadius,
      ∀ i : Nat, i < (numLayersPerFilament zone).toNat →
        5 ≤ emissiveSize c (numLayersPerFilament zone) i := by
    intro c h i hi
    obtain ⟨t0, _, _⟩ := layerParam_range (F := F) (numLayersPerFilament zone) l2 i hi
    exact (splat_sizes_ge c.smoothingLength c.elongation _ (hc c h).1 (hc c h).2 t0).2
  have hbatch : ∀ (bins : SizeBins F) (d : DrawBatch F), bins.verticesBySize 0 = [] →
      d ∈ drawBins bins → 5 ≤ d.pointSize := by
    intro bins d h0 hmem
    obtain ⟨b, _, hne, hp, _⟩ := drawBins_mem bins d hmem
    have hb : b ≠ 0 := fun e => hne (e ▸ h0)
    have : (1 : F) ≤ (b : F) := by exact_mod_cast Nat.one_le_iff_ne_zero.mpr hb
    rw [hp]
    unfold SIZE_BIN
    linarith
  refine ⟨?_, ?_, ?_, ?_, ?_⟩
  · intro c h t t0 _
    exact splat_sizes_ge c.smoothingLength c.elongation t (hc c h).1 (hc c h).2 t0
  · intro c h i hi
    obtain ⟨a, b, e⟩ := sizeBinOf_pos _ (hdark c h i hi)
    exact ⟨hdark c h i hi, a, by linarith⟩
  · intro c h i hi
    obtain ⟨a, b, e⟩ := sizeBinOf_pos _ (hemis c h i hi)
    exact ⟨hemis c h i hi, a, by linarith⟩
  · intro d hmem
    rw [renderGalacticGas_eq] at hmem
    simp only [] at hmem
    split_ifs at hmem with hz
    · refine hbatch _ d ?_ hmem
      refine foldl_invariant (fun bins : SizeBins F => bins.verticesBySize 0 = []) _ _ _ rfl ?_
      intro bins c hcm hb
      have hg := (keptDarkLane_mem _ zone c hcm).1
      exact darkLaneSplats_invariant (fun bins : SizeBins F => bins.verticesBySize 0 = []) c _
        bins hb (fun b2 i hi hb2 =>
          pushSplat_bin_zero b2 _ _ _ _ _ _ _ _ (sizeBinOf_pos _ (hdark c hg i hi)).2.1 hb2)
    · simp at hmem
  · intro d hmem
    rw [renderGalacticGas_eq] at hmem
    simp only [] at hmem
    refine hbatch _ d ?_ hmem
    refine foldl_invariant (fun bins : SizeBins F => bins.verticesBySize 0 = []) _ _ _ rfl ?_
    intro bins c hcm hb
    have hg := (keptEmissive_mem _ zone c hcm).1
    exact emissiveSplats_invariant (fun bins : SizeBins F => bins.verticesBySize 0 = []) m c _ _
      bins hb (fun b2 f i _ hi hb2 =>
        pushSplat_bin_zero b2 _ _ _ _ _ _ _ _ (sizeBinOf_pos _ (hemis c hg i hi)).2.1 hb2)

/-- C29, witness: the draws of the two passes for one cloud of each species on
the rational instance, at the zoom level `1`. -/
theorem splat_point_size_positive_witness :
    (∀ d ∈ (renderGalacticGas ratLibm
          (generateGalacticGas ratLibm ratRandom [] mixedGasConfig 42 800 150) nearZone).1,
        (5 : ℚ) ≤ d.pointSize)
      ∧ (∀ d ∈ (renderGalacticGas ratLibm
          (generateGalacticGas ratLibm ratRandom [] mixedGasConfig 42 800 150) nearZone).2,
        (5 : ℚ) ≤ d.pointSize) :=
  (splat_point_size_positive ratLibm ratRandom [] mixedGasConfig 42 800 150 nearZone
    ratRandom_dist_range).2.2.2

/-- C30.  With uniform draws in `[0, 1)`, for every `MOLECULAR` cloud that
`generateGalacticGas` returns (`smoothingLength` in `[10, 35)`,
`alpha = 0.5 * density`, density in `[0.7, 1)`) and every layer `i` of the
dark-lane pass, `darken = 1 - 0.6 * alpha * cubicSplineKernel2D (t * 2h) h` lies
in `[0, 1]`; at the last layer `t = 1`, the kernel at `r = 2h` is `0` and
`darken = 1`.  Every colour float of the draws of the dark-lane pass on the
generated buffer lies in `[0, 1]`. -/
theorem dark_lane_darken_valid (m : Libm F) (rnd : Random F G)
    (prior : List (GasCloud F)) (config : GasConfig F) (seed : Nat) (diskRadius bulgeRadius : F)
    (zone : RenderZone F)
    (hd : ∀ g : G, 0 ≤ (rnd.dist g).1 ∧ (rnd.dist g).1 < 1) :
    (∀ c ∈ generateGalacticGas m rnd prior config seed diskRadius bulgeRadius,
        c.type = GasType.MOLECULAR →
          10 ≤ c.smoothingLength ∧ c.smoothingLength < 35 ∧ c.alpha = 0.5 * c.density
            ∧ 0.7 ≤ c.density ∧ c.density < 1
            ∧ (∀ i : Nat, i < (numLayers zone).toNat →
                darkLaneDarken c (numLayers zone) i
                    = 1 - 0.6 * c.alpha
                      * cubicSplineKernel2D (layerParam (numLayers zone) i
                          * (2 * c.smoothingLength)) c.smoothingLength
                  ∧ 0 ≤ darkLaneDarken c (numLayers zone) i
                  ∧ darkLaneDarken c (numLayers zone) i ≤ 1)
            ∧ (layerParam (numLayers zone) ((numLayers zone).toNat - 1) : F) = 1
            ∧ cubicSplineKernel2D (2 * c.smoothingLength) c.smoothingLength = 0
            ∧ darkLaneDarken c (numLayers zone) ((numLayers zone).toNat - 1) = 1)
      ∧ (∀ d ∈ (renderGalacticGas m
            (generateGalacticGas m rnd prior config seed diskRadius bulgeRadius) zone).1,
          ∀ v ∈ d.colors, 0 ≤ v ∧ v ≤ 1) := by
  have hr := generateGalacticGas_ranges m rnd prior config seed diskRadius bulgeRadius hd
  obtain ⟨l1, _⟩ := lod_layers_ge_two zone
  have hrange : ∀ c ∈ generateGalacticGas m rnd prior config seed diskRadius bulgeRadius,
      ∀ i : Nat, 0 ≤ darkLaneDarken c (numLayers zone) i
        ∧ darkLaneDarken c (numLayers zone) i ≤ 1 := by
    intro c h i
    obtain ⟨a, _, _, b0, b1⟩ := speciesRanges_common c (hr c h).1
    exact darkLaneDarken_range c _ i a b0.le (by linarith)
  constructor
  · intro c h ht
    obtain ⟨r, _⟩ := hr c h
    have hh : 6 ≤ c.smoothingLength := (speciesRanges_common c r).1
    unfold speciesRanges at r
    rw [ht] at r
    obtain ⟨a1, a2, a3, a4, a5, _, _⟩ := r
    obtain ⟨k1, k2⟩ := darkLaneDarken_last c (numLayers zone) l1 (by linarith)
    have ht1 := (layerParam_range (F := F) (numLayers zone) l1 0 (by omega)).2.2
    refine ⟨a1, a2, by rw [a5]; ring, a3, a4, ?_, ht1, ?_, k2⟩
    · intro i _
      refine ⟨?_, hrange c h i⟩
      unfold darkLaneDarken
      simp only []
      rw [mul_comm c.smoothingLength 2]
      ring
    · rw [ht1, one_mul, mul_comm] at k1
      exact k1
  · intro d hmem
    rw [renderGalacticGas_eq] at hmem
    simp only [] at hmem
    split_ifs at hmem with hz
    · obtain ⟨b, _, _, _, _, hcol, _⟩ := drawBins_mem _ d hmem
      rw [hcol]
      refine foldl_invariant
        (fun bins : SizeBins F => ∀ j, ∀ v ∈ bins.colorsBySize j, 0 ≤ v ∧ v ≤ 1) _ _ _
        (by intro j v hv; simp [SizeBins.cleared] at hv) ?_ b
      intro bins c hcm hb
      have hg := (keptDarkLane_mem _ zone c hcm).1
      exact darkLaneSplats_invariant
        (fun bins : SizeBins F => ∀ j, ∀ v ∈ bins.colorsBySize j, 0 ≤ v ∧ v ≤ 1) c _ bins hb
        (fun b2 i _ hb2 => pushSplat_colours b2 _ _ _ _ _ _ _ _ (hrange c hg i) (hrange c hg i)
          (hrange c hg i) ⟨zero_le_one, le_refl _⟩ hb2)
    · simp at hmem

/-- C30, witness: the molecular cloud generated on the rational instance, at
the zoom level `1`. -/
theorem dark_lane_darken_valid_witness :
    ∃ c ∈ generateGalacticGas ratLibm ratRandom [] mixedGasConfig 42 800 150,
      c.type = GasType.MOLECULAR
        ∧ (∀ i : Nat, i < (numLayers nearZone).toNat →
            0 ≤ darkLaneDarken c (numLayers nearZone) i
              ∧ darkLaneDarken c (numLayers nearZone) i ≤ 1)
        ∧ darkLaneDarken c (numLayers nearZone) ((numLayers nearZone).toNat - 1) = 1 := by
  obtain ⟨c1, c2, c3, c4, c5, c6, e, t1, _, _, _⟩ := generateGalacticGas_mixed ratLibm 42 800 150
  have h1 : c1 ∈ generateGalacticGas ratLibm ratRandom [] mixedGasConfig 42 800 150 := by
    rw [e]; simp
  have h := (dark_lane_darken_valid ratLibm ratRandom [] mixedGasConfig 42 800 150 nearZone
    ratRandom_dist_range).1 c1 h1 t1
  exact ⟨c1, h1, t1, fun i hi => (h.2.2.2.2.2.1 i hi).2, h.2.2.2.2.2.2.2.2⟩

end GasRangeClaims

/-! ## Renderer: kept clouds and layout of the bins -/

section PassCountLemmas

set_option linter.unusedSectionVars false

variable {F : Type} [LinearOrderedField F] [FloorRing F] {G : Type}

/-- The number of positions divisible by `k` in a window of the positions of
a list, for a skip factor `k`. -/
theorem enumFrom_filter_length {α : Type} (k : Nat) (hk : k = 1 ∨ k = 2 ∨ k = 3 ∨ k = 4)
    (l : List α) (n : Nat) :
    ((l.enumFrom n).filter fun p => p.1 % k = 0).length
      = (n + l.length + k - 1) / k - (n + k - 1) / k := by
  induction l generalizing n with
  | nil =>
    simp
  | cons a l ih =>
    rw [List.enumFrom_cons, List.filter_cons]
    by_cases h : n % k = 0
    · simp only [h, decide_True, if_true, List.length_cons, ih]
      rcases hk with e | e | e | e <;> subst e <;> omega
    · simp only [h, decide_False, Bool.false_eq_true, if_false, List.length_cons, ih]
      rcases hk with e | e | e | e <;> subst e <;> omega

/-- The number of elements at the positions `0, k, 2k, ...` of a list of
length `n` is the ceiling of `n / k`. -/
theorem everyNth_length {α : Type} (k : Nat) (hk : k = 1 ∨ k = 2 ∨ k = 3 ∨ k = 4)
    (l : List α) :
    (everyNth k l).length = (l.length + k - 1) / k
      ∧ l.length ≤ k * (everyNth k l).length
      ∧ k * (everyNth k l).length < l.length + k := by
  have h : (everyNth k l).length = (l.length + k - 1) / k := by
    unfold everyNth List.enum
    rw [List.length_map, enumFrom_filter_length k hk l 0]
    rcases hk with e | e | e | e <;> subst e <;> omega
  rw [h]
  refine ⟨rfl, ?_, ?_⟩ <;> rcases hk with e | e | e | e <;> subst e <;> omega

/-- The skip factor is `1`, `2`, `3` or `4`. -/
theorem skipFactor_toNat_cases (zone : RenderZone F) :
    (skipFactor zone).toNat = 1 ∨ (skipFactor zone).toNat = 2 ∨ (skipFactor zone).toNat = 3
      ∨ (skipFactor zone).toNat = 4 := by
  rcases skipFactor_cases zone with h | h | h | h <;> rw [h] <;> simp

/-- A splat adds three vertex floats and four colour floats to its bin. -/
theorem pushSplat_layout (bins : SizeBins F) (sizeBin : Int) (x y z r g b a : F)
    (h : ∀ j, ∃ n, (bins.verticesBySize j).length = 3 * n
      ∧ (bins.colorsBySize j).length = 4 * n) :
    ∀ j, ∃ n, ((pushSplat bins sizeBin x y z r g b a).verticesBySize j).length = 3 * n
      ∧ ((pushSplat bins sizeBin x y z r g b a).colorsBySize j).length = 4 * n := by
  intro j
  obtain ⟨n, h1, h2⟩ := h j
  simp only [pushSplat]
  by_cases e : j = sizeBin.toNat
  · refine ⟨n + 1, ?_, ?_⟩
    · rw [if_pos e, List.length_append, h1]; simp; ring
    · rw [if_pos e, List.length_append, h2]; simp; ring
  · exact ⟨n, by rw [if_neg e, h1], by rw [if_neg e, h2]⟩

/-- Every draw of either pass holds three vertex floats and four colour
floats for each of its points. -/
theorem renderGalacticGas_layout (m : Libm F) (gasClouds : List (GasCloud F))
    (zone : RenderZone F) :
    ∀ d, d ∈ (renderGalacticGas m gasClouds zone).1 ∨ d ∈ (renderGalacticGas m gasClouds zone).2 →
      d.vertices.length = 3 * d.count ∧ d.colors.length = 4 * d.count := by
  have hbatch : ∀ (bins : SizeBins F) (d : DrawBatch F),
      (∀ j, ∃ n, (bins.verticesBySize j).length = 3 * n ∧ (bins.colorsBySize j).length = 4 * n) →
      d ∈ drawBins bins → d.vertices.length = 3 * d.count ∧ d.colors.length = 4 * d.count := by
    intro bins d hl hmem
    obtain ⟨b, _, _, _, hv, hc, hn⟩ := drawBins_mem bins d hmem
    obtain ⟨n, h1, h2⟩ := hl b
    rw [hv, hc, hn, h1, h2]
    simp
  have h0 : ∀ j, ∃ n, ((SizeBins.cleared : SizeBins F).verticesBySize j).length = 3 * n
      ∧ ((SizeBins.cleared : SizeBins F).colorsBySize j).length = 4 * n :=
    fun j => ⟨0, rfl, rfl⟩
  intro d hd
  rw [renderGalacticGas_eq] at hd
  simp only [] at hd
  rcases hd with hd | hd
  · split_ifs at hd
    · refine hbatch _ d ?_ hd
      refine foldl_invariant (fun bins : SizeBins F => ∀ j, ∃ n,
        (bins.verticesBySize j).length = 3 * n ∧ (bins.colorsBySize j).length = 4 * n)
        _ _ _ h0 ?_
      intro bins c _ hb
      exact darkLaneSplats_invariant (fun bins : SizeBins F => ∀ j, ∃ n,
        (bins.verticesBySize j).length = 3 * n ∧ (bins.colorsBySize j).length = 4 * n)
        c _ bins hb (fun b2 i _ hb2 => pushSplat_layout b2 _ _ _ _ _ _ _ _ hb2)
    · simp at hd
  · refine hbatch _ d ?_ hd
    refine foldl_invariant (fun bins : SizeBins F => ∀ j, ∃ n,
      (bins.verticesBySize j).length = 3 * n ∧ (bins.colorsBySize j).length = 4 * n)
      _ _ _ h0 ?_
    intro bins c _ hb
    exact emissiveSplats_invariant (fun bins : SizeBins F => ∀ j, ∃ n,
      (bins.verticesBySize j).length = 3 * n ∧ (bins.colorsBySize j).length = 4 * n)
      m c _ _ bins hb (fun b2 f i _ _ hb2 => pushSplat_layout b2 _ _ _ _ _ _ _ _ hb2)

end PassCountLemmas

/-! ## Renderer: counts of the passes, filaments -/

section PassCountClaims

set_option linter.unusedSectionVars false

variable {F : Type} [LinearOrderedField F] [FloorRing F] {G : Type}

/-- C27.  With `D` the number of dark-lane clouds of the buffer and `k` the
skip factor: the dark-lane pass keeps `⌈D / k⌉` clouds (the number `n` with
`D ≤ k n < D + k`), those at the positions `0, k, 2k, ...` of the dark-lane
list, and its draws count `⌈D / k⌉ * numLayers` splats when the zoom level is
at least `0.1`; below `0.1` it draws nothing.  The draws of the emissive pass
count `numFilaments * numLayersPerFilament` splats for each kept emissive
cloud (positions `0, k, 2k, ...` of the emissive list, less the `CORONAL`
clouds below the zoom level `0.001`).  Every draw holds `3` vertex floats and
`4` colour floats for each of its points, and the draws of the emissive pass are
those of bins filled, from empty, by the kept emissive clouds alone, none of
which has the dark-lane flag. -/
theorem render_pass_counts (m : Libm F) (gasClouds : List (GasCloud F))
    (zone : RenderZone F) :
    (keptDarkLane gasClouds zone).length
        = ((gasClouds.filter fun c => c.isDarkLane).length + (skipFactor zone).toNat - 1)
            / (skipFactor zone).toNat
      ∧ (gasClouds.filter fun c => c.isDarkLane).length
          ≤ (skipFactor zone).toNat * (keptDarkLane gasClouds zone).length
      ∧ (skipFactor zone).toNat * (keptDarkLane gasClouds zone).length
          < (gasClouds.filter fun c => c.isDarkLane).length + (skipFactor zone).toNat
      ∧ totalCount (renderGalacticGas m gasClouds zone).1
          = (if zone.zoomLevel ≥ 0.1
              then (keptDarkLane gasClouds zone).length * (numLayers zone).toNat else 0)
      ∧ (zone.zoomLevel < 0.1 → (renderGalacticGas m gasClouds zone).1 = [])
      ∧ totalCount (renderGalacticGas m gasClouds zone).2
          = (numFilaments zone).toNat * (numLayersPerFilament zone).toNat
              * (keptEmissive gasClouds zone).length
      ∧ (∀ d, d ∈ (renderGalacticGas m gasClouds zone).1
            ∨ d ∈ (renderGalacticGas m gasClouds zone).2 →
          d.vertices.length = 3 * d.count ∧ d.colors.length = 4 * d.count)
      ∧ (renderGalacticGas m gasClouds zone).2
          = drawBins ((keptEmissive gasClouds zone).foldl
              (fun bins c => emissiveSplats m c (numFilaments zone) (numLayersPerFilament zone)
                bins) SizeBins.cleared)
      ∧ (∀ c ∈ keptEmissive gasClouds zone, c ∈ gasClouds ∧ c.isDarkLane = false)
      ∧ (∀ c ∈ keptDarkLane gasClouds zone, c ∈ gasClouds ∧ c.isDarkLane = true) := by
  obtain ⟨e1, e2, e3⟩ := everyNth_length (skipFactor zone).toNat (skipFactor_toNat_cases zone)
    (gasClouds.filter fun c => c.isDarkLane)
  obtain ⟨_, _, t3, t4⟩ := renderGalacticGas_totals m gasClouds zone
  refine ⟨e1, e2, e3, ?_, ?_, t4, renderGalacticGas_layout m gasClouds zone, ?_,
    keptEmissive_mem gasClouds zone, keptDarkLane_mem gasClouds zone⟩
  · rw [t3]
    split_ifs
    · exact mul_comm _ _
    · rfl
  · intro hz
    rw [renderGalacticGas_eq]
    simp only []
    rw [if_neg (not_le.mpr hz)]
  · rw [renderGalacticGas_eq]

/-- C24, counterexample.  At the zoom level `0.0005` there are `2` filaments,
and for a cloud of smoothing length `50` their offsets are `-20` and `0`: the
offset `20` is missing and the offsets add up to `-20`. -/
theorem filament_offsets_lopsided :
    numFilaments farZone = 2
      ∧ (List.range (numFilaments farZone).toNat).map
          (filamentOffset haloCloud (numFilaments farZone)) = [-20, 0]
      ∧ (20 : ℚ) ∉ (List.range (numFilaments farZone).toNat).map
          (filamentOffset haloCloud (numFilaments farZone))
      ∧ ((List.range (numFilaments farZone).toNat).map
          (filamentOffset haloCloud (numFilaments farZone))).sum = -20 := by
  have h2 : numFilaments farZone = 2 := by
    unfold numFilaments farZone
    norm_num
  have hl : (List.range (numFilaments farZone).toNat).map
      (filamentOffset haloCloud (numFilaments farZone)) = [-20, 0] := by
    rw [h2]
    have : (2 : Int).toNat = 2 := rfl
    rw [this]
    simp only [List.range, List.range.loop, List.map]
    norm_num [filamentOffset, haloCloud]
  refine ⟨h2, hl, ?_, ?_⟩
  · rw [hl]; norm_num
  · rw [hl]; norm_num

/-- C24, as amended.  At a zoom level of at least `0.5` (`3` filaments) the
filament offsets of a cloud of smoothing length `h` are `-0.4 h, 0, 0.4 h`:
they add up to `0` and are closed under negation.  Below `0.5` (`2`
filaments) they are `-0.4 h, 0`, which add up to `-0.4 h`.  The copy of the
filament `f` is displaced by its offset times `(cos rotationAngle, 0,
sin rotationAngle)`, keeps `y`, and is weighted by `exp (-0.8 f²)`. -/
theorem filament_offsets (m : Libm F) (cloud : GasCloud F) (zone : RenderZone F)
    (bins : SizeBins F) :
    (¬ zone.zoomLevel < 0.5 →
        (List.range (numFilaments zone).toNat).map (filamentOffset cloud (numFilaments zone))
            = [-(0.4 * cloud.smoothingLength), 0, 0.4 * cloud.smoothingLength]
          ∧ ((List.range (numFilaments zone).toNat).map
              (filamentOffset cloud (numFilaments zone))).sum = 0
          ∧ ∀ o ∈ (List.range (numFilaments zone).toNat).map
              (filamentOffset cloud (numFilaments zone)),
              -o ∈ (List.range (numFilaments zone).toNat).map
                (filamentOffset cloud (numFilaments zone)))
      ∧ (zone.zoomLevel < 0.5 →
        (List.range (numFilaments zone).toNat).map (filamentOffset cloud (numFilaments zone))
            = [-(0.4 * cloud.smoothingLength), 0]
          ∧ ((List.range (numFilaments zone).toNat).map
              (filamentOffset cloud (numFilaments zone))).sum
              = -(0.4 * cloud.smoothingLength))
      ∧ (∀ f : Nat, filamentFalloff m f = m.exp (-(0.8 * (f : F) ^ 2)))
      ∧ emissiveSplats m cloud (numFilaments zone) (numLayersPerFilament zone) bins
          = (List.range (numFilaments zone).toNat).foldl
              (fun (bins : SizeBins F) (f : Nat) =>
                (List.range (numLayersPerFilament zone).toNat).foldl
                  (fun (bins : SizeBins F) (i : Nat) =>
                    pushSplat bins (sizeBinOf (emissiveSize cloud (numLayersPerFilament zone) i))
                      (cloud.x + filamentOffset cloud (numFilaments zone) f
                        * m.cos cloud.rotationAngle)
                      cloud.y
                      (cloud.z + filamentOffset cloud (numFilaments zone) f
                        * m.sin cloud.rotationAngle)
                      cloud.r cloud.g cloud.b
                      (cloud.alpha * 0.8
                        * m.exp (-layerParam (numLayersPerFilament zone) i
                            * layerParam (numLayersPerFilament zone) i * 2.5)
                        * filamentFalloff m f))
                  bins)
              bins := by
  have n04 : (0.4 : F) = 2 / 5 := by norm_num
  refine ⟨?_, ?_, ?_, ?_⟩
  · intro hz
    have h3 : numFilaments zone = 3 := by unfold numFilaments; rw [if_neg hz]
    have hl : (List.range (numFilaments zone).toNat).map
        (filamentOffset cloud (numFilaments zone))
        = [-(0.4 * cloud.smoothingLength), 0, 0.4 * cloud.smoothingLength] := by
      rw [h3]
      have : (3 : Int).toNat = 3 := rfl
      rw [this]
      simp only [List.range, List.range.loop, List.map]
      unfold filamentOffset
      norm_num
      try ring_nf
    rw [hl]
    refine ⟨rfl, by simp, ?_⟩
    intro o ho
    simp only [List.mem_cons, List.mem_singleton, List.not_mem_nil, or_false] at ho ⊢
    rcases ho with e | e | e <;> rw [e] <;> simp
  · intro hz
    have h2 : numFilaments zone = 2 := by unfold numFilaments; rw [if_pos hz]
    have hl : (List.range (numFilaments zone).toNat).map
        (filamentOffset cloud (numFilaments zone))
        = [-(0.4 * cloud.smoothingLength), 0] := by
      rw [h2]
      have : (2 : Int).toNat = 2 := rfl
      rw [this]
      simp only [List.range, List.range.loop, List.map]
      unfold filamentOffset
      norm_num
      try ring_nf
    rw [hl]
    exact ⟨rfl, by simp⟩
  · intro f
    unfold filamentFalloff
    congr 1
    push_cast
    ring
  · rw [emissiveSplats_eq]
    rfl

end PassCountClaims

/-! ## Star generator: the acceptance probability as a function of the radius -/

section AcceptLemmas

set_option linter.unusedSectionVars false

variable {F : Type} [LinearOrderedField F] [FloorRing F] {G : Type}

variable [TopologicalSpace F] [OrderTopology F]

/-- The blend of the arm proximity with the density boost: the acceptance
probability of the core band. -/
theorem acceptProbability_le_disk (m : Libm F) (config : GalaxyConfig F)
    (radius radiusNorm armProximity : F) (hd : 0 < config.diskRadius)
    (h : radius ≤ config.diskRadius) :
    acceptProbability m config radius radiusNorm armProximity
      = (if armProximity < 0.3
          then (1 + armProximity * config.armDensityBoost) / (1 + config.armDensityBoost) * 0.2
          else (1 + armProximity * config.armDensityBoost) / (1 + config.armDensityBoost))
        * min 1 (0.5 + 0.5 * ((config.diskRadius - radius) / (config.diskRadius * 0.15))) := by
  have n015 : (0.15 : F) = 3 / 20 := by norm_num
  have n085 : (0.85 : F) = 17 / 20 := by norm_num
  have n05 : (0.5 : F) = 1 / 2 := by norm_num
  have hpos : 0 < config.diskRadius * (3 / 20) := by linarith
  by_cases h2 : radius > config.diskRadius * 0.85
  · rw [acceptProbability_transition m config _ _ _ (not_lt.mpr h) h2]
    congr 1
    rw [min_eq_right]
    rw [n015, n05]
    rw [n085] at h2
    have : (config.diskRadius - radius) / (config.diskRadius * (3 / 20)) ≤ 1 := by
      rw [div_le_one hpos]; linarith
    linarith
  · rw [acceptProbability_core m config _ _ _ (by rw [mul_comm]; exact not_lt.mp h2) hd]
    rw [min_eq_left, mul_one]
    rw [n015, n05]
    rw [n085] at h2
    have : 1 ≤ (config.diskRadius - radius) / (config.diskRadius * (3 / 20)) := by
      rw [le_div_iff₀ hpos]; linarith [not_lt.mp h2]
    linarith

/-- The acceptance probability is continuous from the left on the disk. -/
theorem acceptProbability_continuousWithinAt (m : Libm F) (config : GalaxyConfig F)
    (armProximity : F) (hd : 0 < config.diskRadius) (r0 : F) (h0 : r0 ≤ config.diskRadius) :
    ContinuousWithinAt
      (fun r => acceptProbability m config r (r / config.diskRadius) armProximity)
      (Set.Iic config.diskRadius) r0 := by
  have hc : Continuous fun r : F =>
      (if armProximity < 0.3
          then (1 + armProximity * config.armDensityBoost) / (1 + config.armDensityBoost) * 0.2
          else (1 + armProximity * config.armDensityBoost) / (1 + config.armDensityBoost))
        * min 1 (0.5 + 0.5 * ((config.diskRadius - r) / (config.diskRadius * 0.15))) := by
    apply Continuous.mul continuous_const
    apply Continuous.min continuous_const
    apply Continuous.add continuous_const
    apply Continuous.mul continuous_const
    apply Continuous.div_const
    exact continuous_const.sub continuous_id
  refine (hc.continuousWithinAt).congr ?_ ?_
  · intro r hr
    exact acceptProbability_le_disk m config r _ armProximity hd hr
  · exact acceptProbability_le_disk m config r0 _ armProximity hd h0

/-- The acceptance probability is continuous at `0.85 * diskRadius`, where the
transition band starts. -/
theorem acceptProbability_continuousAt_core (m : Libm F) (config : GalaxyConfig F)
    (armProximity : F) (hd : 0 < config.diskRadius) :
    ContinuousAt (fun r => acceptProbability m config r (r / config.diskRadius) armProximity)
      (0.85 * config.diskRadius) := by
  have hlt : 0.85 * config.diskRadius < config.diskRadius := by
    have n085 : (0.85 : F) = 17 / 20 := by norm_num
    rw [n085]; linarith
  have h := acceptProbability_continuousWithinAt m config armProximity hd
    (0.85 * config.diskRadius) hlt.le
  exact h.continuousAt (Iic_mem_nhds hlt)

/-- The acceptance probability is continuous at `1.3 * diskRadius`, where the
quadratic penalty starts, when `exp` is continuous at `-2`. -/
theorem acceptProbability_continuousAt_penalty (m : Libm F) (config : GalaxyConfig F)
    (armProximity : F) (hd : 0 < config.diskRadius)
    (hE : ContinuousAt m.exp (-2)) :
    ContinuousAt (fun r => acceptProbability m config r (r / config.diskRadius) armProximity)
      (1.3 * config.diskRadius) := by
  have n13 : (1.3 : F) = 13 / 10 := by norm_num
  have n015 : (0.15 : F) = 3 / 20 := by norm_num
  have hlt : config.diskRadius < 1.3 * config.diskRadius := by rw [n13]; linarith
  have hne : config.diskRadius ≠ 0 := hd.ne'
  have hform : ∀ r : F, config.diskRadius < r →
      acceptProbability m config r (r / config.diskRadius) armProximity
        = m.exp (-(r - config.diskRadius) / (config.diskRadius * 0.15))
          * (min 1 (1.3 / (r / config.diskRadius)) * min 1 (1.3 / (r / config.diskRadius)))
          * 0.08 := by
    intro r hr
    rw [acceptProbability_outlier m config _ _ _ hr]
    have hq : 0 < r / config.diskRadius := div_pos (by linarith) hd
    congr 1
    split_ifs with c
    · have : 1.3 / (r / config.diskRadius) ≤ 1 := by
        rw [div_le_one hq]; exact c.le
      rw [min_eq_right this]
    · have : 1 ≤ 1.3 / (r / config.diskRadius) := by
        rw [le_div_iff₀ hq]; linarith [not_lt.mp c]
      rw [min_eq_left this, mul_one, mul_one]
  have hlin : -(1.3 * config.diskRadius - config.diskRadius) / (config.diskRadius * 0.15)
      = -2 := by
    rw [n13, n015]
    field_simp
    ring
  have hcE : ContinuousAt
      (fun r : F => m.exp (-(r - config.diskRadius) / (config.diskRadius * 0.15)))
      (1.3 * config.diskRadius) := by
    have hl : ContinuousAt
        (fun r : F => -(r - config.diskRadius) / (config.diskRadius * 0.15))
        (1.3 * config.diskRadius) :=
      (((continuous_id.sub continuous_const).neg).div_const _).continuousAt
    have hE2 : ContinuousAt m.exp
        ((fun r : F => -(r - config.diskRadius) / (config.diskRadius * 0.15))
          (1.3 * config.diskRadius)) := by
      simp only []
      rw [hlin]
      exact hE
    exact ContinuousAt.comp (f := fun r : F =>
      -(r - config.diskRadius) / (config.diskRadius * 0.15)) hE2 hl
  have hcP : ContinuousAt (fun r : F => min 1 (1.3 / (r / config.diskRadius)))
      (1.3 * config.diskRadius) := by
    have hq : ContinuousAt (fun r : F => 1.3 / (r / config.diskRadius))
        (1.3 * config.diskRadius) := by
      apply ContinuousAt.div continuousAt_const
      · exact (continuous_id.div_const _).continuousAt
      · have : (13 / 10 : F) * config.diskRadius / config.diskRadius = 13 / 10 := by
          field_simp
          ring
        rw [n13]
        show id ((13 / 10 : F) * config.diskRadius) / config.diskRadius ≠ 0
        rw [id, this]
        norm_num
    exact Filter.Tendsto.min (continuousAt_const (y := (1 : F))) hq
  have hc := ((hcE.mul (hcP.mul hcP)).mul
    (continuousAt_const (y := (0.08 : F)) (x := 1.3 * config.diskRadius)))
  refine hc.congr ?_
  have hev : ∀ᶠ r in nhds (1.3 * config.diskRadius), config.diskRadius < r :=
    Ioi_mem_nhds hlt
  exact hev.mono (fun r hr => (hform r hr).symm)

/-- A jump at the radius of the disk. -/
theorem acceptProbability_jump (m : Libm F) (config : GalaxyConfig F)
    (armProximity : F) (hd : 0 < config.diskRadius)
    (hexp : ∀ x : F, x ≤ 0 → 0 < m.exp x ∧ m.exp x ≤ 1)
    (hj : 0.08 < acceptProbability m config config.diskRadius
      (config.diskRadius / config.diskRadius) armProximity) :
    ¬ ContinuousAt (fun r => acceptProbability m config r (r / config.diskRadius) armProximity)
      config.diskRadius := by
  intro hc
  have hmem : Set.Ioi (0.08 : F) ∈ nhds (acceptProbability m config config.diskRadius
      (config.diskRadius / config.diskRadius) armProximity) := Ioi_mem_nhds hj
  have hpre := hc hmem
  rw [Filter.mem_map] at hpre
  obtain ⟨a, b, hab, hsub⟩ := mem_nhds_iff_exists_Ioo_subset.mp hpre
  have hb : config.diskRadius < b := hab.2
  have hmid : (config.diskRadius + b) / 2 ∈ Set.Ioo a b := by
    constructor
    · have := hab.1; linarith
    · linarith
  have hgt : config.diskRadius < (config.diskRadius + b) / 2 := by linarith
  have h1 := hsub hmid
  have h2 := (acceptProbability_outlier_range m config ((config.diskRadius + b) / 2)
    armProximity hexp hd hgt).2
  simp only [Set.mem_preimage, Set.mem_Ioi] at h1
  exact absurd h1 (not_lt.mpr h2)

/-- The stand-in `exp` of the positive rational instance takes values in
`(0, 1]` on arguments at most `0`. -/
theorem ratLibmPos_exp_range (x : ℚ) (hx : x ≤ 0) :
    0 < ratLibmPos.exp x ∧ ratLibmPos.exp x ≤ 1 := by
  simp only [ratLibmPos]
  rcases hx.lt_or_eq with c | c
  · rw [if_pos c]
    constructor
    · apply div_pos one_pos; linarith
    · rw [div_le_one (by linarith)]; linarith
  · rw [c]; norm_num

/-- The stand-in `exp` of the positive rational instance is continuous at `-2`. -/
theorem ratLibmPos_exp_continuousAt : ContinuousAt ratLibmPos.exp (-2) := by
  have hc : ContinuousAt (fun a : ℚ => 1 / (1 - a)) (-2) := by
    apply ContinuousAt.div continuousAt_const
    · exact (continuous_const.sub continuous_id).continuousAt
    · norm_num
  refine hc.congr ?_
  have hev : ∀ᶠ a in nhds (-2 : ℚ), a < 0 := Iio_mem_nhds (by norm_num)
  refine hev.mono (fun a ha => ?_)
  simp only [ratLibmPos, if_pos ha]

end AcceptLemmas

/-! ## Star generator: the radius bands -/

section AcceptClaims

set_option linter.unusedSectionVars false

variable {F : Type} [LinearOrderedField F] [FloorRing F] {G : Type}

variable [TopologicalSpace F] [OrderTopology F]

/-- C21, counterexample.  With `diskRadius = 800`, `armDensityBoost = 10` and
`armProximity = 1` the acceptance probability is `1/2` at the radius `800` and
at most `2/25` at every radius above `800`: as a function of the radius it is
not continuous at `radius = diskRadius`. -/
theorem acceptProbability_jump_at_diskRadius :
    acceptProbability ratLibmPos twoStarConfig 800 (800 / twoStarConfig.diskRadius) 1 = 1 / 2
      ∧ (∀ r : ℚ, 800 < r →
          acceptProbability ratLibmPos twoStarConfig r (r / twoStarConfig.diskRadius) 1
            ≤ 2 / 25)
      ∧ ¬ ContinuousAt
          (fun r => acceptProbability ratLibmPos twoStarConfig r
            (r / twoStarConfig.diskRadius) 1) 800 := by
  have hv : acceptProbability ratLibmPos twoStarConfig 800 (800 / twoStarConfig.diskRadius) 1
      = 1 / 2 := by
    norm_num [acceptProbability, twoStarConfig]
  refine ⟨hv, ?_, ?_⟩
  · intro r hr
    have h := (acceptProbability_outlier_range ratLibmPos twoStarConfig r 1
      ratLibmPos_exp_range (by norm_num [twoStarConfig]) hr).2
    have n : (0.08 : ℚ) = 2 / 25 := by norm_num
    rw [n] at h
    exact h
  · have h := acceptProbability_jump ratLibmPos twoStarConfig 1 (by norm_num [twoStarConfig])
      ratLibmPos_exp_range (by
        have e : acceptProbability ratLibmPos twoStarConfig twoStarConfig.diskRadius
            (twoStarConfig.diskRadius / twoStarConfig.diskRadius) 1 = 1 / 2 := by
          norm_num [acceptProbability, twoStarConfig]
        rw [e]; norm_num)
    exact h

/-- C21, as amended.  For `diskRadius > 0`, an `exp` with values in `(0, 1]` on
arguments at most `0` and continuous at `-2`: as a function of the radius the
acceptance probability is continuous at `0.85 * diskRadius` and at
`1.3 * diskRadius`, and continuous from the left at `diskRadius`, where its
value is `0.5 * armFactor * (1 + armProximity * armDensityBoost) /
(1 + armDensityBoost)` with `armFactor = 0.2` for `armProximity < 0.3` and `1`
otherwise.  Beyond `diskRadius` it is at most `0.08`, so it jumps at
`diskRadius` whenever its value there exceeds `0.08`. -/
theorem acceptProbability_bands (m : Libm F) (config : GalaxyConfig F) (armProximity : F)
    (hd : 0 < config.diskRadius)
    (hexp : ∀ x : F, x ≤ 0 → 0 < m.exp x ∧ m.exp x ≤ 1)
    (hE : ContinuousAt m.exp (-2)) :
    ContinuousAt (fun r => acceptProbability m config r (r / config.diskRadius) armProximity)
        (0.85 * config.diskRadius)
      ∧ ContinuousAt
          (fun r => acceptProbability m config r (r / config.diskRadius) armProximity)
          (1.3 * config.diskRadius)
      ∧ ContinuousWithinAt
          (fun r => acceptProbability m config r (r / config.diskRadius) armProximity)
          (Set.Iic config.diskRadius) config.diskRadius
      ∧ acceptProbability m config config.diskRadius (config.diskRadius / config.diskRadius)
            armProximity
          = 0.5 * ((if armProximity < 0.3 then 0.2 else 1)
              * ((1 + armProximity * config.armDensityBoost) / (1 + config.armDensityBoost)))
      ∧ (∀ r : F, config.diskRadius < r →
          acceptProbability m config r (r / config.diskRadius) armProximity ≤ 0.08)
      ∧ (0.08 < acceptProbability m config config.diskRadius
            (config.diskRadius / config.diskRadius) armProximity →
          ¬ ContinuousAt
            (fun r => acceptProbability m config r (r / config.diskRadius) armProximity)
            config.diskRadius) := by
  refine ⟨acceptProbability_continuousAt_core m config armProximity hd,
    acceptProbability_continuousAt_penalty m config armProximity hd hE,
    acceptProbability_continuousWithinAt m config armProximity hd _ (le_refl _), ?_,
    fun r hr => (acceptProbability_outlier_range m config r armProximity hexp hd hr).2,
    acceptProbability_jump m config armProximity hd hexp⟩
  rw [acceptProbability_le_disk m config _ _ _ hd (le_refl _)]
  have n05 : (0.5 : F) = 1 / 2 := by norm_num
  rw [sub_self, zero_div, mul_zero, add_zero, n05, min_eq_right (by norm_num)]
  split_ifs <;> ring

/-- C21, witness: the rational instance with `diskRadius = 800` and
`armProximity = 1`. -/
theorem acceptProbability_bands_witness :
    ContinuousAt
        (fun r => acceptProbability ratLibmPos twoStarConfig r
          (r / twoStarConfig.diskRadius) 1) (0.85 * twoStarConfig.diskRadius)
      ∧ ContinuousAt
        (fun r => acceptProbability ratLibmPos twoStarConfig r
          (r / twoStarConfig.diskRadius) 1) (1.3 * twoStarConfig.diskRadius) :=
  have h := acceptProbability_bands ratLibmPos twoStarConfig 1 (by norm_num [twoStarConfig])
    ratLibmPos_exp_range ratLibmPos_exp_continuousAt
  ⟨h.1, h.2.1⟩

end AcceptClaims

/-! ## Gas generator: lemmas on the spiral-arm and coronal clouds -/

section GasShapeLemmas

set_option linter.unusedSectionVars false

variable {F : Type} [LinearOrderedField F] [FloorRing F] {G : Type}

/-- The angle of a spiral-arm cloud whose scatter draw is `0.5` (no scatter),
when `atan2` inverts the polar coordinates up to whole turns. -/
theorem generateSpiralArmCloud_angle (m : Libm F) (rnd : Random F G) (cloud : GasCloud F)
    (rng : G) (numArms : Int) (spiralTightness armWidth diskRadius : F)
    (hat : ∀ ρ a : F, 0 < ρ → ∃ k : ℤ, m.atan2 (ρ * m.sin a) (ρ * m.cos a) = a + k * (2 * M_PI))
    (hs : (rnd.dist (rnd.dist (rnd.next rng).2).2).1 = 0.5)
    (hr : 0 < 100 + (rnd.dist (rnd.next rng).2).1 * (diskRadius * 0.8)) :
    ∃ k : ℤ,
      (generateSpiralArmCloud m rnd cloud rng numArms spiralTightness armWidth diskRadius).1.angle
        = ((((rnd.next rng).1 : Int) % numArms : Int) : F) * 2 * M_PI / (numArms : F)
          + spiralTightness
            * m.log ((100 + (rnd.dist (rnd.next rng).2).1 * (diskRadius * 0.8)) / 100)
          + k * (2 * M_PI) := by
  obtain ⟨k, hk⟩ := hat (100 + (rnd.dist (rnd.next rng).2).1 * (diskRadius * 0.8))
    (((((rnd.next rng).1 : Int) % numArms : Int) : F) * 2 * M_PI / (numArms : F)
      + spiralTightness
        * m.log ((100 + (rnd.dist (rnd.next rng).2).1 * (diskRadius * 0.8)) / 100)) hr
  refine ⟨k, ?_⟩
  rw [← hk]
  unfold generateSpiralArmCloud
  simp only [hs, sub_self, zero_mul, add_zero]

/-- On the flat rational instance `atan2` inverts the polar coordinates. -/
theorem ratLibmFlat_atan2 (ρ a : ℚ) (h : 0 < ρ) :
    ∃ k : ℤ, ratLibmFlat.atan2 (ρ * ratLibmFlat.sin a) (ρ * ratLibmFlat.cos a)
      = a + k * (2 * M_PI) := by
  refine ⟨0, ?_⟩
  simp only [ratLibmFlat, ratLibm, mul_one, if_neg h.ne']
  field_simp

/-- The position of a coronal cloud: spherical coordinates of the radius
`pow(dist(rng), 0.5f) * diskRadius * 2.5f`. -/
theorem coronalCloud_position (m : Libm F) (rnd : Random F G) (diskRadius : F) (rng : G) :
    (coronalCloud m rnd diskRadius rng).1.x
        = m.pow (rnd.dist (rnd.dist (rnd.dist rng).2).2).1 0.5 * diskRadius * 2.5
          * m.sin (m.acos (2 * (rnd.dist (rnd.dist rng).2).1 - 1))
          * m.cos ((rnd.dist rng).1 * 2 * M_PI)
      ∧ (coronalCloud m rnd diskRadius rng).1.y
        = m.pow (rnd.dist (rnd.dist (rnd.dist rng).2).2).1 0.5 * diskRadius * 2.5
          * m.sin (m.acos (2 * (rnd.dist (rnd.dist rng).2).1 - 1))
          * m.sin ((rnd.dist rng).1 * 2 * M_PI)
      ∧ (coronalCloud m rnd diskRadius rng).1.z
        = m.pow (rnd.dist (rnd.dist (rnd.dist rng).2).2).1 0.5 * diskRadius * 2.5
          * m.cos (m.acos (2 * (rnd.dist (rnd.dist rng).2).1 - 1))
      ∧ (coronalCloud m rnd diskRadius rng).1.type = GasType.CORONAL :=
  ⟨rfl, rfl, rfl, rfl⟩

/-- The squared distance to the centre of a coronal cloud. -/
theorem coronalCloud_norm (m : Libm F) (rnd : Random F G) (diskRadius : F) (rng : G)
    (hcs : ∀ a : F, m.cos a ^ 2 + m.sin a ^ 2 = 1) :
    (coronalCloud m rnd diskRadius rng).1.x ^ 2 + (coronalCloud m rnd diskRadius rng).1.y ^ 2
        + (coronalCloud m rnd diskRadius rng).1.z ^ 2
      = (m.pow (rnd.dist (rnd.dist (rnd.dist rng).2).2).1 0.5 * diskRadius * 2.5) ^ 2 := by
  obtain ⟨px, py, pz, _⟩ := coronalCloud_position m rnd diskRadius rng
  rw [px, py, pz]
  have c1 := hcs (m.acos (2 * (rnd.dist (rnd.dist rng).2).1 - 1))
  have c2 := hcs ((rnd.dist rng).1 * 2 * M_PI)
  generalize m.pow (rnd.dist (rnd.dist (rnd.dist rng).2).2).1 0.5 * diskRadius * 2.5 = R
  generalize m.cos (m.acos (2 * (rnd.dist (rnd.dist rng).2).1 - 1)) = cp at c1 ⊢
  generalize m.sin (m.acos (2 * (rnd.dist (rnd.dist rng).2).1 - 1)) = sp at c1 ⊢
  generalize m.cos ((rnd.dist rng).1 * 2 * M_PI) = ct at c2 ⊢
  generalize m.sin ((rnd.dist rng).1 * 2 * M_PI) = st at c2 ⊢
  linear_combination R ^ 2 * sp ^ 2 * c2 + R ^ 2 * c1

end GasShapeLemmas

/-! ## Gas generator: spiral arms and corona -/

section GasShapeClaims

set_option linter.unusedSectionVars false

variable {F : Type} [LinearOrderedField F] [FloorRing F] {G : Type}

/-- C22, as amended.  For a `MOLECULAR` or `WARM_IONIZED` cloud of
`generateSpiralArmCloud` with `numArms = 2` and `spiralTightness = 0.3`, on
the arm `k = next(rng) % 2` (`0` or `1`) at the radius
`r = 100 + dist(rng) * 0.8 * diskRadius` with the scatter draw `0.5` (zero
scatter offset), and an `atan2` that inverts the polar coordinates up to whole
turns: the angle of the cloud is congruent modulo `2π` to
`2π k / numArms + spiralTightness * ln(r / 100)`.  The arm offset is that of
the density field; the spiral term is not (it multiplies by the tightness
and takes the radius relative to `100`, not to `bulgeRadius`). -/
theorem spiral_arm_gas_angle (m : Libm F) (rnd : Random F G) (config : GasConfig F)
    (diskRadius bulgeRadius : F) (rng : G)
    (hat : ∀ ρ a : F, 0 < ρ → ∃ k : ℤ, m.atan2 (ρ * m.sin a) (ρ * m.cos a) = a + k * (2 * M_PI))
    (hs : (rnd.dist (rnd.dist (rnd.next rng).2).2).1 = 0.5)
    (hr : 0 < 100 + (rnd.dist (rnd.next rng).2).1 * (diskRadius * 0.8)) :
    (0 ≤ ((rnd.next rng).1 : Int) % 2 ∧ ((rnd.next rng).1 : Int) % 2 < 2)
      ∧ (∃ k : ℤ,
          (molecularCloud m rnd config 2 0.3 60 diskRadius bulgeRadius rng).1.angle
            = ((((rnd.next rng).1 : Int) % 2 : Int) : F) * 2 * M_PI / ((2 : Int) : F)
              + 0.3 * m.log ((100 + (rnd.dist (rnd.next rng).2).1 * (diskRadius * 0.8)) / 100)
              + k * (2 * M_PI))
      ∧ (∃ k : ℤ,
          (warmIonizedCloud m rnd config 2 0.3 60 diskRadius bulgeRadius rng).1.angle
            = ((((rnd.next rng).1 : Int) % 2 : Int) : F) * 2 * M_PI / ((2 : Int) : F)
              + 0.3 * m.log ((100 + (rnd.dist (rnd.next rng).2).1 * (diskRadius * 0.8)) / 100)
              + k * (2 * M_PI)) := by
  refine ⟨⟨Int.emod_nonneg _ (by decide), Int.emod_lt_of_pos _ (by decide)⟩, ?_, ?_⟩
  · exact generateSpiralArmCloud_angle m rnd _ rng 2 0.3 60 diskRadius hat hs hr
  · exact generateSpiralArmCloud_angle m rnd _ rng 2 0.3 (60 * 0.8) diskRadius hat hs hr

/-- C22, witness: the first molecular cloud of a scripted run on the flat
rational instance, on the arm `0` at the radius `100`. -/
theorem spiral_arm_gas_angle_witness :
    ∃ k : ℤ,
      (molecularCloud ratLibmFlat (scriptedRandom [0, 1 / 2] []) mixedGasConfig 2 0.3 60 800 150
          (0, 0)).1.angle
        = 0 + 0.3 * ratLibmFlat.log (100 / 100) + k * (2 * M_PI) := by
  have h := (spiral_arm_gas_angle ratLibmFlat (scriptedRandom [0, 1 / 2] []) mixedGasConfig
    800 150 (0, 0) ratLibmFlat_atan2 (by norm_num [scriptedRandom])
    (by norm_num [scriptedRandom])).2.1
  obtain ⟨k, hk⟩ := h
  refine ⟨k, ?_⟩
  rw [hk]
  norm_num [scriptedRandom]

/-- C22, counterexample.  The first cloud of a scripted run of
`generateGalacticGas` (`diskRadius = 800`, `bulgeRadius = 150`) is a molecular
cloud on the arm `0` with zero scatter at `x = 100`, `z = 0`: its angle is `0`,
while the density field has `spiralTheta 100 0 = ln(100/150)/0.3 = -10/9` on
the same instance, and `0` is not congruent to `-10/9` modulo `2π`. -/
theorem spiral_arm_gas_off_density_arm :
    (∃ rest, generateGalacticGas ratLibmFlat (scriptedRandom [0, 1 / 2] []) [] mixedGasConfig
        42 800 150
      = (molecularCloud ratLibmFlat (scriptedRandom [0, 1 / 2] []) mixedGasConfig 2 0.3 60
          800 150 (0, 0)).1 :: rest)
      ∧ (molecularCloud ratLibmFlat (scriptedRandom [0, 1 / 2] []) mixedGasConfig 2 0.3 60
          800 150 (0, 0)).1.x = 100
      ∧ (molecularCloud ratLibmFlat (scriptedRandom [0, 1 / 2] []) mixedGasConfig 2 0.3 60
          800 150 (0, 0)).1.z = 0
      ∧ (molecularCloud ratLibmFlat (scriptedRandom [0, 1 / 2] []) mixedGasConfig 2 0.3 60
          800 150 (0, 0)).1.angle = 0
      ∧ spiralTheta ratLibmFlat twoStarConfig 100 0 = -10 / 9
      ∧ ¬ ∃ k : ℤ,
          (molecularCloud ratLibmFlat (scriptedRandom [0, 1 / 2] []) mixedGasConfig 2 0.3 60
            800 150 (0, 0)).1.angle
          = spiralTheta ratLibmFlat twoStarConfig 100 0 + k * (2 * M_PI) := by
  have hx : (molecularCloud ratLibmFlat (scriptedRandom [0, 1 / 2] []) mixedGasConfig 2 0.3 60
      800 150 (0, 0)).1.x = 100 := by
    have e : (molecularCloud ratLibmFlat (scriptedRandom [0, 1 / 2] [])
        mixedGasConfig 2 0.3 60 800 150 (0, 0)).1.x
        = (generateSpiralArmCloud ratLibmFlat (scriptedRandom [0, 1 / 2] []) GasCloud.declared
          (0, 0) 2 0.3 60 800).1.x := rfl
    rw [e]
    unfold generateSpiralArmCloud
    norm_num [scriptedRandom, ratLibmFlat, ratLibm]
  have hz : (molecularCloud ratLibmFlat (scriptedRandom [0, 1 / 2] []) mixedGasConfig 2 0.3 60
      800 150 (0, 0)).1.z = 0 := by
    have e : (molecularCloud ratLibmFlat (scriptedRandom [0, 1 / 2] [])
        mixedGasConfig 2 0.3 60 800 150 (0, 0)).1.z
        = (generateSpiralArmCloud ratLibmFlat (scriptedRandom [0, 1 / 2] []) GasCloud.declared
          (0, 0) 2 0.3 60 800).1.z := rfl
    rw [e]
    unfold generateSpiralArmCloud
    norm_num [scriptedRandom, ratLibmFlat, ratLibm]
  have ha : (molecularCloud ratLibmFlat (scriptedRandom [0, 1 / 2] []) mixedGasConfig 2 0.3 60
      800 150 (0, 0)).1.angle = 0 := by
    have e : (molecularCloud ratLibmFlat (scriptedRandom [0, 1 / 2] []) mixedGasConfig 2 0.3 60
        800 150 (0, 0)).1.angle
        = ratLibmFlat.atan2
          (molecularCloud ratLibmFlat (scriptedRandom [0, 1 / 2] []) mixedGasConfig 2 0.3 60
            800 150 (0, 0)).1.z
          (molecularCloud ratLibmFlat (scriptedRandom [0, 1 / 2] []) mixedGasConfig 2 0.3 60
            800 150 (0, 0)).1.x := rfl
    rw [e, hx, hz]
    norm_num [ratLibmFlat, ratLibm]
  have ht : spiralTheta ratLibmFlat twoStarConfig 100 0 = -10 / 9 := by
    norm_num [spiralTheta, ratLibmFlat, ratLibm, twoStarConfig]
  refine ⟨⟨_, rfl⟩, hx, hz, ha, ht, ?_⟩
  rintro ⟨k, hk⟩
  rw [ha, ht] at hk
  have hpi : (3 : ℚ) < M_PI := by unfold M_PI; norm_num
  rcases le_or_lt k 0 with c | c
  · have : (k : ℚ) ≤ 0 := by exact_mod_cast c
    nlinarith
  · have : (1 : ℚ) ≤ (k : ℚ) := by exact_mod_cast c
    nlinarith

/-- C23, as amended.  For a `cos` and `sin` with `cos² + sin² = 1`: a coronal
cloud whose radius draw is `u` has `x² + y² + z² = (Rmax * pow(u, 0.5))²` with
`Rmax = 2.5 * diskRadius` (square-root radius scaling); when `pow(u, 0.5)` is
the non-negative square root of `u` and `diskRadius > 0`, the cloud lies within
the radius `ρ ≥ 0` exactly when `u ≤ (ρ / Rmax)²`, so that the fraction of
clouds within `ρ` is `(ρ / Rmax)²`; and every `CORONAL` cloud of the buffer that
`generateGalacticGas` returns has `x² + y² + z² = (Rmax * pow(u, 0.5))²` for a
uniform draw `u`. -/
theorem coronal_radius_square_root (m : Libm F) (rnd : Random F G)
    (prior : List (GasCloud F)) (config : GasConfig F) (seed : Nat) (diskRadius bulgeRadius : F)
    (rng : G) (hcs : ∀ a : F, m.cos a ^ 2 + m.sin a ^ 2 = 1) :
    (coronalCloud m rnd diskRadius rng).1.x ^ 2 + (coronalCloud m rnd diskRadius rng).1.y ^ 2
          + (coronalCloud m rnd diskRadius rng).1.z ^ 2
        = (2.5 * diskRadius * m.pow (rnd.dist (rnd.dist (rnd.dist rng).2).2).1 0.5) ^ 2
      ∧ (0 < diskRadius → 0 ≤ m.pow (rnd.dist (rnd.dist (rnd.dist rng).2).2).1 0.5 →
          m.pow (rnd.dist (rnd.dist (rnd.dist rng).2).2).1 0.5 ^ 2
            = (rnd.dist (rnd.dist (rnd.dist rng).2).2).1 →
          ∀ ρ : F, 0 ≤ ρ →
            (2.5 * diskRadius * m.pow (rnd.dist (rnd.dist (rnd.dist rng).2).2).1 0.5 ≤ ρ
              ↔ (rnd.dist (rnd.dist (rnd.dist rng).2).2).1 ≤ (ρ / (2.5 * diskRadius)) ^ 2))
      ∧ (∀ c ∈ generateGalacticGas m rnd prior config seed diskRadius bulgeRadius,
          c.type = GasType.CORONAL →
          ∃ g : G, c.x ^ 2 + c.y ^ 2 + c.z ^ 2
            = (2.5 * diskRadius * m.pow (rnd.dist g).1 0.5) ^ 2) := by
  refine ⟨?_, ?_, ?_⟩
  · rw [coronalCloud_norm m rnd diskRadius rng hcs]
    ring
  · intro hd hp0 hp2 ρ hρ
    generalize m.pow (rnd.dist (rnd.dist (rnd.dist rng).2).2).1 0.5 = p at hp0 hp2 ⊢
    rw [← hp2]
    have n25 : (2.5 : F) = 5 / 2 := by norm_num
    rw [n25]
    have hR : 0 < 5 / 2 * diskRadius := by linarith
    have hq : 0 ≤ ρ / (5 / 2 * diskRadius) := div_nonneg hρ hR.le
    constructor
    · intro h
      have : p ≤ ρ / (5 / 2 * diskRadius) := by
        rw [le_div_iff₀ hR]; linarith
      exact pow_le_pow_left₀ hp0 this 2
    · intro h
      have : p ≤ ρ / (5 / 2 * diskRadius) := by
        by_contra hc
        have := pow_lt_pow_left₀ (not_le.mp hc) hq (by norm_num : (2 : ℕ) ≠ 0)
        linarith
      rw [le_div_iff₀ hR] at this
      linarith
  · obtain ⟨b1, b2, b3, b4, b5, b6, e, _, p1, _, p2, _, p3, _, p4, _, p5, _, p6⟩ :=
      generateGalacticGas_decomp m rnd prior config seed diskRadius bulgeRadius
        (fun c => c.type = GasType.MOLECULAR) (fun c => c.type = GasType.COLD_NEUTRAL)
        (fun c => c.type = GasType.WARM_NEUTRAL) (fun c => c.type = GasType.WARM_IONIZED)
        (fun c => c.type = GasType.HOT_IONIZED)
        (fun c => ∃ g : G, c.x ^ 2 + c.y ^ 2 + c.z ^ 2
          = (2.5 * diskRadius * m.pow (rnd.dist g).1 0.5) ^ 2)
        (fun _ => rfl) (fun _ => rfl) (fun _ => rfl) (fun _ => rfl) (fun _ => rfl)
        (fun g => ⟨_, by rw [coronalCloud_norm m rnd diskRadius g hcs]; ring⟩)
    intro c hc ht
    rw [e] at hc
    simp only [List.mem_append] at hc
    rcases hc with ((((hc | hc) | hc) | hc) | hc) | hc
    · have := p1 c hc; rw [ht] at this; exact absurd this (by decide)
    · have := p2 c hc; rw [ht] at this; exact absurd this (by decide)
    · have := p3 c hc; rw [ht] at this; exact absurd this (by decide)
    · have := p4 c hc; rw [ht] at this; exact absurd this (by decide)
    · have := p5 c hc; rw [ht] at this; exact absurd this (by decide)
    · exact p6 c hc

/-- C23, witness: the coronal cloud of the radius draw `1/64` for
`diskRadius = 800` lies at the distance `250 = 2000 * (1/64)^(1/2)`. -/
theorem coronal_radius_square_root_witness :
    (coronalCloud ratLibmRoot (scriptedRandom [0, 1 / 2, 1 / 64] []) 800 (0, 0)).1.x ^ 2
        + (coronalCloud ratLibmRoot (scriptedRandom [0, 1 / 2, 1 / 64] []) 800 (0, 0)).1.y ^ 2
        + (coronalCloud ratLibmRoot (scriptedRandom [0, 1 / 2, 1 / 64] []) 800 (0, 0)).1.z ^ 2
      = 250 ^ 2 := by
  have h := (coronal_radius_square_root ratLibmRoot (scriptedRandom [0, 1 / 2, 1 / 64] []) []
    coronalOnlyConfig 42 800 150 (0, 0) ratLibm_cos_sq_add_sin_sq).1
  rw [h]
  norm_num [scriptedRandom, ratLibmRoot]

/-- C23, counterexample.  The first cloud of a scripted run of
`generateGalacticGas` with coronal clouds only, `diskRadius = 800` and the
radius draw `u = 1/64`, lies at `(200, 0, 150)`: its squared distance to the
centre is `250²`, not `(2.5 * 800 * u^(1/3))² = 500²`. -/
theorem coronal_radius_not_cube_root :
    (∃ rest, generateGalacticGas ratLibmRoot (scriptedRandom [0, 1 / 2, 1 / 64] []) []
        coronalOnlyConfig 42 800 150
      = (coronalCloud ratLibmRoot (scriptedRandom [0, 1 / 2, 1 / 64] []) 800 (0, 0)).1 :: rest)
      ∧ ratLibmRoot.pow (1 / 64) (1 / 3) = 1 / 4
      ∧ (coronalCloud ratLibmRoot (scriptedRandom [0, 1 / 2, 1 / 64] []) 800 (0, 0)).1.x = 200
      ∧ (coronalCloud ratLibmRoot (scriptedRandom [0, 1 / 2, 1 / 64] []) 800 (0, 0)).1.y = 0
      ∧ (coronalCloud ratLibmRoot (scriptedRandom [0, 1 / 2, 1 / 64] []) 800 (0, 0)).1.z = 150
      ∧ (coronalCloud ratLibmRoot (scriptedRandom [0, 1 / 2, 1 / 64] []) 800 (0, 0)).1.x ^ 2
          + (coronalCloud ratLibmRoot (scriptedRandom [0, 1 / 2, 1 / 64] []) 800 (0, 0)).1.y ^ 2
          + (coronalCloud ratLibmRoot (scriptedRandom [0, 1 / 2, 1 / 64] []) 800 (0, 0)).1.z ^ 2
        ≠ (2.5 * 800 * ratLibmRoot.pow (1 / 64) (1 / 3)) ^ 2 := by
  obtain ⟨px, py, pz, _⟩ := coronalCloud_position ratLibmRoot
    (scriptedRandom [0, 1 / 2, 1 / 64] []) 800 (0, 0)
  have hp : ratLibmRoot.pow (1 / 64) (1 / 3) = 1 / 4 := by norm_num [ratLibmRoot]
  have hx : (coronalCloud ratLibmRoot (scriptedRandom [0, 1 / 2, 1 / 64] []) 800 (0, 0)).1.x
      = 200 := by
    rw [px]; norm_num [scriptedRandom, ratLibmRoot, ratLibm]
  have hy : (coronalCloud ratLibmRoot (scriptedRandom [0, 1 / 2, 1 / 64] []) 800 (0, 0)).1.y
      = 0 := by
    rw [py]; norm_num [scriptedRandom, ratLibmRoot, ratLibm]
  have hz : (coronalCloud ratLibmRoot (scriptedRandom [0, 1 / 2, 1 / 64] []) 800 (0, 0)).1.z
      = 150 := by
    rw [pz]; norm_num [scriptedRandom, ratLibmRoot, ratLibm]
  refine ⟨⟨_, rfl⟩, hp, hx, hy, hz, ?_⟩
  rw [hx, hy, hz, hp]
  norm_num

end GasShapeClaims

/-! ## Star generator: position, radius and angle at creation -/

section OrbitLemmas

set_option linter.unusedSectionVars false

variable {F : Type} [LinearOrderedField F] [FloorRing F] {G : Type}

/-- The position in the plane of an accepted disk candidate. -/
theorem diskStar_xz (m : Libm F) (rnd : Random F G) (config : GalaxyConfig F)
    (star0 : Star F) (rng : G) (star : Star F) (rng2 : G)
    (h : diskStar m rnd config star0 rng = (some star, rng2)) :
    star.x = (star.radius + diskScatter rnd config star.radius
          (rnd.dist (rnd.dist (diskCandidateRadius m rnd config rng).2).2).2)
        * m.cos star.angle
      ∧ star.z = (star.radius + diskScatter rnd config star.radius
          (rnd.dist (rnd.dist (diskCandidateRadius m rnd config rng).2).2).2)
        * m.sin star.angle := by
  unfold diskStar at h
  unfold diskCandidateRadius diskScatter
  simp only [] at h ⊢
  generalize (if (sampleExponentialDiskRadius m rnd (config.diskRadius * 0.25) rng).1
      > config.diskRadius * 2 then config.diskRadius * 2
    else (sampleExponentialDiskRadius m rnd (config.diskRadius * 0.25) rng).1) = R at h ⊢
  generalize (if R / config.diskRadius > 1 then 1 else R / config.diskRadius) = ef at h ⊢
  split_ifs at h with hacc
  · simp only [Prod.mk.injEq, reduceCtorEq, false_and] at h
  · simp only [Prod.mk.injEq, Option.some.injEq] at h
    obtain ⟨hs, _⟩ := h
    subst hs
    constructor
    · show _ = (R + _) * _
      ring
    · show _ = (R + _) * _
      ring

/-- A tick with `deltaTime = 0` of a star whose angle is in `[0, 2π]`. -/
theorem updateStar_zero_of_mem (m : Libm F) (s : Star F)
    (h0 : 0 ≤ s.angle) (h1 : s.angle ≤ 2 * M_PI) :
    updateStar m s 0
      = { s with x := s.radius * m.cos s.angle, z := s.radius * m.sin s.angle } := by
  unfold updateStar
  simp only [mul_zero, add_zero, subWhileAbove_of_le h1, addWhileBelow_of_le h0]

/-- A bulge star stores the polar coordinates of its position in the plane. -/
theorem bulgeStar_orbit (m : Libm F) (rnd : Random F G) (config : GalaxyConfig F)
    (star : Star F) (rng : G) :
    (bulgeStar m rnd config star rng).1.radius
        = m.sqrt ((bulgeStar m rnd config star rng).1.x * (bulgeStar m rnd config star rng).1.x
            + (bulgeStar m rnd config star rng).1.z * (bulgeStar m rnd config star rng).1.z)
      ∧ (bulgeStar m rnd config star rng).1.angle
        = m.atan2 (bulgeStar m rnd config star rng).1.z (bulgeStar m rnd config star rng).1.x :=
  ⟨rfl, rfl⟩

/-- The shape of an accepted candidate at creation. -/
theorem starCandidate_shape (m : Libm F) (rnd : Random F G) (config : GalaxyConfig F)
    (rng : G) (star : Star F) (rng2 : G)
    (hd : ∀ g : G, 0 ≤ (rnd.dist g).1 ∧ (rnd.dist g).1 < 1)
    (hc : starCandidate m rnd config rng = (some star, rng2)) :
    ((rnd.dist rng).1 < 0.15 →
        star.radius = m.sqrt (star.x * star.x + star.z * star.z)
          ∧ star.angle = m.atan2 star.z star.x)
      ∧ (¬ (rnd.dist rng).1 < 0.15 →
        star.x = (star.radius + diskScatter rnd config star.radius
              (rnd.dist (rnd.dist (diskCandidateRadius m rnd config (rnd.dist rng).2).2).2).2)
            * m.cos star.angle
          ∧ star.z = (star.radius + diskScatter rnd config star.radius
              (rnd.dist (rnd.dist (diskCandidateRadius m rnd config (rnd.dist rng).2).2).2).2)
            * m.sin star.angle
          ∧ star.radius = (diskCandidateRadius m rnd config (rnd.dist rng).2).1
          ∧ star.angle
              = (rnd.dist (diskCandidateRadius m rnd config (rnd.dist rng).2).2).1 * 2 * M_PI
          ∧ 0 ≤ star.angle ∧ star.angle < 2 * M_PI) := by
  rcases starCandidate_some m rnd config rng star rng2 hc with ⟨hin, e⟩ | ⟨hn, s0, g0, hds, e⟩
  · refine ⟨fun _ => ?_, fun hn => absurd hin hn⟩
    obtain ⟨px, _, pz, pr, pa, _⟩ := typeAndBrightness_position m rnd config
      (bulgeStar m rnd config Star.declared (rnd.dist rng).2).1
      (bulgeStar m rnd config Star.declared (rnd.dist rng).2).2
    obtain ⟨br, ba⟩ := bulgeStar_orbit m rnd config Star.declared (rnd.dist rng).2
    rw [← e] at px pz pr pa
    rw [pr, pa, px, pz]
    exact ⟨br, ba⟩
  · refine ⟨fun hin => absurd hin hn, fun _ => ?_⟩
    obtain ⟨px, _, pz, pr, pa, _⟩ := typeAndBrightness_position m rnd config s0 g0
    obtain ⟨hx, hz⟩ := diskStar_xz m rnd config Star.declared _ s0 g0 hds
    obtain ⟨_, f1, f2, _, _, _⟩ := diskStar_some m rnd config Star.declared _ s0 g0 hds
    rw [← e] at px pz pr pa
    rw [pr, pa, px, pz]
    refine ⟨hx, hz, f1, f2, ?_, ?_⟩
    · rw [f2]
      have := (hd (diskCandidateRadius m rnd config (rnd.dist rng).2).2).1
      have hp : (0 : F) < M_PI := M_PI_pos
      positivity
    · rw [f2]
      have := (hd (diskCandidateRadius m rnd config (rnd.dist rng).2).2).2
      have hp : (0 : F) < M_PI := M_PI_pos
      nlinarith

/-- The uniform draws of a script with entries in `[0, 1)` lie in `[0, 1)`. -/
theorem scriptedRandom_dist_range (uniforms normals : List ℚ)
    (h : ∀ u ∈ uniforms, 0 ≤ u ∧ u < 1) (g : Nat × Nat) :
    0 ≤ ((scriptedRandom uniforms normals).dist g).1
      ∧ ((scriptedRandom uniforms normals).dist g).1 < 1 := by
  simp only [scriptedRandom]
  rcases lt_or_le g.1 uniforms.length with c | c
  · rw [List.getD_eq_getElem _ _ c]
    exact h _ (List.getElem_mem _)
  · rw [List.getD_eq_default _ _ c]
    norm_num

/-- The scripted run of one disk star with the noise draw `1`. -/
theorem generateStarField_noisy :
    ∃ s, generateStarField ratLibm (scriptedRandom [1 / 2, 1 / 2, 0, 0] [1, 0, 0]) 1 []
          oneStarConfig = some [s]
      ∧ starCandidate ratLibm (scriptedRandom [1 / 2, 1 / 2, 0, 0] [1, 0, 0]) oneStarConfig
          (0, 0) = (some s, (6, 3))
      ∧ s.angle = 0
      ∧ 5 < s.x - s.radius * ratLibm.cos s.angle := by
  obtain ⟨s, h1, h2, h3, _, _⟩ := generateStarField_scripted (1 / 2) 0
    (375000007499999850000001 / 1249999999999999500000) [1, 0, 0] newtonLoop_half
    (by norm_num)
  have hd : ∀ g, 0 ≤ ((scriptedRandom [1 / 2, 1 / 2, 0, 0] [1, 0, 0]).dist g).1
      ∧ ((scriptedRandom [1 / 2, 1 / 2, 0, 0] [1, 0, 0]).dist g).1 < 1 :=
    scriptedRandom_dist_range _ _ (by
      intro u hu
      simp only [List.mem_cons, List.mem_singleton, List.not_mem_nil, or_false] at hu
      rcases hu with e | e | e | e <;> rw [e] <;> norm_num)
  obtain ⟨hx, _, hr, ha, _, _⟩ := (starCandidate_shape ratLibm _ oneStarConfig (0, 0) s (6, 3)
    hd h2).2 (by norm_num [scriptedRandom])
  have hR := diskCandidateRadius_scripted (1 / 2)
    (375000007499999850000001 / 1249999999999999500000) [0, 0] [1, 0, 0] (1 / 2)
    newtonLoop_half (by norm_num)
  have hg : ((scriptedRandom [1 / 2, 1 / 2, 0, 0] [1, 0, 0]).dist (0, 0)).2 = (1, 0) := rfl
  rw [hg, hR] at hx ha
  have ha0 : s.angle = 0 := by
    rw [ha]; norm_num [scriptedRandom]
  refine ⟨s, h1, h2, ha0, ?_⟩
  rw [hx, ha0, h3]
  norm_num [diskScatter, scriptedRandom, ratLibm, oneStarConfig]

end OrbitLemmas

/-! ## Star generator: the orbital invariant at creation -/

section OrbitClaims

set_option linter.unusedSectionVars false

variable {F : Type} [LinearOrderedField F] [FloorRing F] {G : Type}

/-- C28, as amended.  For uniform draws in `[0, 1)` and a candidate that
`starCandidate` (the body of the loop of `generateStarField`) accepts.  A
bulge star stores `radius = sqrt(x² + z²)` and `angle = atan2(z, x)`; when
`sqrt`, `atan2`, `cos` and `sin` satisfy the polar identities it has
`x = radius * cos(angle)` and `z = radius * sin(angle)`, and a tick with
`deltaTime = 0` leaves it unchanged when its angle is in `[0, 2π]`.  A disk
star has `x = (radius + s) * cos(angle)` and `z = (radius + s) * sin(angle)`
with `s = noise * 0.3 + radialScatter` and an angle in `[0, 2π)`; a tick with
`deltaTime = 0` moves it to `(radius * cos(angle), y, radius * sin(angle))`,
which is its position exactly when `s * cos(angle) = 0` and
`s * sin(angle) = 0`. -/
theorem star_creation_orbit (m : Libm F) (rnd : Random F G) (config : GalaxyConfig F)
    (rng : G) (star : Star F) (rng2 : G)
    (hd : ∀ g : G, 0 ≤ (rnd.dist g).1 ∧ (rnd.dist g).1 < 1)
    (hc : starCandidate m rnd config rng = (some star, rng2)) :
    ((rnd.dist rng).1 < 0.15 →
        star.radius = m.sqrt (star.x * star.x + star.z * star.z)
          ∧ star.angle = m.atan2 star.z star.x
          ∧ ((∀ x z : F, m.sqrt (x * x + z * z) * m.cos (m.atan2 z x) = x
                ∧ m.sqrt (x * x + z * z) * m.sin (m.atan2 z x) = z) →
              star.x = star.radius * m.cos star.angle
                ∧ star.z = star.radius * m.sin star.angle
                ∧ (0 ≤ star.angle → star.angle ≤ 2 * M_PI → updateStar m star 0 = star)))
      ∧ (¬ (rnd.dist rng).1 < 0.15 →
        ∃ g : G,
          star.x = (star.radius + diskScatter rnd config star.radius g) * m.cos star.angle
            ∧ star.z = (star.radius + diskScatter rnd config star.radius g) * m.sin star.angle
            ∧ 0 ≤ star.angle ∧ star.angle < 2 * M_PI
            ∧ updateStar m star 0
                = { star with x := star.radius * m.cos star.angle,
                              z := star.radius * m.sin star.angle }
            ∧ (updateStar m star 0 = star ↔
                diskScatter rnd config star.radius g * m.cos star.angle = 0
                  ∧ diskScatter rnd config star.radius g * m.sin star.angle = 0)) := by
  obtain ⟨hb, hdisk⟩ := starCandidate_shape m rnd config rng star rng2 hd hc
  constructor
  · intro hin
    obtain ⟨hr, ha⟩ := hb hin
    refine ⟨hr, ha, fun hpolar => ?_⟩
    obtain ⟨p1, p2⟩ := hpolar star.x star.z
    rw [← hr, ← ha] at p1 p2
    refine ⟨p1.symm, p2.symm, fun h0 h1 => ?_⟩
    rw [updateStar_zero_of_mem m star h0 h1, p1, p2]
  · intro hn
    obtain ⟨hx, hz, _, _, a0, a1⟩ := hdisk hn
    refine ⟨_, hx, hz, a0, a1, updateStar_zero_of_mem m star a0 a1.le, ?_⟩
    rw [updateStar_zero_of_mem m star a0 a1.le]
    generalize diskScatter rnd config star.radius
      (rnd.dist (rnd.dist (diskCandidateRadius m rnd config (rnd.dist rng).2).2).2).2 = δ
      at hx hz ⊢
    constructor
    · intro h
      have ex := congrArg Star.x h
      have ez := congrArg Star.z h
      simp only [] at ex ez
      rw [hx] at ex
      rw [hz] at ez
      constructor
      · linear_combination -ex
      · linear_combination -ez
    · rintro ⟨e1, e2⟩
      have ex : star.radius * m.cos star.angle = star.x := by rw [hx]; linear_combination -e1
      have ez : star.radius * m.sin star.angle = star.z := by rw [hz]; linear_combination -e2
      rw [ex, ez]

/-- C28, counterexample.  A scripted run of `generateStarField` for one star
returns a disk star with the angle `0` whose `x` exceeds `radius * cos(angle)`
by more than `5` (the noise draw is `1`): the orbital invariant fails at
creation, and a tick with `deltaTime = 0` changes its `x`. -/
theorem disk_star_off_orbit :
    ∃ s, generateStarField ratLibm (scriptedRandom [1 / 2, 1 / 2, 0, 0] [1, 0, 0]) 1 []
          oneStarConfig = some [s]
      ∧ 5 < s.x - s.radius * ratLibm.cos s.angle
      ∧ s.x ≠ s.radius * ratLibm.cos s.angle
      ∧ (updateStar ratLibm s 0).x ≠ s.x := by
  obtain ⟨s, h1, _, ha, hx⟩ := generateStarField_noisy
  refine ⟨s, h1, hx, ?_, ?_⟩
  · intro e
    rw [e] at hx
    norm_num at hx
  · rw [updateStar_zero_of_mem ratLibm s (by rw [ha]) (by rw [ha]; norm_num [M_PI])]
    intro e
    simp only [] at e
    rw [e] at hx
    norm_num at hx

/-- C28, witness: the disk star of a scripted run on the rational instance. -/
theorem star_creation_orbit_witness :
    ∃ s, starCandidate ratLibm (scriptedRandom [1 / 2, 1 / 2, 0, 0] [1, 0, 0]) oneStarConfig
          (0, 0) = (some s, (6, 3))
      ∧ ∃ g, s.x = (s.radius + diskScatter (scriptedRandom [1 / 2, 1 / 2, 0, 0] [1, 0, 0])
            oneStarConfig s.radius g) * ratLibm.cos s.angle
        ∧ updateStar ratLibm s 0
            = { s with x := s.radius * ratLibm.cos s.angle,
                       z := s.radius * ratLibm.sin s.angle } := by
  obtain ⟨s, _, h2, _, _⟩ := generateStarField_noisy
  obtain ⟨g, hx, _, _, _, hu, _⟩ := (star_creation_orbit ratLibm
    (scriptedRandom [1 / 2, 1 / 2, 0, 0] [1, 0, 0]) oneStarConfig (0, 0) s (6, 3)
    (scriptedRandom_dist_range _ _ (by
      intro u hu
      simp only [List.mem_cons, List.mem_singleton, List.not_mem_nil, or_false] at hu
      rcases hu with e | e | e | e <;> rw [e] <;> norm_num)) h2).2
    (by norm_num [scriptedRandom])
  exact ⟨s, h2, g, hx, hu⟩

end OrbitClaims

/-! ## Kernel: the polynomials, continuity, integrals -/

section KernelLemmas

set_option linter.unusedSectionVars false

variable {F : Type} [LinearOrderedField F] [FloorRing F] {G : Type}

/-- The kernel on `0 ≤ r ≤ h`, the inner polynomial. -/
theorem cubicSplineKernel2D_inner (r h : F) (hh : 0 < h) (h0 : 0 ≤ r) (h1 : r ≤ h) :
    cubicSplineKernel2D r h
      = 10 / (7 * M_PI * h * h) * (1 - 1.5 * (r / h) * (r / h)
          + 0.75 * (r / h) * (r / h) * (r / h)) := by
  obtain ⟨c1, c2, _, _⟩ := cubicSplineKernel2D_cases r h
  rcases lt_or_eq_of_le h1 with c | c
  · exact c1 (div_nonneg h0 hh.le) ((div_lt_one hh).mpr c)
  · have e : r / h = 1 := by rw [c]; exact div_self hh.ne'
    rw [c2 (by rw [e]) (by rw [e]; norm_num), e]
    norm_num

/-- The kernel on `h ≤ r ≤ 2h`, the outer polynomial. -/
theorem cubicSplineKernel2D_outer (r h : F) (hh : 0 < h) (h1 : h ≤ r) (h2 : r ≤ 2 * h) :
    cubicSplineKernel2D r h
      = 10 / (7 * M_PI * h * h) * 0.25 * (2 - r / h) * (2 - r / h) * (2 - r / h) := by
  obtain ⟨_, c2, c3, _⟩ := cubicSplineKernel2D_cases r h
  rcases lt_or_eq_of_le h2 with c | c
  · exact c2 ((one_le_div hh).mpr h1) ((div_lt_iff₀ hh).mpr c)
  · have e : r / h = 2 := by rw [c]; field_simp
    rw [c3 (by rw [e]), e]
    norm_num

/-- The kernel vanishes from `2h` on. -/
theorem cubicSplineKernel2D_far (r h : F) (hh : 0 < h) (h2 : 2 * h ≤ r) :
    cubicSplineKernel2D r h = 0 :=
  (cubicSplineKernel2D_cases r h).2.2.1 ((le_div_iff₀ hh).mpr h2)

/-- Over the reals the kernel is continuous at `r = h` (`q = 1`). -/
theorem cubicSplineKernel2D_continuousAt_one (h : ℝ) (hh : 0 < h) :
    ContinuousAt (fun r : ℝ => cubicSplineKernel2D r h) h := by
  have hc : Continuous (fun r : ℝ => if r ≤ h
      then 10 / (7 * M_PI * h * h) * (1 - 1.5 * (r / h) * (r / h)
          + 0.75 * (r / h) * (r / h) * (r / h))
      else 10 / (7 * M_PI * h * h) * 0.25 * (2 - r / h) * (2 - r / h) * (2 - r / h)) := by
    apply Continuous.if_le (by fun_prop) (by fun_prop) continuous_id continuous_const
    intro x hx
    simp only [id] at hx
    rw [hx, div_self hh.ne']
    norm_num
  refine hc.continuousAt.congr ?_
  have hev : ∀ᶠ r in nhds h, r ∈ Set.Ioo 0 (2 * h) :=
    Ioo_mem_nhds hh (by linarith)
  refine hev.mono (fun r hr => ?_)
  simp only []
  split_ifs with c
  · exact (cubicSplineKernel2D_inner r h hh hr.1.le c).symm
  · exact (cubicSplineKernel2D_outer r h hh (not_le.mp c).le hr.2.le).symm

/-- Over the reals the kernel is continuous at `r = 2h` (`q = 2`). -/
theorem cubicSplineKernel2D_continuousAt_two (h : ℝ) (hh : 0 < h) :
    ContinuousAt (fun r : ℝ => cubicSplineKernel2D r h) (2 * h) := by
  have hc : Continuous (fun r : ℝ => if r ≤ 2 * h
      then 10 / (7 * M_PI * h * h) * 0.25 * (2 - r / h) * (2 - r / h) * (2 - r / h)
      else 0) := by
    apply Continuous.if_le (by fun_prop) (by fun_prop) continuous_id continuous_const
    intro x hx
    simp only [id] at hx
    have e : x / h = 2 := by rw [hx]; field_simp
    rw [e]
    norm_num
  refine hc.continuousAt.congr ?_
  have hev : ∀ᶠ r in nhds (2 * h), r ∈ Set.Ioi h := Ioi_mem_nhds (by linarith)
  refine hev.mono (fun r hr => ?_)
  simp only []
  split_ifs with c
  · exact (cubicSplineKernel2D_outer r h hh (le_of_lt hr) c).symm
  · exact (cubicSplineKernel2D_far r h hh (not_le.mp c).le).symm

/-- The integral of the kernel over the plane, in polar coordinates. -/
theorem cubicSplineKernel2D_integral (h : ℝ) (hh : 0 < h) :
    ∫ r in Set.Ioi (0 : ℝ), cubicSplineKernel2D r h * (2 * M_PI * r) = 1 := by
  have hp : (0 : ℝ) < M_PI := M_PI_pos
  have hinner : ∫ r in (0 : ℝ)..h, cubicSplineKernel2D r h * (2 * M_PI * r) = 11 / 14 := by
    have hp : (0 : ℝ) < M_PI := M_PI_pos
    have e : ∫ r in (0 : ℝ)..h, cubicSplineKernel2D r h * (2 * M_PI * r)
        = ∫ r in (0 : ℝ)..h, (20 / (7 * h ^ 2) * r ^ 1 - 30 / (7 * h ^ 4) * r ^ 3
            + 15 / (7 * h ^ 5) * r ^ 4) := by
      apply intervalIntegral.integral_congr
      intro r hr
      rw [Set.uIcc_of_le hh.le] at hr
      simp only []
      rw [cubicSplineKernel2D_inner r h hh hr.1 hr.2]
      field_simp
      ring
    rw [e, intervalIntegral.integral_add, intervalIntegral.integral_sub]
    · simp only [intervalIntegral.integral_const_mul, integral_pow]
      field_simp
      ring
    all_goals try { apply Continuous.intervalIntegrable; fun_prop }
  have houter : ∫ r in h..(2 * h), cubicSplineKernel2D r h * (2 * M_PI * r) = 3 / 14 := by
    have hp : (0 : ℝ) < M_PI := M_PI_pos
    have e : ∫ r in h..(2 * h), cubicSplineKernel2D r h * (2 * M_PI * r)
        = ∫ r in h..(2 * h), (40 / (7 * h ^ 2) * r ^ 1 - 60 / (7 * h ^ 3) * r ^ 2
            + 30 / (7 * h ^ 4) * r ^ 3 - 5 / (7 * h ^ 5) * r ^ 4) := by
      apply intervalIntegral.integral_congr
      intro r hr
      rw [Set.uIcc_of_le (by linarith)] at hr
      simp only []
      rw [cubicSplineKernel2D_outer r h hh hr.1 hr.2]
      field_simp
      ring
    rw [e, intervalIntegral.integral_sub, intervalIntegral.integral_add,
      intervalIntegral.integral_sub]
    · simp only [intervalIntegral.integral_const_mul, integral_pow]
      field_simp
      ring
    all_goals try { apply Continuous.intervalIntegrable; fun_prop }
  have hint : IntervalIntegrable (fun r : ℝ => cubicSplineKernel2D r h * (2 * M_PI * r))
        MeasureTheory.volume 0 h
      ∧ IntervalIntegrable (fun r : ℝ => cubicSplineKernel2D r h * (2 * M_PI * r))
        MeasureTheory.volume h (2 * h) := by
    constructor
    · rw [intervalIntegrable_iff_integrableOn_Ioc_of_le hh.le]
      have hc : MeasureTheory.IntegrableOn (fun r : ℝ => 10 / (7 * M_PI * h * h)
          * (1 - 1.5 * (r / h) * (r / h) + 0.75 * (r / h) * (r / h) * (r / h))
          * (2 * M_PI * r)) (Set.Ioc 0 h) MeasureTheory.volume :=
        (intervalIntegrable_iff_integrableOn_Ioc_of_le hh.le).mp
          (Continuous.intervalIntegrable (by fun_prop) _ _)
      refine hc.congr_fun (fun r hr => ?_) measurableSet_Ioc
      rw [cubicSplineKernel2D_inner r h hh hr.1.le hr.2]
    · have h2 : h ≤ 2 * h := by linarith
      rw [intervalIntegrable_iff_integrableOn_Ioc_of_le h2]
      have hc : MeasureTheory.IntegrableOn (fun r : ℝ => 10 / (7 * M_PI * h * h) * 0.25
          * (2 - r / h) * (2 - r / h) * (2 - r / h) * (2 * M_PI * r)) (Set.Ioc h (2 * h))
          MeasureTheory.volume :=
        (intervalIntegrable_iff_integrableOn_Ioc_of_le h2).mp
          (Continuous.intervalIntegrable (by fun_prop) _ _)
      refine hc.congr_fun (fun r hr => ?_) measurableSet_Ioc
      rw [cubicSplineKernel2D_outer r h hh hr.1.le hr.2]
  have e : ∫ r in Set.Ioi (0 : ℝ), cubicSplineKernel2D r h * (2 * M_PI * r)
      = ∫ r in Set.Ioi (0 : ℝ), (Set.Ioc 0 (2 * h)).indicator
          (fun r : ℝ => cubicSplineKernel2D r h * (2 * M_PI * r)) r := by
    apply MeasureTheory.setIntegral_congr_fun measurableSet_Ioi
    intro r hr
    simp only []
    by_cases c : r ≤ 2 * h
    · rw [Set.indicator_of_mem (show r ∈ Set.Ioc 0 (2 * h) from ⟨hr, c⟩)]
    · rw [Set.indicator_of_not_mem (fun m => c m.2),
        cubicSplineKernel2D_far r h hh (not_le.mp c).le, zero_mul]
  have hs : Set.Ioi (0 : ℝ) ∩ Set.Ioc 0 (2 * h) = Set.Ioc 0 (2 * h) :=
    Set.inter_eq_right.mpr (fun r hr => hr.1)
  obtain ⟨i1, i2⟩ := hint
  rw [e, MeasureTheory.setIntegral_indicator measurableSet_Ioc, hs,
    ← intervalIntegral.integral_of_le (by linarith),
    ← intervalIntegral.integral_add_adjacent_intervals i1 i2,
    hinner, houter]
  norm_num

end KernelLemmas

/-! ## Kernel: the normalised cubic spline -/

section KernelClaims

set_option linter.unusedSectionVars false

variable {F : Type} [LinearOrderedField F] [FloorRing F] {G : Type}

/-- C25.  Over the reals, for `h > 0`, with `q = r / h`,
`σ = 10 / (7 π h²)` and `π` the constant `M_PI` of the code: for `r ≥ 0`,
`cubicSplineKernel2D r h` is `σ (1 - 1.5 q² + 0.75 q³)` for `q < 1`,
`0.25 σ (2 - q)³` for `1 ≤ q < 2` and `0` for `q ≥ 2`; it is non-negative,
continuous at `r = h` and at `r = 2h`, and the integral over `r > 0` of
`cubicSplineKernel2D r h * 2 π r` is `1`. -/
theorem cubicSplineKernel2D_normalised (h : ℝ) (hh : 0 < h) :
    (∀ r : ℝ, 0 ≤ r →
        (r / h < 1 →
          cubicSplineKernel2D r h
            = 10 / (7 * M_PI * h * h) * (1 - 1.5 * (r / h) * (r / h)
                + 0.75 * (r / h) * (r / h) * (r / h)))
        ∧ (1 ≤ r / h → r / h < 2 →
          cubicSplineKernel2D r h
            = 10 / (7 * M_PI * h * h) * 0.25 * (2 - r / h) * (2 - r / h) * (2 - r / h))
        ∧ (2 ≤ r / h → cubicSplineKernel2D r h = 0))
      ∧ (∀ r : ℝ, 0 ≤ cubicSplineKernel2D r h)
      ∧ ContinuousAt (fun r : ℝ => cubicSplineKernel2D r h) h
      ∧ ContinuousAt (fun r : ℝ => cubicSplineKernel2D r h) (2 * h)
      ∧ ∫ r in Set.Ioi (0 : ℝ), cubicSplineKernel2D r h * (2 * M_PI * r) = 1 :=
  ⟨fun r hr => ⟨(cubicSplineKernel2D_cases r h).1 (div_nonneg hr hh.le),
      (cubicSplineKernel2D_cases r h).2.1, (cubicSplineKernel2D_cases r h).2.2.1⟩,
    fun r => (cubicSplineKernel2D_range r h hh).1,
    cubicSplineKernel2D_continuousAt_one h hh,
    cubicSplineKernel2D_continuousAt_two h hh,
    cubicSplineKernel2D_integral h hh⟩

/-- C25, witness: `h = 1`, where the kernel at `r = 1/2` is `σ * 23/32`. -/
theorem cubicSplineKernel2D_normalised_witness :
    cubicSplineKernel2D (1 / 2 : ℝ) 1 = 10 / (7 * M_PI) * (23 / 32)
      ∧ ∫ r in Set.Ioi (0 : ℝ), cubicSplineKernel2D r 1 * (2 * M_PI * r) = 1 := by
  have h := cubicSplineKernel2D_normalised 1 one_pos
  refine ⟨?_, h.2.2.2.2⟩
  rw [(h.1 (1 / 2) (by norm_num)).1 (by norm_num)]
  norm_num

end KernelClaims

/-! ## Star generator: the run of candidates -/

section CandidateRunLemmas

set_option linter.unusedSectionVars false

variable {F : Type} [LinearOrderedField F] [FloorRing F] {G : Type}

/-- The run of candidates after the first candidate is the run that starts in
the state the first candidate leaves. -/
theorem candidateState_succ (m : Libm F) (rnd : Random F G) (config : GalaxyConfig F)
    (rng : G) (k : Nat) :
    candidateState m rnd config rng (k + 1)
      = candidateState m rnd config (starCandidate m rnd config rng).2 k := by
  induction k with
  | zero => rfl
  | succ k ih =>
    show (starCandidate m rnd config (candidateState m rnd config rng (k + 1))).2 = _
    rw [ih]
    rfl

/-- The accepted stars of `k + 1` candidates: the first candidate, then the
accepted stars of the `k` candidates after it. -/
theorem acceptedStars_succ_front (m : Libm F) (rnd : Random F G) (config : GalaxyConfig F)
    (rng : G) (k : Nat) :
    acceptedStars m rnd config rng (k + 1)
      = (starCandidate m rnd config rng).1.toList
        ++ acceptedStars m rnd config (starCandidate m rnd config rng).2 k := by
  unfold acceptedStars
  rw [List.range_succ_eq_map, List.filterMap_cons, List.filterMap_map]
  have e : ((fun j => (starCandidate m rnd config (candidateState m rnd config rng j)).1)
        ∘ Nat.succ)
      = fun j => (starCandidate m rnd config
          (candidateState m rnd config (starCandidate m rnd config rng).2 j)).1 := by
    funext j
    show (starCandidate m rnd config (candidateState m rnd config rng (j + 1))).1 = _
    rw [candidateState_succ]
  rw [e]
  have e0 : candidateState m rnd config rng 0 = rng := rfl
  rw [e0]
  cases (starCandidate m rnd config rng).1 <;> rfl

/-- The accepted stars of `k + 1` candidates: those of the first `k`, then the
candidate number `k` when it is accepted. -/
theorem acceptedStars_succ_back (m : Libm F) (rnd : Random F G) (config : GalaxyConfig F)
    (rng : G) (k : Nat) :
    acceptedStars m rnd config rng (k + 1)
      = acceptedStars m rnd config rng k
        ++ (starCandidate m rnd config (candidateState m rnd config rng k)).1.toList := by
  unfold acceptedStars
  rw [List.range_succ, List.filterMap_append]
  congr 1

/-- One more candidate adds at most one star. -/
theorem acceptedStars_length_succ (m : Libm F) (rnd : Random F G) (config : GalaxyConfig F)
    (rng : G) (k : Nat) :
    (acceptedStars m rnd config rng k).length ≤ (acceptedStars m rnd config rng (k + 1)).length
      ∧ (acceptedStars m rnd config rng (k + 1)).length
        ≤ (acceptedStars m rnd config rng k).length + 1 := by
  rw [acceptedStars_succ_back, List.length_append]
  cases (starCandidate m rnd config (candidateState m rnd config rng k)).1 <;> simp

/-- The loop of `generateStarField` returns exactly when the count of accepted
candidates reaches the remaining indices within the fuel, and then it returns
the buffer extended by the accepted stars of the candidates it has evaluated. -/
theorem starLoop_iff (m : Libm F) (rnd : Random F G) (config : GalaxyConfig F)
    (fuel : Nat) (i : Int) (stars : List (Star F)) (rng : G) (out : List (Star F)) :
    starLoop m rnd config fuel i stars rng = some out ↔
      ∃ k, k ≤ fuel
        ∧ config.numStars ≤ i + ((acceptedStars m rnd config rng k).length : Int)
        ∧ (∀ j, j < k → i + ((acceptedStars m rnd config rng j).length : Int) < config.numStars)
        ∧ out = stars ++ acceptedStars m rnd config rng k := by
  induction fuel generalizing i stars rng with
  | zero =>
    rw [starLoop]
    constructor
    · intro h
      split_ifs at h with hi
      cases h
      exact ⟨0, le_refl _, by simp [acceptedStars]; omega, by intro j hj; omega,
        by simp [acceptedStars]⟩
    · rintro ⟨k, hk, h1, _, h3⟩
      have hk0 : k = 0 := by omega
      subst hk0
      simp only [acceptedStars, List.range_zero, List.filterMap_nil, List.length_nil,
        Nat.cast_zero, add_zero, List.append_nil] at h1 h3
      rw [if_neg (by omega), h3]
  | succ fuel ih =>
    rw [starLoop]
    by_cases hi : i < config.numStars
    · rw [if_pos hi]
      have key : ∀ (c : Option (Star F) × G), starCandidate m rnd config rng = c →
          ((match c with
            | (none, rng) => starLoop m rnd config fuel (i - 1 + 1) stars rng
            | (some star, rng) => starLoop m rnd config fuel (i + 1) (stars ++ [star]) rng)
              = some out ↔
            ∃ k, k ≤ fuel + 1
              ∧ config.numStars ≤ i + ((acceptedStars m rnd config rng k).length : Int)
              ∧ (∀ j, j < k →
                  i + ((acceptedStars m rnd config rng j).length : Int) < config.numStars)
              ∧ out = stars ++ acceptedStars m rnd config rng k) := by
        rintro ⟨r, g⟩ hc
        have hfront : ∀ k, acceptedStars m rnd config rng (k + 1)
            = r.toList ++ acceptedStars m rnd config g k := by
          intro k
          rw [acceptedStars_succ_front, hc]
        cases r with
        | none =>
          simp only []
          rw [show i - 1 + 1 = i by ring, ih]
          constructor
          · rintro ⟨k, hk, h1, h2, h3⟩
            refine ⟨k + 1, by omega, ?_, ?_, ?_⟩
            · rw [hfront]; simpa using h1
            · intro j hj
              cases j with
              | zero => simpa [acceptedStars] using hi
              | succ j =>
                rw [hfront]
                simpa using h2 j (by omega)
            · rw [hfront]; simpa using h3
          · rintro ⟨k, hk, h1, h2, h3⟩
            cases k with
            | zero =>
              simp only [acceptedStars, List.range_zero, List.filterMap_nil, List.length_nil,
                Nat.cast_zero, add_zero] at h1
              omega
            | succ k =>
              rw [hfront] at h1 h3
              refine ⟨k, by omega, by simpa using h1, ?_, by simpa using h3⟩
              intro j hj
              have := h2 (j + 1) (by omega)
              rw [hfront] at this
              simpa using this
        | some s =>
          simp only []
          rw [ih]
          constructor
          · rintro ⟨k, hk, h1, h2, h3⟩
            refine ⟨k + 1, by omega, ?_, ?_, ?_⟩
            · rw [hfront]
              simp only [Option.toList, List.singleton_append, List.length_cons, Nat.cast_add,
                Nat.cast_one]
              omega
            · intro j hj
              cases j with
              | zero => simpa [acceptedStars] using hi
              | succ j =>
                rw [hfront]
                have := h2 j (by omega)
                simp only [Option.toList, List.singleton_append, List.length_cons, Nat.cast_add,
                  Nat.cast_one]
                omega
            · rw [hfront, h3]
              simp [Option.toList]
          · rintro ⟨k, hk, h1, h2, h3⟩
            cases k with
            | zero =>
              simp only [acceptedStars, List.range_zero, List.filterMap_nil, List.length_nil,
                Nat.cast_zero, add_zero] at h1
              omega
            | succ k =>
              rw [hfront] at h1 h3
              simp only [Option.toList, List.singleton_append, List.length_cons, Nat.cast_add,
                Nat.cast_one] at h1 h3
              refine ⟨k, by omega, by omega, ?_, by rw [h3]; simp⟩
              intro j hj
              have := h2 (j + 1) (by omega)
              rw [hfront] at this
              simp only [Option.toList, List.singleton_append, List.length_cons, Nat.cast_add,
                Nat.cast_one] at this
              omega
      exact key _ rfl
    · rw [if_neg hi]
      constructor
      · intro h
        cases h
        exact ⟨0, by omega, by simp [acceptedStars]; omega, by intro j hj; omega,
          by simp [acceptedStars]⟩
      · rintro ⟨k, hk, h1, h2, h3⟩
        cases k with
        | zero =>
          simp only [acceptedStars, List.range_zero, List.filterMap_nil,
            List.append_nil] at h3
          rw [h3]
        | succ k =>
          have := h2 0 (by omega)
          simp only [acceptedStars, List.range_zero, List.filterMap_nil, List.length_nil,
            Nat.cast_zero, add_zero] at this
          omega

/-- The count of accepted candidates reaches `numStars` exactly, at the first
number of candidates where it is not below. -/
theorem acceptedStars_reach (m : Libm F) (rnd : Random F G) (config : GalaxyConfig F)
    (rng : G) (k : Nat) (hn : 0 ≤ config.numStars)
    (h1 : config.numStars ≤ ((acceptedStars m rnd config rng k).length : Int))
    (h2 : ∀ j, j < k → ((acceptedStars m rnd config rng j).length : Int) < config.numStars) :
    ((acceptedStars m rnd config rng k).length : Int) = config.numStars := by
  cases k with
  | zero =>
    simp only [acceptedStars, List.range_zero, List.filterMap_nil, List.length_nil,
      Nat.cast_zero] at h1 ⊢
    omega
  | succ k =>
    have a := h2 k (by omega)
    have b := (acceptedStars_length_succ m rnd config rng k).2
    omega

end CandidateRunLemmas

/-! ## Star generator: the count of stars -/

section CandidateRunClaims

set_option linter.unusedSectionVars false

variable {F : Type} [LinearOrderedField F] [FloorRing F] {G : Type}

/-- C3.  For `numStars ≥ 0`, `generateStarField` returns the buffer `out` within
`fuel` candidates exactly when there is a number `k ≤ fuel` of candidates, drawn
one after the other from the seeded generator, of which exactly `numStars` are
accepted while fewer than `numStars` are accepted among any smaller number of
them, and `out` is the list of the stars of those accepted candidates in their
order.  So the buffer returned holds exactly `numStars` stars, and every larger
fuel returns the same buffer.  A rejected candidate adds no star (the next
candidate is drawn from the state it leaves, for the same index), an accepted
candidate adds exactly its own star, and a bulge candidate is never rejected. -/
theorem generateStarField_count (m : Libm F) (rnd : Random F G) (fuel : Nat)
    (prior : List (Star F)) (config : GalaxyConfig F) (out : List (Star F))
    (hn : 0 ≤ config.numStars) :
    (generateStarField m rnd fuel prior config = some out ↔
        ∃ k, k ≤ fuel
          ∧ ((acceptedStars m rnd config (rnd.mt19937 config.seed) k).length : Int)
              = config.numStars
          ∧ (∀ j, j < k →
              ((acceptedStars m rnd config (rnd.mt19937 config.seed) j).length : Int)
                < config.numStars)
          ∧ out = acceptedStars m rnd config (rnd.mt19937 config.seed) k)
      ∧ (generateStarField m rnd fuel prior config = some out →
          (out.length : Int) = config.numStars)
      ∧ (∀ fuel2, fuel ≤ fuel2 → generateStarField m rnd fuel prior config = some out →
          generateStarField m rnd fuel2 prior config = some out)
      ∧ (∀ (rng : G) (k : Nat),
          ((starCandidate m rnd config (candidateState m rnd config rng k)).1 = none →
            acceptedStars m rnd config rng (k + 1) = acceptedStars m rnd config rng k)
          ∧ (∀ star,
              (starCandidate m rnd config (candidateState m rnd config rng k)).1 = some star →
              acceptedStars m rnd config rng (k + 1)
                = acceptedStars m rnd config rng k ++ [star]))
      ∧ (∀ rng : G, (rnd.dist rng).1 < 0.15 → (starCandidate m rnd config rng).1 ≠ none) := by
  have hiff : generateStarField m rnd fuel prior config = some out ↔
      ∃ k, k ≤ fuel
        ∧ ((acceptedStars m rnd config (rnd.mt19937 config.seed) k).length : Int)
            = config.numStars
        ∧ (∀ j, j < k →
            ((acceptedStars m rnd config (rnd.mt19937 config.seed) j).length : Int)
              < config.numStars)
        ∧ out = acceptedStars m rnd config (rnd.mt19937 config.seed) k := by
    unfold generateStarField
    simp only [clear]
    rw [starLoop_iff]
    simp only [zero_add, List.nil_append]
    constructor
    · rintro ⟨k, hk, h1, h2, h3⟩
      exact ⟨k, hk, acceptedStars_reach m rnd config _ k hn h1 h2, h2, h3⟩
    · rintro ⟨k, hk, h1, h2, h3⟩
      exact ⟨k, hk, h1.ge, h2, h3⟩
  refine ⟨hiff, ?_, ?_, ?_, ?_⟩
  · intro h
    obtain ⟨k, _, h1, _, h3⟩ := hiff.mp h
    rw [h3, h1]
  · intro fuel2 hf h
    obtain ⟨k, hk, h1, h2, h3⟩ := hiff.mp h
    unfold generateStarField
    simp only [clear]
    rw [starLoop_iff]
    simp only [zero_add, List.nil_append]
    exact ⟨k, by omega, h1.ge, h2, h3⟩
  · intro rng k
    constructor
    · intro h
      rw [acceptedStars_succ_back, h]
      simp
    · intro star h
      rw [acceptedStars_succ_back, h]
      rfl
  · intro rng hb
    obtain ⟨star, hs⟩ := starCandidate_bulge m rnd config rng hb
    rw [hs]
    simp

/-- C3, witness.  On the rational instance with the default configuration,
`numStars = 2` and seed `0`, the loop ends after three candidates (a bulge
star, a rejected disk candidate, a bulge star): the buffer holds the two
accepted stars, the candidate number `1` is rejected, and two candidates are
not enough. -/
theorem generateStarField_count_witness :
    ∃ out, generateStarField ratLibm ratRandom 3 [unitStar] twoStarConfig = some out
      ∧ (out.length : Int) = 2
      ∧ out = acceptedStars ratLibm ratRandom twoStarConfig 0 3
      ∧ (starCandidate ratLibm ratRandom twoStarConfig
          (candidateState ratLibm ratRandom twoStarConfig 0 1)).1 = none
      ∧ generateStarField ratLibm ratRandom 2 [unitStar] twoStarConfig = none := by
  obtain ⟨s0, h0⟩ :=
    starCandidate_bulge ratLibm ratRandom twoStarConfig 0 (by norm_num [ratRandom])
  obtain ⟨s1, h1⟩ :=
    starCandidate_bulge ratLibm ratRandom twoStarConfig 10 (by norm_num [ratRandom])
  have g0 : (ratRandom.dist (ratRandom.dist (ratRandom.dist (ratRandom.dist
      (ratRandom.dist (ratRandom.dist 0).2).2).2).2).2).2 = 6 := rfl
  rw [g0] at h0
  have hm : ratRandom.mt19937 twoStarConfig.seed = 0 := rfl
  have c1 : candidateState ratLibm ratRandom twoStarConfig 0 1 = 6 := by
    show (starCandidate ratLibm ratRandom twoStarConfig 0).2 = 6
    rw [h0]
  have c2 : candidateState ratLibm ratRandom twoStarConfig 0 2 = 10 := by
    show (starCandidate ratLibm ratRandom twoStarConfig
      (candidateState ratLibm ratRandom twoStarConfig 0 1)).2 = 10
    rw [c1, starCandidate_eval]
  have a1 : acceptedStars ratLibm ratRandom twoStarConfig 0 1 = [s0] := by
    rw [acceptedStars_succ_back]
    show [] ++ (starCandidate ratLibm ratRandom twoStarConfig 0).1.toList = _
    rw [h0]; rfl
  have a2 : acceptedStars ratLibm ratRandom twoStarConfig 0 2 = [s0] := by
    rw [acceptedStars_succ_back, a1, c1, starCandidate_eval]; rfl
  have a3 : acceptedStars ratLibm ratRandom twoStarConfig 0 3 = [s0, s1] := by
    rw [acceptedStars_succ_back, a2, c2, h1]; rfl
  have hlt : ∀ j, j < 3 →
      ((acceptedStars ratLibm ratRandom twoStarConfig
        (ratRandom.mt19937 twoStarConfig.seed) j).length : Int) < twoStarConfig.numStars := by
    intro j hj
    rw [hm]
    have h2 : twoStarConfig.numStars = 2 := rfl
    rw [h2]
    interval_cases j
    · simp [acceptedStars]
    · rw [a1]; simp
    · rw [a2]; simp
  have hcount := generateStarField_count ratLibm ratRandom 3 [unitStar] twoStarConfig [s0, s1]
    (by decide)
  have hgen : generateStarField ratLibm ratRandom 3 [unitStar] twoStarConfig
      = some [s0, s1] :=
    hcount.1.mpr ⟨3, le_refl _, by rw [hm, a3]; rfl, hlt, by rw [hm, a3]⟩
  refine ⟨[s0, s1], hgen, hcount.2.1 hgen, a3.symm, ?_, ?_⟩
  · rw [c1, starCandidate_eval]
  · cases hres : generateStarField ratLibm ratRandom 2 [unitStar] twoStarConfig with
    | none => rfl
    | some out2 =>
      exfalso
      obtain ⟨k, hk, e1, _, _⟩ :=
        (generateStarField_count ratLibm ratRandom 2 [unitStar] twoStarConfig out2
          (by decide)).1.mp hres
      have := hlt k (by omega)
      omega

end CandidateRunClaims

/-! ## Kinematics in the arithmetic of `float` and `double`: lemmas -/

section RoundedLemmas

set_option linter.unusedSectionVars false

variable {F : Type} [LinearOrderedField F] [FloorRing F] {G : Type}

/-- The rounding of `q` is an integer within half a unit of `q`, and at a tie it
is the even neighbour. -/
theorem roundHalfEven_spec (q : ℚ) (n : Int) :
    ((n : ℚ) - 1 / 2 < q → q < n + 1 / 2 → roundHalfEven q = n)
      ∧ (q = n + 1 / 2 → roundHalfEven q = if n % 2 = 0 then n else n + 1) := by
  unfold roundHalfEven
  constructor
  · intro h1 h2
    rcases lt_or_le q n with c | c
    · have hf : ⌊q⌋ = n - 1 := by
        rw [Int.floor_eq_iff]; push_cast; constructor <;> linarith
      rw [hf]; push_cast
      rw [if_neg (by linarith), if_pos (by linarith)]
      ring
    · have hf : ⌊q⌋ = n := by
        rw [Int.floor_eq_iff]; constructor <;> linarith
      rw [hf, if_pos (by linarith)]
  · intro h
    have hf : ⌊q⌋ = n := by
      rw [Int.floor_eq_iff]; constructor <;> linarith
    rw [hf, if_neg (by linarith), if_neg (by linarith)]

/-- The values of `float` and `double` at `x`, from the exponent `e` of `x` and
the rounding `n` of its significand: away from a tie for both formats, and at
a tie with an even `n` for `float`. -/
theorem binaryRounding_eval (x : ℚ) (e n : Int) (h1 : (2 : ℚ) ^ e ≤ |x|)
    (h2 : |x| < (2 : ℚ) ^ (e + 1)) :
    (-126 ≤ e → (n : ℚ) - 1 / 2 < x / 2 ^ (e - 23) → x / 2 ^ (e - 23) < n + 1 / 2 →
        binaryRounding.f32 x = n * 2 ^ (e - 23))
      ∧ (-1022 ≤ e → (n : ℚ) - 1 / 2 < x / 2 ^ (e - 52) → x / 2 ^ (e - 52) < n + 1 / 2 →
        binaryRounding.f64 x = n * 2 ^ (e - 52))
      ∧ (-126 ≤ e → x / 2 ^ (e - 23) = n + 1 / 2 → n % 2 = 0 →
        binaryRounding.f32 x = n * 2 ^ (e - 23)) := by
  have hx : 0 < |x| := lt_of_lt_of_le (by positivity) h1
  have hl : Int.log 2 |x| = e := by
    apply le_antisymm
    · have := (Int.lt_zpow_iff_log_lt (b := 2) (by norm_num) hx (x := e + 1)).mp
        (by exact_mod_cast h2)
      omega
    · exact (Int.zpow_le_iff_le_log (b := 2) (by norm_num) hx).mp (by exact_mod_cast h1)
  refine ⟨fun he h3 h4 => ?_, fun he h3 h4 => ?_, fun he h3 h4 => ?_⟩
  · show roundNearestEven 24 (-126) x = _
    unfold roundNearestEven
    rw [hl, max_eq_left he]
    have e1 : e - (((24 : ℕ) : ℤ) - 1) = e - 23 := by norm_num
    rw [e1, (roundHalfEven_spec _ n).1 h3 h4]
  · show roundNearestEven 53 (-1022) x = _
    unfold roundNearestEven
    rw [hl, max_eq_left he]
    have e1 : e - (((53 : ℕ) : ℤ) - 1) = e - 52 := by norm_num
    rw [e1, (roundHalfEven_spec _ n).1 h3 h4]
  · show roundNearestEven 24 (-126) x = _
    unfold roundNearestEven
    rw [hl, max_eq_left he]
    have e1 : e - (((24 : ℕ) : ℤ) - 1) = e - 23 := by norm_num
    rw [e1, (roundHalfEven_spec _ n).2 h3, if_pos h4]

/-- The constants of the two ticks in `float` and `double`: the `double` value
`884279719003555 / 2⁴⁷` of `2.0f * M_PI`, the `float` value
`13176795 / 2²¹ = 6.2831854820251465` of `TWO_PI`, above `2π`, and the steps of
the loops at the angles `-2⁻²⁷`, `6.2831854820251465` and `10⁹`. -/
theorem binaryRounding_values :
    (binaryRounding.f32 0 = 0 ∧ binaryRounding.f64 0 = 0)
      ∧ twoPiDouble binaryRounding = 884279719003555 / 2 ^ 47
      ∧ binaryRounding.f32 (884279719003555 / 2 ^ 47) = 13176795 / 2 ^ 21
      ∧ (binaryRounding.f64 (-(1 / 2 ^ 27)) = -(1 / 2 ^ 27)
        ∧ binaryRounding.f32 (-(1 / 2 ^ 27)) = -(1 / 2 ^ 27))
      ∧ (binaryRounding.f64 (13176795 / 2 ^ 21) = 13176795 / 2 ^ 21
        ∧ binaryRounding.f32 (13176795 / 2 ^ 21) = 13176795 / 2 ^ 21)
      ∧ (binaryRounding.f64 1000000000 = 1000000000
        ∧ binaryRounding.f32 1000000000 = 1000000000)
      ∧ binaryRounding.f32 (binaryRounding.f64 (-(1 / 2 ^ 27) + 884279719003555 / 2 ^ 47))
          = 13176795 / 2 ^ 21
      ∧ binaryRounding.f32 (binaryRounding.f64 (13176795 / 2 ^ 21 - 884279719003555 / 2 ^ 47))
          = 6151831 / 2 ^ 45
      ∧ binaryRounding.f32 (binaryRounding.f64 (1000000000 - 884279719003555 / 2 ^ 47))
          = 1000000000
      ∧ binaryRounding.f32 (-(1 / 2 ^ 27) + 13176795 / 2 ^ 21) = 13176795 / 2 ^ 21
      ∧ (884279719003555 / 2 ^ 47 : ℚ) < 13176795 / 2 ^ 21
      ∧ 2 * (M_PI : ℚ) < 13176795 / 2 ^ 21
      ∧ 2 * Real.pi < ((13176795 / 2 ^ 21 : ℚ) : ℝ) := by
  have hz : ∀ (p : Nat) (emin : Int), roundNearestEven p emin 0 = 0 := by
    intro p emin
    unfold roundNearestEven
    rw [zero_div, (roundHalfEven_spec 0 0).1 (by norm_num) (by norm_num)]
    simp
  have hpi : binaryRounding.f64 M_PI = 884279719003555 / 2 ^ 48 := by
    rw [(binaryRounding_eval M_PI 1 7074237752028440
      (by rw [abs_of_pos M_PI_pos]; norm_num [M_PI])
      (by rw [abs_of_pos M_PI_pos]; norm_num [M_PI])).2.1
      (by norm_num) (by norm_num [M_PI]) (by norm_num [M_PI])]
    norm_num
  have hT : twoPiDouble binaryRounding = 884279719003555 / 2 ^ 47 := by
    unfold twoPiDouble
    rw [hpi, (binaryRounding_eval (2 * (884279719003555 / 2 ^ 48)) 2 7074237752028440
      (by rw [abs_of_pos (by norm_num)]; norm_num)
      (by rw [abs_of_pos (by norm_num)]; norm_num)).2.1
      (by norm_num) (by norm_num) (by norm_num)]
    norm_num
  have hA : binaryRounding.f32 (884279719003555 / 2 ^ 47) = 13176795 / 2 ^ 21 := by
    rw [(binaryRounding_eval (884279719003555 / 2 ^ 47) 2 13176795
      (by rw [abs_of_pos (by norm_num)]; norm_num)
      (by rw [abs_of_pos (by norm_num)]; norm_num)).1
      (by norm_num) (by norm_num) (by norm_num)]
    norm_num
  have hg64 : binaryRounding.f64 (-(1 / 2 ^ 27)) = -(1 / 2 ^ 27) := by
    rw [(binaryRounding_eval (-(1 / 2 ^ 27)) (-27) (-(2 ^ 52))
      (by rw [abs_of_neg (by norm_num)]; norm_num)
      (by rw [abs_of_neg (by norm_num)]; norm_num)).2.1
      (by norm_num) (by norm_num) (by norm_num)]
    norm_num
  have hg32 : binaryRounding.f32 (-(1 / 2 ^ 27)) = -(1 / 2 ^ 27) := by
    rw [(binaryRounding_eval (-(1 / 2 ^ 27)) (-27) (-(2 ^ 23))
      (by rw [abs_of_neg (by norm_num)]; norm_num)
      (by rw [abs_of_neg (by norm_num)]; norm_num)).1
      (by norm_num) (by norm_num) (by norm_num)]
    norm_num
  have ha64 : binaryRounding.f64 (13176795 / 2 ^ 21) = 13176795 / 2 ^ 21 := by
    rw [(binaryRounding_eval (13176795 / 2 ^ 21) 2 (13176795 * 2 ^ 29)
      (by rw [abs_of_pos (by norm_num)]; norm_num)
      (by rw [abs_of_pos (by norm_num)]; norm_num)).2.1
      (by norm_num) (by norm_num) (by norm_num)]
    norm_num
  have ha32 : binaryRounding.f32 (13176795 / 2 ^ 21) = 13176795 / 2 ^ 21 := by
    rw [(binaryRounding_eval (13176795 / 2 ^ 21) 2 13176795
      (by rw [abs_of_pos (by norm_num)]; norm_num)
      (by rw [abs_of_pos (by norm_num)]; norm_num)).1
      (by norm_num) (by norm_num) (by norm_num)]
    norm_num
  have hb64 : binaryRounding.f64 1000000000 = 1000000000 := by
    rw [(binaryRounding_eval 1000000000 29 (1000000000 * 2 ^ 23)
      (by rw [abs_of_pos (by norm_num)]; norm_num)
      (by rw [abs_of_pos (by norm_num)]; norm_num)).2.1
      (by norm_num) (by norm_num) (by norm_num)]
    norm_num
  have hb32 : binaryRounding.f32 1000000000 = 1000000000 := by
    rw [(binaryRounding_eval 1000000000 29 15625000
      (by rw [abs_of_pos (by norm_num)]; norm_num)
      (by rw [abs_of_pos (by norm_num)]; norm_num)).1
      (by norm_num) (by norm_num) (by norm_num)]
    norm_num
  have hadd : binaryRounding.f32
      (binaryRounding.f64 (-(1 / 2 ^ 27) + 884279719003555 / 2 ^ 47))
      = 13176795 / 2 ^ 21 := by
    rw [(binaryRounding_eval (-(1 / 2 ^ 27) + 884279719003555 / 2 ^ 47) 2
      (884279717954979 * 8)
      (by rw [abs_of_pos (by norm_num)]; norm_num)
      (by rw [abs_of_pos (by norm_num)]; norm_num)).2.1
      (by norm_num) (by norm_num) (by norm_num)]
    rw [(binaryRounding_eval (((884279717954979 * 8 : Int) : ℚ) * 2 ^ ((2 : Int) - 52)) 2
      13176795
      (by rw [abs_of_pos (by norm_num)]; norm_num)
      (by rw [abs_of_pos (by norm_num)]; norm_num)).1
      (by norm_num) (by norm_num) (by norm_num)]
    norm_num
  have hsub : binaryRounding.f32
      (binaryRounding.f64 (13176795 / 2 ^ 21 - 884279719003555 / 2 ^ 47))
      = 6151831 / 2 ^ 45 := by
    rw [(binaryRounding_eval (13176795 / 2 ^ 21 - 884279719003555 / 2 ^ 47) (-23)
      (24607325 * 2 ^ 28)
      (by rw [abs_of_pos (by norm_num)]; norm_num)
      (by rw [abs_of_pos (by norm_num)]; norm_num)).2.1
      (by norm_num) (by norm_num) (by norm_num)]
    rw [(binaryRounding_eval (((24607325 * 2 ^ 28 : Int) : ℚ) * 2 ^ ((-23 : Int) - 52)) (-23)
      12303662
      (by rw [abs_of_pos (by norm_num)]; norm_num)
      (by rw [abs_of_pos (by norm_num)]; norm_num)).2.2
      (by norm_num) (by norm_num) (by decide)]
    norm_num
  have hfar : binaryRounding.f32
      (binaryRounding.f64 (1000000000 - 884279719003555 / 2 ^ 47)) = 1000000000 := by
    rw [(binaryRounding_eval (1000000000 - 884279719003555 / 2 ^ 47) 29 8388607947292821
      (by rw [abs_of_pos (by norm_num)]; norm_num)
      (by rw [abs_of_pos (by norm_num)]; norm_num)).2.1
      (by norm_num) (by norm_num) (by norm_num)]
    rw [(binaryRounding_eval (((8388607947292821 : Int) : ℚ) * 2 ^ ((29 : Int) - 52)) 29
      15625000
      (by rw [abs_of_pos (by norm_num)]; norm_num)
      (by rw [abs_of_pos (by norm_num)]; norm_num)).1
      (by norm_num) (by norm_num) (by norm_num)]
    norm_num
  have hwrap : binaryRounding.f32 (-(1 / 2 ^ 27) + 13176795 / 2 ^ 21)
      = 13176795 / 2 ^ 21 := by
    rw [(binaryRounding_eval (-(1 / 2 ^ 27) + 13176795 / 2 ^ 21) 2 13176795
      (by rw [abs_of_pos (by norm_num)]; norm_num)
      (by rw [abs_of_pos (by norm_num)]; norm_num)).1
      (by norm_num) (by norm_num) (by norm_num)]
    norm_num
  refine ⟨⟨hz _ _, hz _ _⟩, hT, hA, ⟨hg64, hg32⟩, ⟨ha64, ha32⟩, ⟨hb64, hb32⟩, hadd, hsub,
    hfar, hwrap, by norm_num, by norm_num [M_PI], ?_⟩
  have h := Real.pi_lt_d20
  push_cast
  norm_num at h ⊢
  linarith

/-- The first loop does not run at an angle that is not above `2π`. -/
theorem subtractLoop_of_le (fp : Rounding F) (fuel : Nat) (angle : F)
    (h : ¬ angle > twoPiDouble fp) : subtractLoop fp fuel angle = some angle := by
  cases fuel <;> rw [subtractLoop, if_neg h]

/-- The second loop does not run at an angle that is not negative. -/
theorem addLoop_of_nonneg (fp : Rounding F) (fuel : Nat) (angle : F)
    (h : ¬ angle < 0) : addLoop fp fuel angle = some angle := by
  cases fuel <;> rw [addLoop, if_neg h]

/-- The call on a buffer of one star. -/
theorem updateStarPositionsRounded_singleton (fp : Rounding F) (m : Libm F) (fuel : Nat)
    (star : Star F) (deltaTime : F) :
    updateStarPositionsRounded fp m fuel [star] deltaTime
      = (updateStarRounded fp m fuel star deltaTime).bind fun s => some [s] := by
  rw [updateStarPositionsRounded]
  congr 1

/-- Three ticks of a star with `deltaTime = 0` in `float` and `double`.  At the
angle `-2⁻²⁷` the second loop runs once and leaves `6.2831854820251465`; at the
angle `6.2831854820251465` the first loop runs once and leaves `1.7484555e-7`;
at the angle `10⁹` the first loop does not end. -/
theorem updateStarRounded_runs (m : Libm ℚ) (star : Star ℚ) :
    (star.angle = -(1 / 2 ^ 27) → ∀ fuel,
        updateStarRounded binaryRounding m (fuel + 1) star 0
          = some (placeStar binaryRounding m star (13176795 / 2 ^ 21)))
      ∧ (star.angle = 13176795 / 2 ^ 21 → ∀ fuel,
        updateStarRounded binaryRounding m (fuel + 1) star 0
          = some (placeStar binaryRounding m star (6151831 / 2 ^ 45)))
      ∧ (star.angle = 1000000000 → ∀ fuel,
        updateStarRounded binaryRounding m fuel star 0 = none) := by
  obtain ⟨⟨_, z64⟩, hT, _, ⟨hg64, hg32⟩, ⟨ha64, ha32⟩, ⟨hb64, hb32⟩, hadd, hsub, hfar, _⟩ :=
    binaryRounding_values
  refine ⟨fun h fuel => ?_, fun h fuel => ?_, fun h fuel => ?_⟩
  · unfold updateStarRounded
    rw [h, mul_zero, z64, add_zero, hg64, hg32,
      subtractLoop_of_le _ _ _ (by rw [hT]; norm_num)]
    simp only [Option.some_bind]
    rw [addLoop, if_pos (by norm_num), hT, hadd, addLoop_of_nonneg _ _ _ (by norm_num)]
    rfl
  · unfold updateStarRounded
    rw [h, mul_zero, z64, add_zero, ha64, ha32]
    rw [subtractLoop, if_pos (by rw [hT]; norm_num), hT, hsub,
      subtractLoop_of_le _ _ _ (by rw [hT]; norm_num)]
    simp only [Option.some_bind]
    rw [addLoop_of_nonneg _ _ _ (by norm_num)]
    rfl
  · have hloop : ∀ n, subtractLoop binaryRounding n 1000000000 = none := by
      intro n
      induction n with
      | zero => rw [subtractLoop, if_pos (by rw [hT]; norm_num)]
      | succ n ih => rw [subtractLoop, if_pos (by rw [hT]; norm_num), hT, hfar, ih]
    unfold updateStarRounded
    rw [h, mul_zero, z64, add_zero, hb64, hb32, hloop]
    rfl

/-- The angle and the phase that `updateGalacticGas` leaves. -/
theorem updateCloudRounded_angle_phase (fp : Rounding F) (m : Libm F) (c : GasCloud F)
    (dt : F) :
    (updateCloudRounded fp m c dt).angle
        = wrapNegativeRounded fp
            (fmodf (fp.f32 (fp.f64 (c.angle + fp.f64 (c.angularVelocity * dt))))
              (fp.f32 (twoPiDouble fp)))
            (fp.f32 (twoPiDouble fp))
      ∧ (updateCloudRounded fp m c dt).turbulencePhase
        = wrapNegativeRounded fp
            (fmodf (fp.f32 (fp.f64 (c.turbulencePhase + fp.f64 (c.turbulenceSpeed * dt))))
              (fp.f32 (twoPiDouble fp)))
            (fp.f32 (twoPiDouble fp)) := by
  unfold updateCloudRounded
  simp only [restoreHeight_eq, and_self]

/-- The value of `fmodf` at an argument of size below the modulus, and at the
modulus. -/
theorem fmodf_small (x y : F) (hy : 0 < y) :
    (-y < x → x < y → fmodf x y = x) ∧ fmodf y y = 0 := by
  constructor
  · intro h0 h1
    rcases le_or_lt 0 x with c | c
    · exact fmodf_of_mem c h1
    · unfold fmodf truncToInt
      have hq : x / y < 0 := div_neg_of_neg_of_pos c hy
      rw [if_neg (not_le.mpr hq)]
      have : ⌈x / y⌉ = 0 := by
        rw [Int.ceil_eq_iff]
        refine ⟨?_, by simpa using hq.le⟩
        have : -1 < x / y := by
          rw [lt_div_iff₀ hy]; linarith
        simpa using this
      rw [this]; simp
  · unfold fmodf truncToInt
    rw [div_self hy.ne', if_pos zero_le_one]
    simp

/-- The wrap of `updateGalacticGas` at the value `-2⁻²⁷` of a field gives
`TWO_PI`, and at the value `TWO_PI` it gives `0`. -/
theorem gasWrapRounded_eval :
    binaryRounding.f32 (twoPiDouble binaryRounding) = 13176795 / 2 ^ 21
      ∧ (∀ v : ℚ, wrapNegativeRounded binaryRounding
          (fmodf (binaryRounding.f32 (binaryRounding.f64
            (-(1 / 2 ^ 27) + binaryRounding.f64 (v * 0)))) (13176795 / 2 ^ 21))
          (13176795 / 2 ^ 21) = 13176795 / 2 ^ 21)
      ∧ (∀ v : ℚ, wrapNegativeRounded binaryRounding
          (fmodf (binaryRounding.f32 (binaryRounding.f64
            (13176795 / 2 ^ 21 + binaryRounding.f64 (v * 0)))) (13176795 / 2 ^ 21))
          (13176795 / 2 ^ 21) = 0) := by
  obtain ⟨⟨_, z64⟩, hT, hA, ⟨hg64, hg32⟩, ⟨ha64, ha32⟩, _, _, _, _, hwrap, _⟩ :=
    binaryRounding_values
  refine ⟨by rw [hT, hA], ?_, ?_⟩
  · intro v
    rw [mul_zero, z64, add_zero, hg64, hg32,
      (fmodf_small (-(1 / 2 ^ 27)) (13176795 / 2 ^ 21) (by norm_num)).1 (by norm_num)
        (by norm_num)]
    unfold wrapNegativeRounded
    rw [if_pos (by norm_num), hwrap]
  · intro v
    rw [mul_zero, z64, add_zero, ha64, ha32, (fmodf_small (13176795 / 2 ^ 21) (13176795 / 2 ^ 21) (by norm_num)).2]
    unfold wrapNegativeRounded
    rw [if_neg (by norm_num)]

/-- Without rounding the value of `2.0f * M_PI` is `2 * M_PI`. -/
theorem twoPiDouble_exact : twoPiDouble (exactRounding : Rounding F) = 2 * M_PI := rfl

/-- Without rounding the first loop is `subWhileAbove`, for enough fuel. -/
theorem subtractLoop_exact (x : F) :
    ∃ n : Nat, ∀ fuel, n ≤ fuel →
      subtractLoop (exactRounding : Rounding F) fuel x = some (subWhileAbove (2 * M_PI) x) := by
  induction x using subWhileAbove.induct (2 * M_PI : F) with
  | case1 x h ih =>
    obtain ⟨n, hn⟩ := ih
    refine ⟨n + 1, fun fuel hf => ?_⟩
    obtain ⟨f, rfl⟩ : ∃ f, fuel = f + 1 := ⟨fuel - 1, by omega⟩
    rw [subtractLoop, twoPiDouble_exact, if_pos h, subWhileAbove, if_pos h]
    exact hn f (by omega)
  | case2 x h =>
    refine ⟨0, fun fuel _ => ?_⟩
    rw [subtractLoop_of_le _ _ _ (by rw [twoPiDouble_exact]; exact h), subWhileAbove, if_neg h]

/-- Without rounding the second loop is `addWhileBelow`, for enough fuel. -/
theorem addLoop_exact (x : F) :
    ∃ n : Nat, ∀ fuel, n ≤ fuel →
      addLoop (exactRounding : Rounding F) fuel x = some (addWhileBelow 0 x) := by
  induction x using addWhileBelow.induct (0 : F) with
  | case1 x h ih =>
    obtain ⟨n, hn⟩ := ih
    refine ⟨n + 1, fun fuel hf => ?_⟩
    obtain ⟨f, rfl⟩ : ∃ f, fuel = f + 1 := ⟨fuel - 1, by omega⟩
    rw [addLoop, twoPiDouble_exact, if_pos h, addWhileBelow, if_pos h]
    exact hn f (by omega)
  | case2 x h =>
    refine ⟨0, fun fuel _ => ?_⟩
    rw [addLoop_of_nonneg _ _ _ h, addWhileBelow, if_neg h]

/-- Without rounding the body of `updateStarPositions` with the conversions
written out is `updateStar`, for enough fuel. -/
theorem updateStarRounded_exact (m : Libm F) (star : Star F) (deltaTime : F) :
    ∃ n : Nat, ∀ fuel, n ≤ fuel →
      updateStarRounded exactRounding m fuel star deltaTime
        = some (updateStar m star deltaTime) := by
  obtain ⟨n1, h1⟩ := subtractLoop_exact (star.angle + star.angularVelocity * deltaTime)
  obtain ⟨n2, h2⟩ := addLoop_exact
    (subWhileAbove (2 * M_PI) (star.angle + star.angularVelocity * deltaTime))
  refine ⟨max n1 n2, fun fuel hf => ?_⟩
  unfold updateStarRounded
  have e : (exactRounding : Rounding F).f32 ((exactRounding : Rounding F).f64
      (star.angle + (exactRounding : Rounding F).f64 (star.angularVelocity * deltaTime)))
      = star.angle + star.angularVelocity * deltaTime := rfl
  rw [e, h1 fuel (le_trans (le_max_left _ _) hf)]
  simp only [Option.some_bind]
  rw [h2 fuel (le_trans (le_max_right _ _) hf)]
  rfl

/-- Without rounding the body of `updateGalacticGas` with the conversions
written out is `updateCloud`. -/
theorem updateCloudRounded_exact (m : Libm F) (cloud : GasCloud F) (deltaTime : F) :
    updateCloudRounded exactRounding m cloud deltaTime = updateCloud m cloud deltaTime := by
  rw [updateCloud_eq]
  unfold updateCloudRounded wrapNegativeRounded
  simp only [restoreHeight_eq, ite_self]
  rfl

end RoundedLemmas

/-! ## Kinematics in the arithmetic of `float` and `double`: the wrap -/

section RoundedClaims

set_option linter.unusedSectionVars false

variable {F : Type} [LinearOrderedField F] [FloorRing F] {G : Type}

/-- C4, failing runs.  In the arithmetic of `float` and `double`, a tick with
`deltaTime = 0` of a star with the angle `-2⁻²⁷` (about `-7.45e-9`) returns,
for every fuel that allows one test more than the loops run, with the angle
`13176795 / 2²¹ = 6.2831854820251465`, the `float` nearest to `2π`: it is above
the `double` value of `2.0f * M_PI`, above `2 * M_PI` for the decimal constant
and above `2π`, so the angle is not in `[0, 2π)`.  A tick of a star with the
angle `10⁹` returns for no fuel: the `float` of `10⁹ - 2π` is `10⁹` again. -/
theorem star_angle_leaves_range :
    (∀ fuel, ∃ star,
        updateStarPositionsRounded binaryRounding ratLibm (fuel + 1) [grazingStar] 0
          = some [star]
        ∧ star.angle = 13176795 / 2 ^ 21)
      ∧ twoPiDouble binaryRounding < 13176795 / 2 ^ 21
      ∧ 2 * (M_PI : ℚ) < 13176795 / 2 ^ 21
      ∧ 2 * Real.pi < ((13176795 / 2 ^ 21 : ℚ) : ℝ)
      ∧ (∀ fuel,
          updateStarPositionsRounded binaryRounding ratLibm fuel [farTurnedStar] 0 = none) := by
  refine ⟨fun fuel => ⟨placeStar binaryRounding ratLibm grazingStar (13176795 / 2 ^ 21), ?_,
    rfl⟩, ?_, binaryRounding_values.2.2.2.2.2.2.2.2.2.2.2.1,
    binaryRounding_values.2.2.2.2.2.2.2.2.2.2.2.2, fun fuel => ?_⟩
  · rw [updateStarPositionsRounded_singleton,
      (updateStarRounded_runs ratLibm grazingStar).1 rfl]
    rfl
  · rw [binaryRounding_values.2.1]
    exact binaryRounding_values.2.2.2.2.2.2.2.2.2.2.1
  · rw [updateStarPositionsRounded_singleton,
      (updateStarRounded_runs ratLibm farTurnedStar).2.2 rfl]
    rfl

/-- C5, failing run.  In the arithmetic of `float` and `double`, a tick with
`deltaTime = 0` of a cloud whose angle and turbulence phase are `-2⁻²⁷` leaves
both at `13176795 / 2²¹ = 6.2831854820251465`, the value of the constant
`TWO_PI` itself: `fmodf` returns `-2⁻²⁷` and the `float` of `-2⁻²⁷ + TWO_PI` is
`TWO_PI`.  The value is above `2 * M_PI` for the decimal constant and above
`2π`, so neither field is in `[0, 2π)`. -/
theorem gas_angle_reaches_twoPi :
    (∃ cloud, updateGalacticGasRounded binaryRounding ratLibm [grazingCloud] 0 = [cloud]
        ∧ cloud.angle = 13176795 / 2 ^ 21
        ∧ cloud.turbulencePhase = 13176795 / 2 ^ 21)
      ∧ binaryRounding.f32 (twoPiDouble binaryRounding) = 13176795 / 2 ^ 21
      ∧ 2 * (M_PI : ℚ) < 13176795 / 2 ^ 21
      ∧ 2 * Real.pi < ((13176795 / 2 ^ 21 : ℚ) : ℝ) := by
  obtain ⟨e1, e2, _⟩ := gasWrapRounded_eval
  obtain ⟨a, p⟩ := updateCloudRounded_angle_phase binaryRounding ratLibm grazingCloud 0
  refine ⟨⟨updateCloudRounded binaryRounding ratLibm grazingCloud 0, rfl, ?_, ?_⟩, e1,
    binaryRounding_values.2.2.2.2.2.2.2.2.2.2.2.1,
    binaryRounding_values.2.2.2.2.2.2.2.2.2.2.2.2⟩
  · rw [a, e1]
    exact e2 _
  · rw [p, e1]
    exact e2 _

/-- C8, failing runs.  In the arithmetic of `float` and `double`, the first
tick with `deltaTime = 0` of a star with the angle `-2⁻²⁷` leaves the angle
`6.2831854820251465` and the second leaves `6151831 / 2⁴⁵ = 1.7484555e-7`, so
two ticks do not return what one tick returns; the first tick of a cloud with
the angle `-2⁻²⁷` leaves the angle `TWO_PI` and the second leaves `0`. -/
theorem tick_zero_not_idempotent :
    (∀ fuel, ∃ s1 s2,
        updateStarPositionsRounded binaryRounding ratLibm (fuel + 1) [grazingStar] 0
          = some [s1]
        ∧ updateStarPositionsRounded binaryRounding ratLibm (fuel + 1) [s1] 0 = some [s2]
        ∧ s1.angle = 13176795 / 2 ^ 21 ∧ s2.angle = 6151831 / 2 ^ 45
        ∧ (updateStarPositionsRounded binaryRounding ratLibm (fuel + 1) [grazingStar] 0).bind
              (fun stars => updateStarPositionsRounded binaryRounding ratLibm (fuel + 1) stars 0)
            ≠ updateStarPositionsRounded binaryRounding ratLibm (fuel + 1) [grazingStar] 0)
      ∧ (∃ c1 c2,
          updateGalacticGasRounded binaryRounding ratLibm [grazingCloud] 0 = [c1]
          ∧ updateGalacticGasRounded binaryRounding ratLibm [c1] 0 = [c2]
          ∧ c1.angle = 13176795 / 2 ^ 21 ∧ c2.angle = 0
          ∧ updateGalacticGasRounded binaryRounding ratLibm
                (updateGalacticGasRounded binaryRounding ratLibm [grazingCloud] 0) 0
              ≠ updateGalacticGasRounded binaryRounding ratLibm [grazingCloud] 0) := by
  constructor
  · intro fuel
    have t1 : updateStarPositionsRounded binaryRounding ratLibm (fuel + 1) [grazingStar] 0
        = some [placeStar binaryRounding ratLibm grazingStar (13176795 / 2 ^ 21)] := by
      rw [updateStarPositionsRounded_singleton,
        (updateStarRounded_runs ratLibm grazingStar).1 rfl]
      rfl
    have t2 : updateStarPositionsRounded binaryRounding ratLibm (fuel + 1)
        [placeStar binaryRounding ratLibm grazingStar (13176795 / 2 ^ 21)] 0
        = some [placeStar binaryRounding ratLibm
            (placeStar binaryRounding ratLibm grazingStar (13176795 / 2 ^ 21))
            (6151831 / 2 ^ 45)] := by
      rw [updateStarPositionsRounded_singleton,
        (updateStarRounded_runs ratLibm _).2.1 rfl]
      rfl
    refine ⟨_, _, t1, t2, rfl, rfl, ?_⟩
    rw [t1, Option.some_bind, t2]
    intro h
    have h2 := congrArg (fun o => o.map (fun l => l.map Star.angle)) h
    simp only [Option.map_some', List.map_cons, List.map_nil, Option.some.injEq,
      List.cons.injEq, and_true] at h2
    have h3 : (6151831 / 2 ^ 45 : ℚ) = 13176795 / 2 ^ 21 := h2
    norm_num at h3
  · obtain ⟨e1, e2, e3⟩ := gasWrapRounded_eval
    obtain ⟨a1, _⟩ := updateCloudRounded_angle_phase binaryRounding ratLibm grazingCloud 0
    have ha1 : (updateCloudRounded binaryRounding ratLibm grazingCloud 0).angle
        = 13176795 / 2 ^ 21 := by
      rw [a1, e1]; exact e2 _
    obtain ⟨a2, _⟩ := updateCloudRounded_angle_phase binaryRounding ratLibm
      (updateCloudRounded binaryRounding ratLibm grazingCloud 0) 0
    have ha2 : (updateCloudRounded binaryRounding ratLibm
        (updateCloudRounded binaryRounding ratLibm grazingCloud 0) 0).angle = 0 := by
      rw [a2, e1, ha1]; exact e3 _
    refine ⟨_, _, rfl, rfl, ha1, ha2, ?_⟩
    intro h
    have h2 := congrArg (fun l => l.map GasCloud.angle) h
    simp only [updateGalacticGasRounded, List.map_cons, List.map_nil, List.cons.injEq,
      and_true] at h2
    rw [ha1, ha2] at h2
    norm_num at h2

end RoundedClaims

end Galaxy
